import Mathlib

/-!
# Worker-side authentication of ocserv (`src/worker-auth.c`)

A shallow embedding of the functions of `worker-auth.c` and theorems about them.

Conventions of the embedding

* A C `char` is a `Byte` (a natural number); byte strings are lists of bytes.
* A C string stored in a buffer is read through `cstr`, which stops at the first NUL.
* Collaborators that are not part of `worker-auth.c` (the TLS session, the allocator, the
  certificate store, the security module, the unescape and base64 helpers) are inputs of the
  model, gathered in `Env`; compile-time constants of headers are gathered in `Consts`.
-/

namespace WorkerAuth

/-! ## Bytes and C strings -/

/-- A C `char`. -/
abbrev Byte := Nat

/-- The bytes of an ASCII literal. -/
def lit (s : String) : List Byte := s.toList.map Char.toNat

/-- The C string held by a buffer: its bytes up to the first NUL (a list that ends without a NUL
is a buffer whose terminator sits right after it). -/
def cstr : List Byte → List Byte
  | [] => []
  | b :: bs => if b = 0 then [] else b :: cstr bs

/-- The test `strcmp(a, b) == 0`. -/
def strcmp_eq (a b : List Byte) : Bool := cstr a == cstr b

/-- The test `strncmp(a, b, n) == 0`: the first `n` bytes of the two C strings agree. -/
def strncmp_eq (a b : List Byte) (n : Nat) : Bool := (cstr a).take n == (cstr b).take n

/-- What `snprintf(buf, size, ...)` leaves in `buf` as a C string when the fully formatted text is
`text`: at most `size - 1` bytes of it. -/
def snprintf_buf (size : Nat) (text : List Byte) : List Byte := text.take (size - 1)

/-- The value `snprintf` returns: the length of the fully formatted text, truncated or not. -/
def snprintf_ret (text : List Byte) : Nat := text.length

/-- The bytes `printf` writes for `%u` of an `unsigned` argument. -/
def fmt_u (n : Nat) : List Byte := lit (Nat.repr (n % 4294967296))

/-- The function `memmem(hay, haylen, needle, needlelen)` with `hay` the `haylen` bytes of the
haystack and `needle` the `needlelen` bytes of the needle: the offset of the first occurrence. -/
def memmem : List Byte → List Byte → Option Nat
  | [], needle => if needle = [] then some 0 else none
  | h :: hs, needle =>
    if needle.isPrefixOf (h :: hs) then some 0
    else (memmem hs needle).map (· + 1)

/-! ## The collaborators of the worker -/

/-- One occurrence of the group attribute in the peer certificate, as the two calls of
`gnutls_x509_crt_get_dn_by_oid` made for it report it: the size query and the fetch. -/
structure GroupAttr where
  size_ret : Int
  size : Nat
  fetch_ret : Int
  value : List Byte

/-- What the certificate store reports about the peer certificate. -/
structure PeerCert where
  init_ret : Int
  import_ret : Int
  dn_ret : Int
  dn : List Byte
  user_ret : List Byte → Int
  user : List Byte → List Byte
  groups : List Byte → List GroupAttr

/-- The reply values of the `AUTH__REP` enumeration. -/
inductive AuthRep
  | OK
  | MSG
  | FAILED
  | other (n : Nat)
  deriving DecidableEq, Repr

/-- The message `SecAuthReplyMsg`. -/
structure SecAuthReplyMsg where
  reply : AuthRep
  msg : Option (List Byte) := none
  has_sid : Bool := false
  sid : List Byte := []
  has_cookie : Bool := false
  cookie : List Byte := []
  dtls_session_id : List Byte := []
  user_name : Option (List Byte) := none

/-- What `recv_msg` hands back: a negative return value `-(e+1)`, or a message. -/
inductive RecvResult
  | error (e : Nat)
  | msg (m : SecAuthReplyMsg)

/-- The message `AuthReplyMsg`, the reply to a cookie redemption. A NULL string is `none`;
`n_routes`, `n_dns` and `n_nbns` are the lengths of `routes`, `dns` and `nbns`. -/
structure AuthReplyMsg where
  reply : AuthRep
  vname : Option (List Byte) := none
  user_name : Option (List Byte) := none
  group_name : Option (List Byte) := none
  session_id : List Byte := []
  ipv4 : Option (List Byte) := none
  ipv6 : Option (List Byte) := none
  ipv4_local : Option (List Byte) := none
  ipv6_local : Option (List Byte) := none
  ipv4_netmask : Option (List Byte) := none
  ipv6_netmask : Option (List Byte) := none
  ipv6_prefix : Nat := 0
  has_rx_per_sec : Bool := false
  rx_per_sec : Nat := 0
  has_tx_per_sec : Bool := false
  tx_per_sec : Nat := 0
  has_net_priority : Bool := false
  net_priority : Nat := 0
  has_no_udp : Bool := false
  no_udp : Nat := 0
  routes : List (List Byte) := []
  dns : List (List Byte) := []
  nbns : List (List Byte) := []

/-- What `recv_socket_msg` hands back: a negative return value `-(e+1)`, or a message and the
value it leaves in `socketfd` (`-1` when no file descriptor came with the message). -/
inductive CookieRecvResult
  | error (e : Nat)
  | msg (m : AuthReplyMsg) (socketfd : Int)

/-- The collaborators of one handler call. Each oracle answers for the environment: whether a
write to the TLS session, an allocation or a connection succeeds, and what the helpers that live
outside `worker-auth.c` compute. -/
structure Env where
  tls_ok : List (List Byte) → List Byte → Bool
  uncork_ok : List (List Byte) → Bool
  str_ok : List Byte → List Byte → Bool
  base64_encode : List Byte → List Byte
  unescape_url : List Byte → Option (List Byte)
  unescape_html : List Byte → Option (List Byte)
  peers : Option PeerCert
  realloc_ok : Nat → Bool
  alloc_ok : Nat → Bool
  connect_ok : Bool
  send_ok : Bool
  recv : RecvResult
  memdup_ok : Bool
  stack_msg : List Byte
  remote_ip : List Byte
  strdup_ok : List Byte → Bool
  check_if_default_route : List (Option (List Byte)) → Nat → Bool
  cookie_reply : CookieRecvResult

/-- Constants of the headers (`vpn.h`, `worker.h`, `config.h`, `gnutls.h`) that `worker-auth.c`
uses: buffer sizes, error codes, flag bits. -/
structure Consts where
  SID_SIZE : Nat
  SESSION_ID_SIZE : Nat
  MAX_USERNAME_SIZE : Nat
  MAX_GROUPNAME_SIZE : Nat
  CERT_USERNAME_SIZE : Nat
  VNAME_SIZE : Nat
  MAX_MSG_SIZE : Nat
  MAX_BANNER_SIZE : Nat
  MAX_AUTH_SECS : Nat
  ERR_AUTH_FAIL : Int
  ERR_AUTH_CONTINUE : Int
  AUTH_TYPE_USERNAME_PASS : Nat
  AUTH_TYPE_CERTIFICATE : Nat
  ANYCONNECT_CLIENT_COMPAT : Bool
  GNUTLS_E_REQUESTED_DATA_NOT_AVAILABLE : Int
  GNUTLS_E_SHORT_MEMORY_BUFFER : Int
  GNUTLS_E_INTERNAL_ERROR : Int

/-! ## The credential body parser -/

/-- What `parse_reply` returns together with what it leaves in `*value`. -/
inductive ParseResult
  /-- The delimiter was not found: returns -1, `*value` is NULL. -/
  | not_found
  /-- The value has length 0: returns -1, `*value` points into the body at offset `off`. -/
  | empty (off : Nat)
  /-- The unescape helper returned NULL: returns -1, `*value` is NULL. -/
  | unescape_failed
  /-- Returns 0, `*value` is the unescaped copy. -/
  | ok (v : List Byte)
  deriving DecidableEq, Repr

/-- Whether `parse_reply` left in `*value` a pointer into the request body. -/
def ParseResult.in_body : ParseResult → Bool
  | .empty _ => true
  | _ => false

/-- The return value of `parse_reply`. -/
def ParseResult.ret : ParseResult → Int
  | .ok _ => 0
  | _ => -1

/-- The value `parse_reply` produced, when it succeeded. -/
def ParseResult.value : ParseResult → Option (List Byte)
  | .ok v => some v
  | _ => none

/-- The first `len` bytes of a 64-byte temporary after `snprintf(temp, 64, ...)` formatted
`text` into it (`len` is the value `snprintf` returned; the byte after the stored text is its
NUL). For `len > 64` the C code reads past the temporary; the model stops at its end. -/
def temp_bytes (text : List Byte) (len : Nat) : List Byte :=
  (snprintf_buf 64 text ++ [0]).take len

/-- The loop of the XML branch: the number of bytes from `p` up to the first NUL or the first
`<` at which `strncmp(p, temp2, temp2_len) == 0`. -/
def scan_xml (temp2 : List Byte) (temp2_len : Nat) : List Byte → Nat
  | [] => 0
  | b :: bs =>
    if b = 0 then 0
    else if b = 60 ∧ strncmp_eq (b :: bs) temp2 temp2_len = true then 0
    else scan_xml temp2 temp2_len bs + 1

/-- The loop of the form branch: the number of bytes from `p` up to the first NUL or `&`. -/
def scan_form : List Byte → Nat
  | [] => 0
  | b :: bs =>
    if b = 0 then 0
    else if b = 38 then 0
    else scan_form bs + 1

/-- The common tail of `parse_reply`: the empty-value test and the unescape call. -/
def parse_finish (unescape : List Byte → Option (List Byte)) (body : List Byte)
    (start len : Nat) : ParseResult :=
  if len = 0 then .empty start
  else
    match unescape ((body.drop start).take len) with
    | none => .unescape_failed
    | some v => .ok v

/-- The XML branch of `parse_reply`, searching the tag `field`. -/
def parse_reply_xml (e : Env) (body : List Byte) (body_length : Nat) (field : List Byte) :
    ParseResult :=
  let text1 := lit "<" ++ cstr field ++ lit ">"
  let text2 := lit "</" ++ cstr field ++ lit ">"
  let temp1_len := snprintf_ret text1
  let temp2 := snprintf_buf 64 text2
  let temp2_len := snprintf_ret text2
  match memmem (body.take body_length) (temp_bytes text1 temp1_len) with
  | none => .not_found
  | some off =>
    let start := off + temp1_len
    parse_finish e.unescape_html body start (scan_xml temp2 temp2_len (body.drop start))

/-- The form branch of `parse_reply`. -/
def parse_reply_form (e : Env) (body : List Byte) (body_length : Nat) (field : List Byte) :
    ParseResult :=
  let text1 := cstr field ++ lit "="
  let temp1_len := snprintf_ret text1
  match memmem (body.take body_length) (temp_bytes text1 temp1_len) with
  | none => .not_found
  | some off =>
    let start := off + temp1_len
    parse_finish e.unescape_url body start (scan_form (body.drop start))

/-- The test `memmem(body, body_length, "<?xml", 5) != 0`. -/
def body_is_xml (body : List Byte) (body_length : Nat) : Bool :=
  (memmem (body.take body_length) (lit "<?xml")).isSome

/-- The tag searched in XML mode: `xml_field` when it is not NULL, else `field`. -/
def xml_tag (field : List Byte) (xml_field : Option (List Byte)) : List Byte :=
  match xml_field with
  | some x => x
  | none => field

/-- The function `parse_reply`. `body` holds the bytes of the request buffer, whose terminating
NUL follows them; `xml_field` is `none` for a NULL pointer. The arguments `field_size` and
`xml_field_size` are left out: the C function never reads them. -/
def parse_reply (e : Env) (body : List Byte) (body_length : Nat) (field : List Byte)
    (xml_field : Option (List Byte)) : ParseResult :=
  if body_is_xml body body_length then
    parse_reply_xml e body body_length (xml_tag field xml_field)
  else
    parse_reply_form e body body_length field

/-! ## The session -/

/-- Modelled from the spec: the values of `auth_state`, an enumeration declared in `worker.h`;
the spec lists INACTIVE, INIT, REQ and COOKIE. -/
inductive AuthState
  | S_AUTH_INACTIVE
  | S_AUTH_INIT
  | S_AUTH_REQ
  | S_AUTH_COOKIE
  deriving DecidableEq, Repr

/-- Modelled from the spec: the order INACTIVE < INIT < REQ < COOKIE of the states, as the
position of each state in it. -/
def AuthState.rank : AuthState → Nat
  | .S_AUTH_INACTIVE => 0
  | .S_AUTH_INIT => 1
  | .S_AUTH_REQ => 2
  | .S_AUTH_COOKIE => 3

/-- The fields of `ws->config->network` that `worker-auth.c` writes. -/
structure Network where
  ipv4_netmask : Option (List Byte) := none
  ipv6_netmask : Option (List Byte) := none
  ipv6_prefix : Nat := 0

/-- The fields of `ws->config` that `worker-auth.c` reads or writes. A NULL pointer is `none`;
`group_list_size` is the length of `group_list`. -/
structure Config where
  auth_types : Nat := 0
  group_list : List (List Byte) := []
  friendly_group_list : Option (List (Option (List Byte))) := none
  default_select_group : Option (List Byte) := none
  banner : Option (List Byte) := none
  cert_user_oid : Option (List Byte) := none
  cert_group_oid : Option (List Byte) := none
  cert_hash : List Byte := []
  xml_config_file : Option (List Byte) := none
  xml_config_hash : List Byte := []
  network : Network := {}
  rx_per_sec : Nat := 0
  tx_per_sec : Nat := 0
  net_priority : Nat := 0
  udp_port : Nat := 0

/-- The fields of `ws->req` that `worker-auth.c` reads. -/
structure HttpReq where
  body : List Byte := []
  body_length : Nat := 0
  hostname : List Byte := []

/-- The fields of `ws->vinfo` that `worker-auth.c` writes. A NULL pointer is `none`. -/
structure VInfo where
  name : List Byte := []
  ipv4 : Option (List Byte) := none
  ipv6 : Option (List Byte) := none
  ipv4_local : Option (List Byte) := none
  ipv6_local : Option (List Byte) := none

/-- The three fixed arrays of the session that `recv_cookie_auth_reply` fills. -/
inductive ArrayId
  | routes
  | dns
  | nbns
  deriving DecidableEq, Repr

/-- A write past the end of a fixed array, which is undefined behaviour in C: the array, the
index and the pointer written. -/
structure StrayWrite where
  array : ArrayId
  index : Nat
  value : Option (List Byte)
  deriving DecidableEq, Repr

/-- The fields of the worker session `worker_st` that the authentication handlers use.
`cert_groups_size` is the length of `cert_groups`. The arrays `routes`, `dns` and `nbns` have a
fixed number of elements, declared in `worker.h`: each is the list of its elements, a NULL
element being `none`, and the length of the list is the capacity of the array. The field
`stray_writes` is not a field of `worker_st`: it records, in order, the writes that went past
the end of one of the three arrays. -/
structure Session where
  auth_state : AuthState := .S_AUTH_INACTIVE
  sid : List Byte := []
  sid_set : Nat := 0
  username : List Byte := []
  groupname : List Byte := []
  cert_username : List Byte := []
  cert_groups : List (List Byte) := []
  cert_auth_ok : Nat := 0
  cookie : Option (List Byte) := none
  cookie_size : Nat := 0
  cookie_set : Nat := 0
  session_id : List Byte := []
  req : HttpReq := {}
  config : Config := {}
  tun_fd : Int := -1
  vinfo : VInfo := {}
  routes : List (Option (List Byte)) := []
  routes_size : Nat := 0
  default_route : Nat := 0
  dns : List (Option (List Byte)) := []
  dns_size : Nat := 0
  nbns : List (Option (List Byte)) := []
  nbns_size : Nat := 0
  stray_writes : List StrayWrite := []

/-- The bytes handed to the TLS session, one entry for each successful `tls_printf`, `tls_puts`
or `tls_send`. -/
abbrev Tls := List (List Byte)

/-- Modelled from the spec: the session primitives `tls_printf`, `tls_puts` and `tls_send` of
`tlslib`, external collaborators: a call hands its bytes to the session, or fails (`none`, a
negative return value) and hands over nothing. -/
def tls_write (e : Env) (out : Tls) (data : List Byte) : Option Tls :=
  if e.tls_ok out data then some (out ++ [data]) else none

/-- Modelled from the spec: `str_append_str` of the string buffer `str_st`: appends the C string
`data`, or fails (`none`) when the buffer cannot grow. -/
def str_append_str (e : Env) (str data : List Byte) : Option (List Byte) :=
  if e.str_ok str data then some (str ++ cstr data) else none

/-! ## The challenge renderer -/

def VERSION_MSG : List Byte := lit "<version who=\"sg\">0.1(1)</version>\n"

def SUCCESS_MSG_HEAD : List Byte :=
  lit "<?xml version=\"1.0\" encoding=\"UTF-8\"?>\n" ++
  lit "<config-auth client=\"vpn\" type=\"complete\">\n" ++
  VERSION_MSG ++
  lit "<auth id=\"success\">\n" ++
  lit "<title>SSL VPN Service</title>"

def SUCCESS_MSG_FOOT : List Byte := lit "</auth></config-auth>\n"

def login_msg_user_start : List Byte :=
  lit "<?xml version=\"1.0\" encoding=\"UTF-8\"?>\n" ++
  lit "<config-auth client=\"vpn\" type=\"auth-request\">\n" ++
  VERSION_MSG ++
  lit "<auth id=\"main\">\n" ++
  lit "<message>Please enter your username</message>\n" ++
  lit "<form method=\"post\" action=\"/auth\">\n" ++
  lit "<input type=\"text\" name=\"username\" label=\"Username:\" />\n"

def login_msg_user_end : List Byte := lit "</form></auth>\n" ++ lit "</config-auth>"

def login_msg_no_user_start : List Byte :=
  lit "<?xml version=\"1.0\" encoding=\"UTF-8\"?>\n" ++
  lit "<config-auth client=\"vpn\" type=\"auth-request\">\n" ++
  VERSION_MSG ++
  lit "<auth id=\"main\">\n" ++
  lit "<message>"

def login_msg_no_user_end : List Byte :=
  lit "</message>\n" ++
  lit "<form method=\"post\" action=\"/auth\">\n" ++
  lit "<input type=\"password\" name=\"password\" label=\"Password:\" />\n" ++
  lit "</form></auth></config-auth>\n"

/-- The text `"<option value=\"%s\">%s</option>\n"` as `snprintf` leaves it in `temp[128]`. -/
def option_value_temp (value name : List Byte) : List Byte :=
  snprintf_buf 128
    (lit "<option value=\"" ++ cstr value ++ lit "\">" ++ cstr name ++ lit "</option>\n")

/-- The text `"<option>%s</option>\n"` as `snprintf` leaves it in `temp[128]`. -/
def option_temp (group : List Byte) : List Byte :=
  snprintf_buf 128 (lit "<option>" ++ cstr group ++ lit "</option>\n")

/-- The entry `friendly_group_list[i]` when the list and the entry are not NULL. -/
def friendly_at (c : Config) (i : Nat) : Option (List Byte) :=
  match c.friendly_group_list with
  | none => none
  | some l => l.getD i none

/-- The function `append_group_idx`. -/
def append_group_idx (e : Env) (ws : Session) (str : List Byte) (i : Nat) :
    Option (List Byte) :=
  let value := ws.config.group_list.getD i []
  let name :=
    match friendly_at ws.config i with
    | some n => n
    | none => ws.config.group_list.getD i []
  str_append_str e str (option_value_temp value name)

/-- The loop of `append_group_str`: the first index `i` (counted from `i0`) at which
`strcmp(group_list[i], group) == 0`. -/
def first_group_index (group : List Byte) : List (List Byte) → Nat → Option Nat
  | [], _ => none
  | g :: gs, i => if strcmp_eq g group then some i else first_group_index group gs (i + 1)

/-- The name `append_group_str` displays for `group`. -/
def group_display_name (c : Config) (group : List Byte) : List Byte :=
  match c.friendly_group_list with
  | none => group
  | some l =>
    match first_group_index group c.group_list 0 with
    | none => group
    | some i =>
      match l.getD i none with
      | some n => n
      | none => group

/-- The function `append_group_str`. -/
def append_group_str (e : Env) (ws : Session) (str : List Byte) (group : List Byte) :
    Option (List Byte) :=
  str_append_str e str (option_value_temp group (group_display_name ws.config group))

/-- The loop of `get_cert_names` over the occurrences of the group attribute, from index `i` on,
`acc` holding the groups read so far: the groups on leaving the loop, or the value of `ret` on
`goto fail`. Past the last occurrence the size query answers
`GNUTLS_E_REQUESTED_DATA_NOT_AVAILABLE`. -/
def cert_groups_loop (k : Consts) (e : Env) :
    List GroupAttr → Nat → List (List Byte) → Int ⊕ List (List Byte)
  | [], i, acc => if e.realloc_ok i then .inr acc else .inl (-1)
  | a :: rest, i, acc =>
    if ¬ e.realloc_ok i then .inl (-1)
    else if a.size_ret = k.GNUTLS_E_REQUESTED_DATA_NOT_AVAILABLE then .inr acc
    else if a.size_ret ≠ k.GNUTLS_E_SHORT_MEMORY_BUFFER then
      .inl (if a.size_ret = 0 then k.GNUTLS_E_INTERNAL_ERROR else a.size_ret)
    else if ¬ e.alloc_ok i then .inl (-1)
    else if a.fetch_ret < 0 then .inl a.fetch_ret
    else cert_groups_loop k e rest (i + 1) (acc ++ [a.value])

/-- The function `get_cert_names`: its return value and the session it leaves. -/
def get_cert_names (k : Consts) (e : Env) (ws : Session) (crt : PeerCert) : Int × Session :=
  if cstr ws.cert_username ≠ [] ∨ ws.cert_groups.length > 0 then (0, ws)
  else if crt.init_ret < 0 then (crt.init_ret, ws)
  else if crt.import_ret < 0 then (crt.import_ret, ws)
  else
    let ret :=
      match ws.config.cert_user_oid with
      | some oid => crt.user_ret oid
      | none => crt.dn_ret
    let name :=
      match ws.config.cert_user_oid with
      | some oid => crt.user oid
      | none => crt.dn
    if ret < 0 then (ret, ws)
    else
      let ws1 := { ws with cert_username := (cstr name).take (k.CERT_USERNAME_SIZE - 1) }
      match ws.config.cert_group_oid with
      | none => (0, ws1)
      | some oid =>
        match cert_groups_loop k e (crt.groups oid) 0 [] with
        | .inl r => (r, ws1)
        | .inr groups => (0, { ws1 with cert_groups := groups })

/-- The function `get_cert_info`. -/
def get_cert_info (k : Consts) (e : Env) (ws : Session) : Int × Session :=
  match e.peers with
  | none => (-1, ws)
  | some crt =>
    if (get_cert_names k e ws crt).1 < 0 then (-1, (get_cert_names k e ws crt).2)
    else (0, (get_cert_names k e ws crt).2)

/-- The condition `ws->config->auth_types & AUTH_TYPE_CERTIFICATE && ws->cert_auth_ok != 0`. -/
def cert_enabled (k : Consts) (ws : Session) : Bool :=
  (ws.config.auth_types &&& k.AUTH_TYPE_CERTIFICATE) ≠ 0 ∧ ws.cert_auth_ok ≠ 0

/-- The test of the certificate loop of `get_auth_handler2` that sets `dup` for the group `g`. -/
def cert_group_dup (ws : Session) (g : List Byte) : Bool :=
  ws.config.group_list.any (fun c => strcmp_eq g c) ||
    (cstr ws.groupname ≠ [] && strcmp_eq ws.groupname g)

/-- The loop of `get_auth_handler2` over `ws->cert_groups`. -/
def append_cert_groups (e : Env) (ws : Session) : List (List Byte) → List Byte →
    Option (List Byte)
  | [], str => some str
  | g :: gs, str =>
    if cert_group_dup ws g then append_cert_groups e ws gs str
    else
      match str_append_str e str (option_temp g) with
      | none => none
      | some str1 => append_cert_groups e ws gs str1

/-- The loop of `get_auth_handler2` over the configured groups: `n` iterations from index `i`. -/
def append_config_groups (e : Env) (ws : Session) : Nat → Nat → List Byte →
    Option (List Byte)
  | 0, _, str => some str
  | n + 1, i, str =>
    if cstr ws.groupname ≠ [] ∧ strcmp_eq ws.groupname (ws.config.group_list.getD i []) = true then
      append_config_groups e ws n (i + 1) str
    else
      match append_group_idx e ws str i with
      | none => none
      | some str1 => append_config_groups e ws n (i + 1) str1

/-- The block of `get_auth_handler2` under the comment "send groups". -/
def append_groups (k : Consts) (e : Env) (ws : Session) (str : List Byte) :
    Option (List Byte) :=
  if ws.config.group_list.length > 0 ∨ ws.cert_groups.length > 0 then
    match str_append_str e str (lit "<select name=\"group_list\" label=\"GROUP:\">\n") with
    | none => none
    | some str =>
    match (if cstr ws.groupname ≠ [] then append_group_str e ws str ws.groupname
           else some str) with
    | none => none
    | some str =>
    match (match ws.config.default_select_group with
           | some d => str_append_str e str (option_temp d)
           | none => some str) with
    | none => none
    | some str =>
    match (if cert_enabled k ws then append_cert_groups e ws ws.cert_groups str
           else some str) with
    | none => none
    | some str =>
    match append_config_groups e ws ws.config.group_list.length 0 str with
    | none => none
    | some str => str_append_str e str (lit "</select>\n")
  else some str

/-- The prompt of the password-only document: `pmsg`, or the default when `pmsg == NULL`. -/
def password_prompt (pmsg : Option (List Byte)) : List Byte :=
  match pmsg with
  | some m => m
  | none => lit "Please enter your password."

/-- The part of `get_auth_handler2` that fills `str`: the document, or `none` on a jump to
`cleanup` with `ret = -1`, and the session (which `get_cert_info` may have updated). -/
def get_auth_handler2_str (k : Consts) (e : Env) (ws : Session) (pmsg : Option (List Byte)) :
    Option (List Byte) × Session :=
  if ws.auth_state = .S_AUTH_REQ then
    match str_append_str e [] login_msg_no_user_start with
    | none => (none, ws)
    | some str =>
    match str_append_str e str (password_prompt pmsg) with
    | none => (none, ws)
    | some str =>
    match str_append_str e str login_msg_no_user_end with
    | none => (none, ws)
    | some str => (some str, ws)
  else
    match str_append_str e [] login_msg_user_start with
    | none => (none, ws)
    | some str =>
    if cert_enabled k ws = true ∧ (get_cert_info k e ws).1 < 0 then
      (none, (get_cert_info k e ws).2)
    else
      let ws1 := if cert_enabled k ws then (get_cert_info k e ws).2 else ws
      match append_groups k e ws1 str with
      | none => (none, ws1)
      | some str =>
      match str_append_str e str login_msg_user_end with
      | none => (none, ws1)
      | some str => (some str, ws1)

/-- The function `get_auth_handler2`: its return value, the session and the TLS output it
leaves. `pmsg` is `none` for a NULL pointer. -/
def get_auth_handler2 (k : Consts) (e : Env) (ws : Session) (http_ver : Nat)
    (pmsg : Option (List Byte)) (out : Tls) : Int × Session × Tls :=
  match tls_write e out (lit "HTTP/1." ++ fmt_u http_ver ++ lit " 200 OK\r\n") with
  | none => (-1, ws, out)
  | some out =>
  match tls_write e out (lit "Connection: Keep-Alive\r\n") with
  | none => (-1, ws, out)
  | some out =>
  match (if ws.sid_set ≠ 0 then
           tls_write e out (lit "Set-Cookie: webvpncontext=" ++ cstr (e.base64_encode ws.sid) ++
             lit "; Max-Age=" ++ fmt_u k.MAX_AUTH_SECS ++ lit "; Secure\r\n")
         else some out) with
  | none => (-1, ws, out)
  | some out =>
  match tls_write e out (lit "Content-Type: text/xml\r\n") with
  | none => (-1, ws, out)
  | some out =>
  match get_auth_handler2_str k e ws pmsg with
  | (none, ws) => (-1, ws, out)
  | (some str, ws) =>
  match tls_write e out (lit "Content-Length: " ++ fmt_u str.length ++ lit "\r\n") with
  | none => (-1, ws, out)
  | some out =>
  match tls_write e out (lit "X-Transcend-Version: 1\r\n") with
  | none => (-1, ws, out)
  | some out =>
  match tls_write e out (lit "\r\n") with
  | none => (-1, ws, out)
  | some out =>
  match tls_write e out str with
  | none => (-1, ws, out)
  | some out =>
  if e.uncork_ok out then (0, ws, out) else (-1, ws, out)

/-- The function `get_auth_handler`. -/
def get_auth_handler (k : Consts) (e : Env) (ws : Session) (http_ver : Nat) (out : Tls) :
    Int × Session × Tls :=
  get_auth_handler2 k e ws http_ver none out

/-! ## The dialogue with the security module -/

/-- The function `recv_auth_reply`, called with the buffer `txt` (`none` for NULL) of
`max_txt_size` bytes: its return value, the session and the content of `txt` it leaves. -/
def recv_auth_reply (k : Consts) (e : Env) (ws : Session) (txt : Option (List Byte))
    (max_txt_size : Nat) : Int × Session × Option (List Byte) :=
  match e.recv with
  | .error n => (Int.negSucc n, ws, txt)
  | .msg m =>
    match m.reply with
    | .MSG =>
      match txt, m.msg with
      | some _, some text =>
        let ws1 :=
          if m.has_sid = true ∧ m.sid.length = k.SID_SIZE then
            { ws with sid := m.sid, sid_set := 1 }
          else ws
        (k.ERR_AUTH_CONTINUE, ws1, some (snprintf_buf max_txt_size (cstr text)))
      | _, _ => (k.ERR_AUTH_FAIL, ws, txt)
    | .OK =>
      match m.user_name with
      | none => (k.ERR_AUTH_FAIL, ws, txt)
      | some user =>
        let ws1 := { ws with username := snprintf_buf k.MAX_USERNAME_SIZE (cstr user) }
        let ws2 :=
          if m.has_sid = true ∧ m.sid.length = k.SID_SIZE then
            { ws1 with sid := m.sid, sid_set := 1 }
          else ws1
        if m.has_cookie = false ∨ m.cookie.length = 0 ∨
            m.dtls_session_id.length ≠ k.SESSION_ID_SIZE then
          (k.ERR_AUTH_FAIL, ws2, txt)
        else
          let ws3 :=
            if e.memdup_ok then
              { ws2 with cookie := some m.cookie, cookie_size := m.cookie.length, cookie_set := 1 }
            else { ws2 with cookie := none }
          (0, { ws3 with session_id := m.dtls_session_id }, txt)
    | .FAILED => (k.ERR_AUTH_FAIL, ws, txt)
    | .other _ => (k.ERR_AUTH_FAIL, ws, txt)

/-! ## Cookie redemption -/

/-- The function `talloc_strdup` of the talloc library: a copy of the C string `s`, or NULL
(`none`) when the allocation fails. -/
def talloc_strdup (e : Env) (s : List Byte) : Option (List Byte) :=
  if e.strdup_ok s then some (cstr s) else none

/-- The array `a` after the assignment `a[i] = v`: the element is replaced when the index lies
inside the array. The array has a fixed number of elements; an assignment past its end does
not change them, and `array_stray` records it. -/
def array_set (a : List (Option (List Byte))) (i : Nat) (v : Option (List Byte)) :
    List (Option (List Byte)) :=
  if i < a.length then a.set i v else a

/-- The record of the assignment `a[i] = v` to the array `id`: nothing for an index inside the
array, a stray write for an index past its end. -/
def array_stray (id : ArrayId) (a : List (Option (List Byte))) (i : Nat)
    (v : Option (List Byte)) : List StrayWrite :=
  if i < a.length then [] else [{ array := id, index := i, value := v }]

/-- The test of the route loop on the entry just stored: it is not NULL and `strcmp` finds it
equal to `"default"` or to `"0.0.0.0/0"`. -/
def is_default_entry (v : Option (List Byte)) : Bool :=
  match v with
  | some s => strcmp_eq s (lit "default") || strcmp_eq s (lit "0.0.0.0/0")
  | none => false

/-- The route loop of `recv_cookie_auth_reply` from index `i` on, over the entries of
`msg->routes` still to copy, `s` being the stray writes so far: the array `ws->routes` on
leaving the loop, whether the loop left through `break` on a default route, and the stray
writes. The loop compares `i` with the count of the reply only, never with the capacity. -/
def copy_routes (e : Env) :
    List (List Byte) → Nat → List (Option (List Byte)) → List StrayWrite →
      List (Option (List Byte)) × Bool × List StrayWrite
  | [], _, a, s => (a, false, s)
  | r :: rs, i, a, s =>
    if is_default_entry (talloc_strdup e r) then
      (array_set a i (talloc_strdup e r), true,
        s ++ array_stray .routes a i (talloc_strdup e r))
    else
      copy_routes e rs (i + 1) (array_set a i (talloc_strdup e r))
        (s ++ array_stray .routes a i (talloc_strdup e r))

/-- The loops of `recv_cookie_auth_reply` over `msg->dns` and `msg->nbns` from index `i` on, for
the array `id`: the array on leaving the loop and the stray writes. -/
def copy_strings (e : Env) (id : ArrayId) :
    List (List Byte) → Nat → List (Option (List Byte)) → List StrayWrite →
      List (Option (List Byte)) × List StrayWrite
  | [], _, a, s => (a, s)
  | r :: rs, i, a, s =>
    copy_strings e id rs (i + 1) (array_set a i (talloc_strdup e r))
      (s ++ array_stray id a i (talloc_strdup e r))

/-- One address field of `ws->vinfo` after `recv_cookie_auth_reply` handled the field `new` of
the reply: unchanged when the reply has none, NULL when it is the sentinel, else a copy. -/
def set_address (e : Env) (old new : Option (List Byte)) (sentinel : List Byte) :
    Option (List Byte) :=
  match new with
  | none => old
  | some s => if strcmp_eq s sentinel then none else talloc_strdup e s

/-- One netmask of `ws->config->network` after `recv_cookie_auth_reply` handled the field. -/
def set_netmask (e : Env) (old new : Option (List Byte)) : Option (List Byte) :=
  match new with
  | none => old
  | some s => talloc_strdup e s

/-- The part of the OK branch of `recv_cookie_auth_reply` that stores the names and the session
id. -/
def cookie_store_names (k : Consts) (ws : Session) (m : AuthReplyMsg) (vname user : List Byte) :
    Session :=
  { ws with
    vinfo := { ws.vinfo with name := snprintf_buf k.VNAME_SIZE (cstr vname) }
    username := snprintf_buf k.MAX_USERNAME_SIZE (cstr user)
    groupname :=
      match m.group_name with
      | some g => snprintf_buf k.MAX_GROUPNAME_SIZE (cstr g)
      | none => []
    session_id := m.session_id ++ ws.session_id.drop m.session_id.length }

/-- The part of the OK branch of `recv_cookie_auth_reply` that stores the four addresses. -/
def cookie_store_addresses (e : Env) (ws : Session) (m : AuthReplyMsg) : Session :=
  { ws with
    vinfo :=
      { ws.vinfo with
        ipv4 := set_address e ws.vinfo.ipv4 m.ipv4 (lit "0.0.0.0")
        ipv6 := set_address e ws.vinfo.ipv6 m.ipv6 (lit "::")
        ipv4_local := set_address e ws.vinfo.ipv4_local m.ipv4_local (lit "0.0.0.0")
        ipv6_local := set_address e ws.vinfo.ipv6_local m.ipv6_local (lit "::") } }

/-- The part of the OK branch of `recv_cookie_auth_reply` that updates `ws->config`. -/
def cookie_store_config (e : Env) (ws : Session) (m : AuthReplyMsg) : Session :=
  { ws with
    config :=
      { ws.config with
        network :=
          { ipv4_netmask := set_netmask e ws.config.network.ipv4_netmask m.ipv4_netmask
            ipv6_netmask := set_netmask e ws.config.network.ipv6_netmask m.ipv6_netmask
            ipv6_prefix := m.ipv6_prefix }
        rx_per_sec := if m.has_rx_per_sec then m.rx_per_sec else ws.config.rx_per_sec
        tx_per_sec := if m.has_tx_per_sec then m.tx_per_sec else ws.config.tx_per_sec
        net_priority := if m.has_net_priority then m.net_priority else ws.config.net_priority
        udp_port := if m.has_no_udp = true ∧ m.no_udp ≠ 0 then 0 else ws.config.udp_port } }

/-- The part of the OK branch of `recv_cookie_auth_reply` that copies the routes: the loop and
the call of `check_if_default_route` behind it. -/
def cookie_store_routes (e : Env) (ws : Session) (m : AuthReplyMsg) : Session :=
  { ws with
    routes := (copy_routes e m.routes 0 ws.routes ws.stray_writes).1
    routes_size :=
      if (copy_routes e m.routes 0 ws.routes ws.stray_writes).2.1 then 0 else m.routes.length
    default_route :=
      if e.check_if_default_route (copy_routes e m.routes 0 ws.routes ws.stray_writes).1
          (if (copy_routes e m.routes 0 ws.routes ws.stray_writes).2.1 then 0
           else m.routes.length) then 1
      else if (copy_routes e m.routes 0 ws.routes ws.stray_writes).2.1 then 1
      else ws.default_route
    stray_writes := (copy_routes e m.routes 0 ws.routes ws.stray_writes).2.2 }

/-- The part of the OK branch of `recv_cookie_auth_reply` that copies `dns` and `nbns`. -/
def cookie_store_dns (e : Env) (ws : Session) (m : AuthReplyMsg) : Session :=
  { ws with
    dns := (copy_strings e .dns m.dns 0 ws.dns ws.stray_writes).1
    dns_size := m.dns.length
    nbns :=
      (copy_strings e .nbns m.nbns 0 ws.nbns
        (copy_strings e .dns m.dns 0 ws.dns ws.stray_writes).2).1
    nbns_size := m.nbns.length
    stray_writes :=
      (copy_strings e .nbns m.nbns 0 ws.nbns
        (copy_strings e .dns m.dns 0 ws.dns ws.stray_writes).2).2 }

/-- The function `recv_cookie_auth_reply`: its return value and the session it leaves. The
counts `n_routes`, `n_dns` and `n_nbns` are stored as they are and are never compared with the
capacity of the arrays; a write past the end of an array is recorded in `stray_writes`. -/
def recv_cookie_auth_reply (k : Consts) (e : Env) (ws : Session) : Int × Session :=
  match e.cookie_reply with
  | .error n => (Int.negSucc n, ws)
  | .msg m socketfd =>
    match m.reply with
    | .OK =>
      if socketfd ≠ -1 then
        match m.vname, m.user_name with
        | some vname, some user =>
          (0, cookie_store_dns e (cookie_store_routes e (cookie_store_config e
            (cookie_store_addresses e
              (cookie_store_names k { ws with tun_fd := socketfd } m vname user) m) m) m) m)
        | _, _ => (k.ERR_AUTH_FAIL, { ws with tun_fd := socketfd })
      else (k.ERR_AUTH_FAIL, ws)
    | _ => (k.ERR_AUTH_FAIL, ws)

/-! ## The success finalizer -/

/-- The function `post_common_handler`: its return value and the TLS output it leaves. -/
def post_common_handler (k : Consts) (e : Env) (ws : Session) (http_ver : Nat) (out : Tls) :
    Int × Tls :=
  let str_cookie :=
    cstr (e.base64_encode ((match ws.cookie with | some c => c | none => []).take ws.cookie_size))
  match tls_write e out (lit "HTTP/1." ++ fmt_u http_ver ++ lit " 200 OK\r\n") with
  | none => (-1, out)
  | some out =>
  match tls_write e out (lit "Connection: Keep-Alive\r\n") with
  | none => (-1, out)
  | some out =>
  match tls_write e out (lit "Content-Type: text/xml\r\n") with
  | none => (-1, out)
  | some out =>
  let text :=
    match ws.config.banner with
    | some b => lit "<banner>" ++ cstr b ++ lit "</banner>"
    | none => []
  let msg := snprintf_buf (k.MAX_BANNER_SIZE + 32) text
  let size := snprintf_ret text
  if ws.config.banner.isSome = true ∧ (size : Int) ≤ 0 then (-1, out)
  else
  let size := size + SUCCESS_MSG_HEAD.length + SUCCESS_MSG_FOOT.length
  match tls_write e out (lit "Content-Length: " ++ fmt_u size ++ lit "\r\n") with
  | none => (-1, out)
  | some out =>
  match tls_write e out (lit "X-Transcend-Version: 1\r\n") with
  | none => (-1, out)
  | some out =>
  match tls_write e out (lit "Set-Cookie: webvpn=" ++ str_cookie ++ lit "; Secure\r\n") with
  | none => (-1, out)
  | some out =>
  match (if k.ANYCONNECT_CLIENT_COMPAT then
           match tls_write e out
             (lit "Set-Cookie: webvpnc=; expires=Thu, 01 Jan 1970 22:00:00 GMT; path=/; Secure\r\n") with
           | none => none
           | some out =>
             match ws.config.xml_config_file with
             | some file =>
               tls_write e out (lit "Set-Cookie: webvpnc=bu:/&p:t&iu:1/&sh:" ++
                 cstr ws.config.cert_hash ++
                 lit "&lu:/+CSCOT+/translation-table?textdomain%3DAnyConnect%26type%3Dmanifest&fu:profiles%2F" ++
                 cstr file ++ lit "&fh:" ++ cstr ws.config.xml_config_hash ++
                 lit "; path=/; Secure\r\n")
             | none =>
               tls_write e out (lit "Set-Cookie: webvpnc=bu:/&p:t&iu:1/&sh:" ++
                 cstr ws.config.cert_hash ++ lit "; path=/; Secure\r\n")
         else some out) with
  | none => (-1, out)
  | some out =>
  match tls_write e out (lit "\r\n" ++ SUCCESS_MSG_HEAD ++ cstr msg ++ SUCCESS_MSG_FOOT) with
  | none => (-1, out)
  | some out =>
  if e.uncork_ok out then (0, out) else (-1, out)

/-! ## The POST handler -/

def USERNAME_FIELD : List Byte := lit "username"
def PASSWORD_FIELD : List Byte := lit "password"
def GROUPNAME_FIELD : List Byte := lit "group%5flist"
def GROUPNAME_FIELD_XML : List Byte := lit "group-select"

def MSG_INTERNAL_ERROR : List Byte := lit "Internal error"
def MSG_CERT_READ_ERROR : List Byte := lit "Could not read certificate"
def MSG_NO_CERT_ERROR : List Byte := lit "No certificate"
def MSG_NO_PASSWORD_ERROR : List Byte := lit "No password"

/-- The message `SecAuthInitMsg` (absent optional fields are `none`). -/
structure SecAuthInitMsg where
  user_name : Option (List Byte) := none
  group_name : Option (List Byte) := none
  hostname : List Byte := []
  ip : List Byte := []
  tls_auth_ok : Bool := false
  cert_user_name : Option (List Byte) := none
  cert_group_names : List (List Byte) := []
  deriving DecidableEq, Repr

/-- The message `SecAuthContMsg`. -/
structure SecAuthContMsg where
  password : List Byte := []
  sid : Option (List Byte) := none
  deriving DecidableEq, Repr

/-- A message sent to the security module. -/
inductive SecmodMsg
  | init (m : SecAuthInitMsg)
  | cont (m : SecAuthContMsg)
  deriving DecidableEq, Repr

/-- How a call of `post_auth_handler` ends. -/
inductive Outcome
  /-- The handler returned `ret`. -/
  | returned (ret : Int)
  /-- The handler called `exit(status)`: the worker terminated. -/
  | exited (status : Nat)
  /-- The handler called `talloc_free` on a pointer into the request body, which is not a
  talloc chunk: undefined in C, an abort in talloc. -/
  | aborted
  deriving DecidableEq, Repr

/-- The result of `post_auth_handler`: how it ended, the session, the TLS output, the messages
sent to the security module, and whether `tls_fatal_close` was called. -/
structure PostResult where
  outcome : Outcome
  ws : Session
  out : Tls
  sent : List SecmodMsg
  fatal_close : Bool

/-- The label `auth_fail` of `post_auth_handler`. -/
def auth_fail (e : Env) (ws : Session) (out : Tls) (sent : List SecmodMsg)
    (reason : List Byte) : PostResult :=
  { outcome := .exited 1
    ws := ws
    out :=
      match tls_write e out
        (lit "HTTP/1.1 401 Unauthorized\r\nX-Reason: " ++ cstr reason ++ lit "\r\n\r\n") with
      | some out1 => out1
      | none => out
    sent := sent
    fatal_close := true }

/-- The label `ask_auth` of `post_auth_handler`. -/
def ask_auth (k : Consts) (e : Env) (ws : Session) (http_ver : Nat) (out : Tls) : PostResult :=
  { outcome := .returned (get_auth_handler k e ws http_ver out).1
    ws := (get_auth_handler k e ws http_ver out).2.1
    out := (get_auth_handler k e ws http_ver out).2.2
    sent := []
    fatal_close := false }

/-- The session after the group part of the `S_AUTH_INACTIVE` branch, given the result `r` of
`parse_reply` for the group field. -/
def store_groupname (k : Consts) (ws : Session) (r : ParseResult) : Session :=
  match r with
  | .ok g =>
    match ws.config.default_select_group with
    | none => { ws with groupname := snprintf_buf k.MAX_GROUPNAME_SIZE (cstr g) }
    | some d =>
      if strcmp_eq g d then ws
      else { ws with groupname := snprintf_buf k.MAX_GROUPNAME_SIZE (cstr g) }
  | _ => ws

/-- The field `ireq.group_name` after the group part of the `S_AUTH_INACTIVE` branch. -/
def init_group_name (k : Consts) (ws : Session) (r : ParseResult) : Option (List Byte) :=
  match r with
  | .ok g =>
    match ws.config.default_select_group with
    | none => some (snprintf_buf k.MAX_GROUPNAME_SIZE (cstr g))
    | some d =>
      if strcmp_eq g d then none
      else some (snprintf_buf k.MAX_GROUPNAME_SIZE (cstr g))
  | _ => none

/-- The tail of `post_auth_handler` from the call of `recv_auth_reply` on. -/
def post_auth_reply (k : Consts) (e : Env) (ws : Session) (http_ver : Nat) (out : Tls)
    (sent : List SecmodMsg) : PostResult :=
  let r := recv_auth_reply k e ws (some e.stack_msg) k.MAX_MSG_SIZE
  if r.1 = k.ERR_AUTH_CONTINUE then
    let ws1 := { r.2.1 with auth_state := .S_AUTH_REQ }
    { outcome := .returned (get_auth_handler2 k e ws1 http_ver r.2.2 out).1
      ws := (get_auth_handler2 k e ws1 http_ver r.2.2 out).2.1
      out := (get_auth_handler2 k e ws1 http_ver r.2.2 out).2.2
      sent := sent
      fatal_close := false }
  else if r.1 < 0 then auth_fail e r.2.1 out sent (lit "Authentication failed")
  else
    let ws1 := { r.2.1 with auth_state := .S_AUTH_COOKIE }
    { outcome := .returned (post_common_handler k e ws1 http_ver out).1
      ws := ws1
      out := (post_common_handler k e ws1 http_ver out).2
      sent := sent
      fatal_close := false }

/-- The end of the branch `S_AUTH_INACTIVE` of `post_auth_handler`: the connection to the
security module and the `SecAuthInit` message `ireq`, followed by the common tail. -/
def post_auth_send_init (k : Consts) (e : Env) (ws : Session) (http_ver : Nat) (out : Tls)
    (ireq : SecAuthInitMsg) : PostResult :=
  if ¬ e.connect_ok then auth_fail e ws out [] MSG_INTERNAL_ERROR
  else if ¬ e.send_ok then auth_fail e ws out [] MSG_INTERNAL_ERROR
  else post_auth_reply k e { ws with auth_state := .S_AUTH_INIT } http_ver out [.init ireq]

/-- The branch `S_AUTH_INACTIVE` of `post_auth_handler` from the certificate part on, `ireq`
holding the fields of the message set so far. -/
def post_auth_cert (k : Consts) (e : Env) (ws : Session) (http_ver : Nat) (out : Tls)
    (ireq : SecAuthInitMsg) : PostResult :=
  if (ws.config.auth_types &&& k.AUTH_TYPE_CERTIFICATE) ≠ 0 then
    if ws.cert_auth_ok = 0 then auth_fail e ws out [] MSG_NO_CERT_ERROR
    else if (get_cert_info k e ws).1 < 0 then
      auth_fail e (get_cert_info k e ws).2 out [] MSG_CERT_READ_ERROR
    else
      post_auth_send_init k e (get_cert_info k e ws).2 http_ver out
        { ireq with
          tls_auth_ok := true
          cert_user_name := some (cstr (get_cert_info k e ws).2.cert_username)
          cert_group_names := (get_cert_info k e ws).2.cert_groups
          hostname := cstr ws.req.hostname
          ip := cstr e.remote_ip }
  else
    post_auth_send_init k e ws http_ver out
      { ireq with hostname := cstr ws.req.hostname, ip := cstr e.remote_ip }

/-- The branch `ws->auth_state == S_AUTH_INACTIVE` of `post_auth_handler`, followed by the
common tail. -/
def post_auth_inactive (k : Consts) (e : Env) (ws : Session) (http_ver : Nat) (out : Tls) :
    PostResult :=
  if (ws.config.auth_types &&& k.AUTH_TYPE_USERNAME_PASS) ≠ 0 then
    match parse_reply e ws.req.body ws.req.body_length GROUPNAME_FIELD
        (some GROUPNAME_FIELD_XML) with
    | .empty _ => { outcome := .aborted, ws := ws, out := out, sent := [], fatal_close := false }
    | rg =>
      match parse_reply e ws.req.body ws.req.body_length USERNAME_FIELD none with
      | .ok u =>
        post_auth_cert k e
          { store_groupname k ws rg with username := snprintf_buf k.MAX_USERNAME_SIZE (cstr u) }
          http_ver out
          { user_name := some (snprintf_buf k.MAX_USERNAME_SIZE (cstr u))
            group_name := init_group_name k ws rg }
      | _ => ask_auth k e (store_groupname k ws rg) http_ver out
  else post_auth_cert k e ws http_ver out {}

/-- The branch `S_AUTH_INIT || S_AUTH_REQ` of `post_auth_handler`, followed by the common
tail. -/
def post_auth_cont (k : Consts) (e : Env) (ws : Session) (http_ver : Nat) (out : Tls) :
    PostResult :=
  if (ws.config.auth_types &&& k.AUTH_TYPE_USERNAME_PASS) ≠ 0 then
    match parse_reply e ws.req.body ws.req.body_length PASSWORD_FIELD none with
    | .ok password =>
      let areq : SecAuthContMsg :=
        { password := cstr password
          sid := if ws.sid_set ≠ 0 then some ws.sid else none }
      if ¬ e.connect_ok then auth_fail e ws out [] MSG_INTERNAL_ERROR
      else if ¬ e.send_ok then auth_fail e ws out [] MSG_INTERNAL_ERROR
      else post_auth_reply k e { ws with auth_state := .S_AUTH_REQ } http_ver out [.cont areq]
    | _ => auth_fail e ws out [] MSG_NO_PASSWORD_ERROR
  else auth_fail e ws out [] (lit "Authentication failed")

/-- The function `post_auth_handler`, called with the TLS output `out` so far. -/
def post_auth_handler (k : Consts) (e : Env) (ws : Session) (http_ver : Nat) (out : Tls) :
    PostResult :=
  let ws :=
    if ws.sid_set ≠ 0 ∧ ws.auth_state = .S_AUTH_INACTIVE then
      { ws with auth_state := .S_AUTH_INIT }
    else ws
  match ws.auth_state with
  | .S_AUTH_INACTIVE => post_auth_inactive k e ws http_ver out
  | .S_AUTH_INIT => post_auth_cont k e ws http_ver out
  | .S_AUTH_REQ => post_auth_cont k e ws http_ver out
  | .S_AUTH_COOKIE => auth_fail e ws out [] (lit "Authentication failed")

/-! ## Sequences of requests on one session -/

/-- A request the worker dispatches to the authentication handlers: a POST with its body, or a
GET; each with the collaborators of that call and the HTTP minor version. -/
inductive Request
  | post (e : Env) (body : List Byte) (http_ver : Nat)
  | get (e : Env) (http_ver : Nat)

/-- One request handled on the session: `post_auth_handler` with the body stored in `ws->req`,
or `get_auth_handler`. -/
def handle (k : Consts) (ws : Session) (out : Tls) : Request → PostResult
  | .post e body http_ver =>
    post_auth_handler k e
      { ws with req := { ws.req with body := body, body_length := body.length } } http_ver out
  | .get e http_ver =>
    { outcome := .returned (get_auth_handler k e ws http_ver out).1
      ws := (get_auth_handler k e ws http_ver out).2.1
      out := (get_auth_handler k e ws http_ver out).2.2
      sent := []
      fatal_close := false }

/-- The TLS output of a sequence of requests on one session; the sequence ends when a handler
does not return (the worker terminated). -/
def run (k : Consts) : Session → Tls → List Request → Tls
  | _, out, [] => out
  | ws, out, r :: rs =>
    match (handle k ws out r).outcome with
    | .returned _ => run k (handle k ws out r).ws (handle k ws out r).out rs
    | _ => (handle k ws out r).out

/-- Whether a piece of TLS output is the header line `Set-Cookie: webvpn=...` of the success
response. -/
def is_webvpn_cookie (chunk : List Byte) : Bool :=
  (lit "Set-Cookie: webvpn=").isPrefixOf chunk

/-- The number of success responses (header lines `Set-Cookie: webvpn=`) in a TLS output. -/
def success_count (out : Tls) : Nat := out.countP is_webvpn_cookie

/-- What one call of a handler does to the count of success headers: nothing, or one more and
the session is left in COOKIE. -/
def CountStep (res : PostResult) (out : Tls) : Prop :=
  success_count res.out = success_count out ∨
  (success_count res.out ≤ success_count out + 1 ∧ res.ws.auth_state = .S_AUTH_COOKIE)

/-! ## The group list in the words of the specification -/

/-- An `<option>` element of the group list: with a `value` attribute and a display name, or
bare. -/
inductive OptionElem
  | valued (value name : List Byte)
  | bare (group : List Byte)
  deriving DecidableEq, Repr

/-- The value an option submits. -/
def OptionElem.value : OptionElem → List Byte
  | .valued v _ => cstr v
  | .bare g => cstr g

/-- The bytes of an option element: `<option value="v">n</option>` or `<option>g</option>`,
followed by a newline. -/
def OptionElem.render : OptionElem → List Byte
  | .valued v n =>
    lit "<option value=\"" ++ cstr v ++ lit "\">" ++ cstr n ++ lit "</option>\n"
  | .bare g => lit "<option>" ++ cstr g ++ lit "</option>\n"

/-- The bytes `get_auth_handler2` appends to the document for an option element: the C string
that `snprintf` leaves in `temp[128]`, which is the element cut after 127 bytes. -/
def OptionElem.appended : OptionElem → List Byte
  | .valued v n => cstr (option_value_temp v n)
  | .bare g => cstr (option_temp g)

/-- An option element fits the temporary `temp[128]`: its text and the final NUL. -/
def OptionElem.fits (o : OptionElem) : Prop := o.render.length ≤ 127

instance (o : OptionElem) : Decidable o.fits := by
  unfold OptionElem.fits
  infer_instance

/-- An option element without markup in its texts: no `<` in the value and in the display
name, and no `"` in a value written as an attribute. -/
def OptionElem.plain : OptionElem → Prop
  | .valued v n => (∀ b ∈ cstr v, b ≠ 60 ∧ b ≠ 34) ∧ (∀ b ∈ cstr n, b ≠ 60)
  | .bare g => ∀ b ∈ cstr g, b ≠ 60

instance (o : OptionElem) : Decidable o.plain := by
  cases o <;> unfold OptionElem.plain <;> infer_instance

/-- Whether the client selected the group `g` before: `ws.groupname` is set and equals `g`. -/
def is_selected (ws : Session) (g : List Byte) : Bool :=
  cstr ws.groupname ≠ [] && cstr ws.groupname == cstr g

/-- The display name of the selected group: the friendly name of the first configured group
equal to it, when there is one; otherwise the group itself. -/
def spec_display_name (c : Config) (group : List Byte) : List Byte :=
  match c.friendly_group_list with
  | none => group
  | some names =>
    match (c.group_list.zip names).find? (fun p => cstr p.1 == cstr group) with
    | some (_, some n) => n
    | _ => group

/-- The options of the group list in the order of the specification: the selected group, the
default-select placeholder, the certificate groups that equal no configured group and not the
selected one (when `cert` holds: certificate authentication is on), the configured groups other
than the selected one. -/
def spec_group_options (ws : Session) (cert : Bool) : List OptionElem :=
  (if cstr ws.groupname ≠ [] then
     [OptionElem.valued ws.groupname (spec_display_name ws.config ws.groupname)]
   else []) ++
  (match ws.config.default_select_group with
   | some d => [OptionElem.bare d]
   | none => []) ++
  (if cert then
     (ws.cert_groups.filter (fun g =>
        !(ws.config.group_list.any (fun c => cstr g == cstr c)) && !(is_selected ws g))).map
       OptionElem.bare
   else []) ++
  ((ws.config.group_list.enum.filter (fun p => !(is_selected ws p.2))).map
    (fun p => OptionElem.valued p.2
      (match friendly_at ws.config p.1 with
       | some n => n
       | none => p.2)))

/-- The body of the initial challenge document in the words of the specification: the group
list, when a group is known, holds the option elements in full. -/
def spec_user_document (ws : Session) (cert : Bool) : List Byte :=
  login_msg_user_start ++
  (if ws.config.group_list.length > 0 ∨ ws.cert_groups.length > 0 then
     lit "<select name=\"group_list\" label=\"GROUP:\">\n" ++
     ((spec_group_options ws cert).map OptionElem.render).flatten ++
     lit "</select>\n"
   else []) ++
  login_msg_user_end

/-- The body of the initial challenge document as `get_auth_handler2` builds it: each option
element passes through `temp[128]`. -/
def sent_user_document (ws : Session) (cert : Bool) : List Byte :=
  login_msg_user_start ++
  (if ws.config.group_list.length > 0 ∨ ws.cert_groups.length > 0 then
     lit "<select name=\"group_list\" label=\"GROUP:\">\n" ++
     ((spec_group_options ws cert).map OptionElem.appended).flatten ++
     lit "</select>\n"
   else []) ++
  login_msg_user_end

/-! ## The delimiters of the body parser in the words of the specification -/

/-- The opening tag `<name>`. -/
def xml_open (name : List Byte) : List Byte := lit "<" ++ cstr name ++ lit ">"

/-- The closing tag `</name>`. -/
def xml_close (name : List Byte) : List Byte := lit "</" ++ cstr name ++ lit ">"

/-- The form delimiter `field=`. -/
def form_key (field : List Byte) : List Byte := cstr field ++ lit "="

/-- The value of a field ends at `p`: end of body, NUL, or the given terminator. -/
def ends_value (term : List Byte) (p : List Byte) : Prop :=
  p = [] ∨ p.head? = some 0 ∨ term <+: p

instance (term p : List Byte) : Decidable (ends_value term p) := by
  unfold ends_value
  infer_instance

/-! ## Form bodies -/

/-- The text `key=value` of a pair. -/
def pair_text (p : List Byte × List Byte) : List Byte := p.1 ++ lit "=" ++ p.2

/-- A URL-encoded form body: the pairs `key=value` joined by `&`. -/
def form_body : List (List Byte × List Byte) → List Byte
  | [] => []
  | [p] => pair_text p
  | p :: q :: rest => pair_text p ++ lit "&" ++ form_body (q :: rest)

/-- A URL-encoded token: it holds no NUL and no raw `&` or `<`. -/
def url_encoded (l : List Byte) : Prop := ∀ b ∈ l, b ≠ 0 ∧ b ≠ 38 ∧ b ≠ 60

instance (l : List Byte) : Decidable (url_encoded l) := by
  unfold url_encoded
  infer_instance

/-- The value the form branch reads at `p`, the bytes behind `field=`: the URL-unescaping of
the bytes up to the first `&` or NUL, nothing when there are none. -/
def form_value_at (e : Env) (p : List Byte) : Option (List Byte) :=
  if scan_form p = 0 then none else e.unescape_url (p.take (scan_form p))

/-! ## Reference helpers for evaluating the handlers on examples -/

/-- The value of a hexadecimal digit. -/
def hex_value (b : Byte) : Option Nat :=
  if 48 ≤ b ∧ b ≤ 57 then some (b - 48)
  else if 97 ≤ b ∧ b ≤ 102 then some (b - 87)
  else if 65 ≤ b ∧ b ≤ 70 then some (b - 55)
  else none

/-- Modelled from the spec: `unescape_url` of `html.c`, the URL-unescaping helper, out of the
scope of `worker-auth.c`: `%XX` becomes the byte `XX` and `+` a space. The first argument counts
the bytes still to skip after an escape. -/
def unescape_url_go : Nat → List Byte → List Byte
  | _, [] => []
  | skip + 1, _ :: rest => unescape_url_go skip rest
  | 0, b :: rest =>
    if b = 37 then
      match hex_value (rest.getD 0 0), hex_value (rest.getD 1 0) with
      | some h, some l => (16 * h + l) :: unescape_url_go 2 rest
      | _, _ => b :: unescape_url_go 0 rest
    else (if b = 43 then 32 else b) :: unescape_url_go 0 rest

/-- The reference URL-unescaping as the helper `unescape_url` (it never fails). -/
def unescape_url_ref (l : List Byte) : Option (List Byte) := some (unescape_url_go 0 l)

/-- Modelled from the spec: `unescape_html` of `html.c`, the HTML-unescaping helper, out of the
scope of `worker-auth.c`: the entities `&amp;`, `&lt;`, `&gt;` and `&quot;` become the
characters they name. The first argument counts the bytes still to skip after an entity. -/
def unescape_html_go : Nat → List Byte → List Byte
  | _, [] => []
  | skip + 1, _ :: rest => unescape_html_go skip rest
  | 0, b :: rest =>
    if (lit "&amp;").isPrefixOf (b :: rest) then 38 :: unescape_html_go 4 rest
    else if (lit "&lt;").isPrefixOf (b :: rest) then 60 :: unescape_html_go 3 rest
    else if (lit "&gt;").isPrefixOf (b :: rest) then 62 :: unescape_html_go 3 rest
    else if (lit "&quot;").isPrefixOf (b :: rest) then 34 :: unescape_html_go 5 rest
    else b :: unescape_html_go 0 rest

/-- The reference HTML-unescaping as the helper `unescape_html` (it never fails). -/
def unescape_html_ref (l : List Byte) : Option (List Byte) := some (unescape_html_go 0 l)

/-- The character of the base64 alphabet for a 6-bit value. -/
def base64_char (n : Nat) : Byte :=
  if n < 26 then 65 + n
  else if n < 52 then 97 + (n - 26)
  else if n < 62 then 48 + (n - 52)
  else if n = 62 then 43
  else 47

/-- Modelled from the spec: `base64_encode` of `base64.h`, the base64 codec, out of the scope of
`worker-auth.c`: the standard encoding with `=` padding. -/
def base64_ref : List Byte → List Byte
  | [] => []
  | [a] => [base64_char (a / 4), base64_char (a % 4 * 16), 61, 61]
  | [a, b] =>
    [base64_char (a / 4), base64_char (a % 4 * 16 + b / 16), base64_char (b % 16 * 4), 61]
  | a :: b :: c :: rest =>
    base64_char (a / 4) :: base64_char (a % 4 * 16 + b / 16) ::
      base64_char (b % 16 * 4 + c / 64) :: base64_char (c % 64) :: base64_ref rest

/-- Collaborators under which every write, allocation and connection succeeds, no peer
certificate is presented, the security module answers `reply`, no reply to a cookie redemption
arrives, and `check_if_default_route` looks for the two default-route texts. -/
def env_ok (reply : RecvResult) : Env :=
  { tls_ok := fun _ _ => true
    uncork_ok := fun _ => true
    str_ok := fun _ _ => true
    base64_encode := base64_ref
    unescape_url := unescape_url_ref
    unescape_html := unescape_html_ref
    peers := none
    realloc_ok := fun _ => true
    alloc_ok := fun _ => true
    connect_ok := true
    send_ok := true
    recv := reply
    memdup_ok := true
    stack_msg := []
    remote_ip := lit "192.0.2.7"
    strdup_ok := fun _ => true
    check_if_default_route := fun routes size =>
      (routes.take size).any (fun r => r == some (lit "default") || r == some (lit "0.0.0.0/0"))
    cookie_reply := .error 0 }

/-- Sample values of the constants of the headers, for evaluating the handlers on examples. -/
def consts_ref : Consts :=
  { SID_SIZE := 12
    SESSION_ID_SIZE := 32
    MAX_USERNAME_SIZE := 64
    MAX_GROUPNAME_SIZE := 64
    CERT_USERNAME_SIZE := 64
    VNAME_SIZE := 16
    MAX_MSG_SIZE := 256
    MAX_BANNER_SIZE := 256
    MAX_AUTH_SECS := 360
    ERR_AUTH_FAIL := -3
    ERR_AUTH_CONTINUE := -4
    AUTH_TYPE_USERNAME_PASS := 2
    AUTH_TYPE_CERTIFICATE := 4
    ANYCONNECT_CLIENT_COMPAT := true
    GNUTLS_E_REQUESTED_DATA_NOT_AVAILABLE := -56
    GNUTLS_E_SHORT_MEMORY_BUFFER := -51
    GNUTLS_E_INTERNAL_ERROR := -59 }

/-! ## Example inputs -/

/-- An OK reply of the security module: user `alice`, cookie `C0`, a 32-byte session id. -/
def reply_ok_example : SecAuthReplyMsg :=
  { reply := .OK
    user_name := some (lit "alice")
    has_cookie := true
    cookie := lit "C0"
    dtls_session_id := List.replicate 32 0 }

/-- A MSG reply of the security module: the prompt `OTP?` and a 12-byte sid. -/
def reply_msg_example : SecAuthReplyMsg :=
  { reply := .MSG
    msg := some (lit "OTP?")
    has_sid := true
    sid := [1, 2, 3, 4, 5, 6, 7, 8, 9, 10, 11, 12] }

/-- A fresh session of a server configured for password authentication. -/
def session_password_example : Session :=
  { config := { auth_types := 2 } }

/-- The session `session_password_example` holding the POST body `text`. -/
def session_with_body (text : String) : Session :=
  { session_password_example with req := { body := lit text, body_length := (lit text).length } }

/-- The scenario S1 followed by one more POST: credentials answered by the prompt `OTP?`, the
one-time password answered by OK, and a further POST. -/
def requests_example : List Request :=
  [ .post (env_ok (.msg reply_msg_example)) (lit "username=alice&password=secret") 1,
    .post (env_ok (.msg reply_ok_example)) (lit "password=123456") 1,
    .post (env_ok (.msg reply_ok_example)) (lit "password=123456") 1 ]

/-- A field name of 61 bytes. -/
def field61 : List Byte := List.replicate 61 97

/-- An XML body in which the tag `field61` has the value `v`. -/
def body_long_tag_value : List Byte :=
  lit "<?xml?>" ++ xml_open field61 ++ lit "v" ++ xml_close field61

/-- The XML body of scenario S6. -/
def body_xml_example : List Byte :=
  lit "<?xml version=\"1.0\"?><config-auth><username>bob</username><password>s&amp;p</password></config-auth>"

/-- A form body with the fields `username` and `password`. -/
def body_form_example : List Byte := lit "username=alice&password=se%21cret"

/-- An XML body whose tag `u` holds a NUL byte between `a` and `b`. -/
def body_nul_example : List Byte := lit "<?xml?><u>a" ++ [0] ++ lit "b</u>"

/-- Collaborators whose `unescape_url` answers `x` for every input. -/
def env_const_unescape : Env :=
  { env_ok (.error 0) with unescape_url := fun _ => some (lit "x") }

/-- A field name of 63 bytes. -/
def field63 : List Byte := List.replicate 63 97

/-- A field name of 62 bytes. -/
def field62 : List Byte := List.replicate 62 97

/-- Two pairs whose texts, joined by `&`, hold the text `a&b=` across the separator. -/
def pairs_amp_example : List (List Byte × List Byte) :=
  [(lit "x", lit "a"), (lit "b", lit "c")]

/-- Two pairs with distinct keys, the first key ending in the second. -/
def pairs_suffix_example : List (List Byte × List Byte) :=
  [(lit "xusername", lit "a"), (lit "username", lit "b")]

/-- The pairs of the body `username=alice&password=se%21cret`. -/
def pairs_example : List (List Byte × List Byte) :=
  [(lit "username", lit "alice"), (lit "password", lit "se%21cret")]

/-- A peer certificate whose fields are never read (the session already holds its names). -/
def peer_cert_example : PeerCert :=
  { init_ret := 0
    import_ret := 0
    dn_ret := 0
    dn := []
    user_ret := fun _ => 0
    user := fun _ => []
    groups := fun _ => [] }

/-- The collaborators `env_ok` with a peer certificate presented. -/
def env_cert_example : Env :=
  { env_ok (.error 0) with peers := some peer_cert_example }

/-- The session of scenario S3: groups `A`, `B`, `C` with the friendly names `α`, `β`, `γ`
(in UTF-8), certificate groups `B` and `D`, and the group `B` chosen by the client. -/
def session_groups_example : Session :=
  { groupname := lit "B"
    cert_username := lit "bob"
    cert_groups := [lit "B", lit "D"]
    cert_auth_ok := 1
    config :=
      { auth_types := 4
        group_list := [lit "A", lit "B", lit "C"]
        friendly_group_list := some [some [206, 177], some [206, 178], some [206, 179]] } }

/-- The document of scenario S3. -/
def document_groups_example : List Byte :=
  login_msg_user_start ++
  lit "<select name=\"group_list\" label=\"GROUP:\">\n" ++
  lit "<option value=\"B\">" ++ [206, 178] ++ lit "</option>\n" ++
  lit "<option>D</option>\n" ++
  lit "<option value=\"A\">" ++ [206, 177] ++ lit "</option>\n" ++
  lit "<option value=\"C\">" ++ [206, 179] ++ lit "</option>\n" ++
  lit "</select>\n" ++
  login_msg_user_end

/-- A session whose configuration lists the group `A` twice. -/
def session_dup_config_example : Session :=
  { config := { auth_types := 2, group_list := [lit "A", lit "A"] } }

/-- A session whose `default_select_group` is also a configured group. -/
def session_dup_default_example : Session :=
  { config := { auth_types := 2, group_list := [lit "A"], default_select_group := some (lit "A") } }

/-- A session whose certificate names the group `D` twice. -/
def session_dup_cert_example : Session :=
  { cert_username := lit "bob"
    cert_groups := [lit "D", lit "D"]
    cert_auth_ok := 1
    config := { auth_types := 4 } }

/-- The document with the group `A` offered twice by value. -/
def document_dup_config_example : List Byte :=
  login_msg_user_start ++
  lit "<select name=\"group_list\" label=\"GROUP:\">\n" ++
  lit "<option value=\"A\">A</option>\n" ++
  lit "<option value=\"A\">A</option>\n" ++
  lit "</select>\n" ++
  login_msg_user_end

/-- The document with `A` offered as the placeholder and as a configured group. -/
def document_dup_default_example : List Byte :=
  login_msg_user_start ++
  lit "<select name=\"group_list\" label=\"GROUP:\">\n" ++
  lit "<option>A</option>\n" ++
  lit "<option value=\"A\">A</option>\n" ++
  lit "</select>\n" ++
  login_msg_user_end

/-- The document with the certificate group `D` offered twice. -/
def document_dup_cert_example : List Byte :=
  login_msg_user_start ++
  lit "<select name=\"group_list\" label=\"GROUP:\">\n" ++
  lit "<option>D</option>\n" ++
  lit "<option>D</option>\n" ++
  lit "</select>\n" ++
  login_msg_user_end

/-! ## Example inputs for the challenge document -/

/-- The start of the element `<select name="group_list" ...>`. -/
def select_open_tag : List Byte := lit "<select name=\"group_list\""

/-- A prompt of the security module that holds the text of a group selector. -/
def prompt_select_example : List Byte :=
  lit "<select name=\"group_list\" label=\"GROUP:\"></select>"

/-- A session in state REQ. -/
def session_req_example : Session := { auth_state := .S_AUTH_REQ }

/-- A peer certificate with one occurrence of the group attribute, the group `D`. -/
def peer_cert_group_example : PeerCert :=
  { init_ret := 0
    import_ret := 0
    dn_ret := 0
    dn := lit "CN=bob"
    user_ret := fun _ => 0
    user := fun _ => lit "bob"
    groups := fun _ => [{ size_ret := -51, size := 2, fetch_ret := 0, value := lit "D" }] }

/-- The collaborators `env_ok` with the peer certificate `peer_cert_group_example` presented. -/
def env_cert_group_example : Env :=
  { env_ok (.error 0) with peers := some peer_cert_group_example }

/-- A session whose certificate was accepted and has not been read yet: no certificate group
is stored, no group is configured. -/
def session_cert_fresh_example : Session :=
  { cert_auth_ok := 1
    config := { auth_types := 4, cert_group_oid := some (lit "2.5.4.11") } }


/-! ## Example inputs for the cookie redemption -/

/-- The collaborators `env_ok` with the reply `m` to the cookie redemption arriving, `socketfd`
being the descriptor that came with it. -/
def env_cookie (m : AuthReplyMsg) (socketfd : Int) : Env :=
  { env_ok (.error 0) with cookie_reply := .msg m socketfd }

/-- A session whose configured banner is 300 bytes long. -/
def session_long_banner_example : Session :=
  { config := { banner := some (List.replicate 300 120) } }

/-- In the words of the specification: the field is missing from the body (its opening
delimiter, `<name>` in XML mode and `field=` in form mode, does not occur) or empty (the value
behind the first occurrence of the delimiter ends at once: at the closing tag or `&`, at a NUL,
or at the end of the body). -/
def field_missing_or_empty (body : List Byte) (body_length : Nat) (field : List Byte)
    (xml_field : Option (List Byte)) : Prop :=
  (body_is_xml body body_length = true ∧
    (¬ xml_open (xml_tag field xml_field) <:+: body.take body_length ∨
      ∃ off, xml_open (xml_tag field xml_field) <+: (body.take body_length).drop off ∧
        (∀ j < off, ¬ xml_open (xml_tag field xml_field) <+: (body.take body_length).drop j) ∧
        ends_value (xml_close (xml_tag field xml_field))
          (body.drop (off + (xml_open (xml_tag field xml_field)).length)))) ∨
  (body_is_xml body body_length = false ∧
    (¬ form_key field <:+: body.take body_length ∨
      ∃ off, form_key field <+: (body.take body_length).drop off ∧
        (∀ j < off, ¬ form_key field <+: (body.take body_length).drop j) ∧
        ends_value (lit "&") (body.drop (off + (form_key field).length))))

/-- A fresh session of a server that authenticates by password and certificate, no certificate
presented, with the body `username=alice&password=x`. -/
def session_both_user_example : Session :=
  { config := { auth_types := 6 }
    req :=
      { body := lit "username=alice&password=x"
        body_length := (lit "username=alice&password=x").length } }

/-- A fresh session of a server that authenticates by password and certificate, no certificate
presented, with the body `password=x`. -/
def session_both_example : Session :=
  { config := { auth_types := 6 }
    req := { body := lit "password=x", body_length := (lit "password=x").length } }


/-- A result of the POST handler on a session that did not enter COOKIE and that, when a message
went to the security module, ended at the label `auth_fail` with the reason
`Authentication failed`. -/
def Refused (e : Env) (out : Tls) (res : PostResult) : Prop :=
  res.ws.auth_state ≠ .S_AUTH_COOKIE ∧
  (res.sent ≠ [] → ∃ ws1, res = auth_fail e ws1 out res.sent (lit "Authentication failed"))

/-- An OK reply of the security module without a cookie: the user name and the session id are
there, the cookie is not. -/
def reply_ok_no_cookie_example : SecAuthReplyMsg :=
  { reply := .OK
    user_name := some (lit "alice")
    dtls_session_id := List.replicate 32 7 }


/-! ## Example inputs for the MSG reply -/

/-- A MSG reply with the prompt `OTP?` and a sid of 5 bytes. -/
def reply_msg_short_sid_example : SecAuthReplyMsg :=
  { reply := .MSG
    msg := some (lit "OTP?")
    has_sid := true
    sid := [1, 2, 3, 4, 5] }

/-- A MSG reply with a 12-byte sid and no text. -/
def reply_msg_no_text_example : SecAuthReplyMsg :=
  { reply := .MSG
    has_sid := true
    sid := [1, 2, 3, 4, 5, 6, 7, 8, 9, 10, 11, 12] }


/-- A result of the POST handler that, when a message went to the security module, is the
result of `get_auth_handler2` called with the prompt `pmsg` on a session in state REQ. -/
def Reprompted (k : Consts) (e : Env) (http_ver : Nat) (pmsg : List Byte) (out : Tls)
    (res : PostResult) : Prop :=
  res.sent ≠ [] → ∃ ws1 : Session, ws1.auth_state = .S_AUTH_REQ ∧
    res.outcome = .returned (get_auth_handler2 k e ws1 http_ver (some pmsg) out).1 ∧
    res.ws = (get_auth_handler2 k e ws1 http_ver (some pmsg) out).2.1 ∧
    res.out = (get_auth_handler2 k e ws1 http_ver (some pmsg) out).2.2 ∧
    res.fatal_close = false


/-- A result of the POST handler whose session holds the group name `name` and whose messages
to the security module are `SecAuthInit` messages with the field `group_name` equal to `gn`. -/
def GroupStored (name : List Byte) (gn : Option (List Byte)) (res : PostResult) : Prop :=
  res.ws.groupname = name ∧
  ∀ msg ∈ res.sent, ∃ ireq : SecAuthInitMsg, msg = .init ireq ∧ ireq.group_name = gn

/-- A fresh session of a server with password authentication and the default group
`Select group`, holding the POST body `text`. -/
def session_default_group (text : String) : Session :=
  { groupname := lit "staff"
    config := { auth_types := 2, default_select_group := some (lit "Select group") }
    req := { body := lit text, body_length := (lit text).length } }


/-- An OK reply to the cookie redemption that carries `n` routes, `n` DNS servers and `n` NBNS
servers. -/
def reply_counts_example (n : Nat) : AuthReplyMsg :=
  { reply := .OK
    vname := some (lit "vpns0")
    user_name := some (lit "alice")
    session_id := List.replicate 32 7
    routes := List.replicate n (lit "10.0.0.0/8")
    dns := List.replicate n (lit "192.0.2.53")
    nbns := List.replicate n (lit "192.0.2.54") }


/-- Whether a piece of TLS output is the header line `Set-Cookie: webvpncontext=...`. -/
def is_context_cookie (chunk : List Byte) : Bool :=
  (lit "Set-Cookie: webvpncontext=").isPrefixOf chunk

/-- A session in state REQ of a server with password authentication that holds the sid
`1, ..., 12`, with the POST body `password=123456`. -/
def session_sid_example : Session :=
  { auth_state := .S_AUTH_REQ
    sid := [1, 2, 3, 4, 5, 6, 7, 8, 9, 10, 11, 12]
    sid_set := 1
    config := { auth_types := 2 }
    req := { body := lit "password=123456", body_length := (lit "password=123456").length } }


/-! ## The calls of `parse_reply` -/

/-- The arguments `field` and `xml_field` of the three calls of `parse_reply`, a static
function, all of them in `post_auth_handler`: the group (with its XML tag), the user name and
the password. -/
def parse_reply_calls : List (List Byte × Option (List Byte)) :=
  [(GROUPNAME_FIELD, some GROUPNAME_FIELD_XML), (USERNAME_FIELD, none),
   (PASSWORD_FIELD, none)]

/-! ## Reading the option values back from a document -/

/-- The bytes of a text before the first byte `b`. -/
def until_byte (b : Byte) : List Byte → List Byte
  | [] => []
  | c :: cs => if c = b then [] else c :: until_byte b cs

/-- The values of the option elements of a text, in the order of the text: at each
`<option value="` the bytes up to the closing quote, at each `<option>` the bytes up to the
next tag. -/
def option_values : List Byte → List (List Byte)
  | [] => []
  | c :: cs =>
    if (lit "<option value=\"").isPrefixOf (c :: cs) then
      until_byte 34 ((c :: cs).drop 15) :: option_values cs
    else if (lit "<option>").isPrefixOf (c :: cs) then
      until_byte 60 ((c :: cs).drop 8) :: option_values cs
    else option_values cs

/-- No `<o` starts in the text, and the text does not end in `<`: no option element starts in
it, whatever follows. -/
def no_option_start : List Byte → Bool
  | [] => true
  | [b] => b != 60
  | b :: c :: rest => !(b == 60 && c == 111) && no_option_start (c :: rest)


/-! ## Example inputs for the option elements -/

/-- A group name of 60 bytes. -/
def group60 : List Byte := List.replicate 60 71

/-- The session of a client that presented its certificate and posts the body
`group%5flist=` followed by a group name of 60 bytes, without a user name: password and
certificate authentication are on and one group, `A`, is configured. -/
def session_post_long_group_example : Session :=
  { cert_auth_ok := 1
    config := { auth_types := 6, group_list := [lit "A"] }
    req := { body := lit "group%5flist=" ++ group60, body_length := 73 } }

/-- The same session once the group of the body is stored in `ws->groupname`. -/
def session_long_group_example : Session :=
  { session_post_long_group_example with groupname := group60 }

/-- The document sent for that session: the option of the selected group stops after 127
bytes, inside its display name, and the next option follows it directly. -/
def document_long_group_example : List Byte :=
  login_msg_user_start ++
  lit "<select name=\"group_list\" label=\"GROUP:\">\n" ++
  (lit "<option value=\"" ++ group60 ++ lit "\">" ++ List.replicate 50 71) ++
  lit "<option value=\"A\">A</option>\n" ++
  lit "</select>\n" ++
  login_msg_user_end

/-- A session with two distinct configured groups, `a"x` and `a"y`. -/
def session_quote_example : Session :=
  { config := { auth_types := 2, group_list := [lit "a\"x", lit "a\"y"] } }

/-! ## Example inputs for the arrays of the cookie redemption -/

/-- A session whose arrays `routes`, `dns` and `nbns` have `cap` elements each, all NULL. -/
def session_arrays_example (cap : Nat) : Session :=
  { routes := List.replicate cap none
    dns := List.replicate cap none
    nbns := List.replicate cap none }

theorem get_cert_names_auth_state (k : Consts) (e : Env) (ws : Session) (crt : PeerCert) :
    (get_cert_names k e ws crt).2.auth_state = ws.auth_state := by
  unfold get_cert_names
  repeat' first | split | dsimp only

theorem get_cert_info_auth_state (k : Consts) (e : Env) (ws : Session) :
    (get_cert_info k e ws).2.auth_state = ws.auth_state := by
  unfold get_cert_info
  repeat' first | split | dsimp only
  all_goals exact get_cert_names_auth_state k e ws _

theorem get_auth_handler2_str_auth_state (k : Consts) (e : Env) (ws : Session)
    (pmsg : Option (List Byte)) :
    (get_auth_handler2_str k e ws pmsg).2.auth_state = ws.auth_state := by
  unfold get_auth_handler2_str
  repeat' first | split | dsimp only
  all_goals exact get_cert_info_auth_state k e ws

theorem get_auth_handler2_auth_state (k : Consts) (e : Env) (ws : Session) (http_ver : Nat)
    (pmsg : Option (List Byte)) (out : Tls) :
    (get_auth_handler2 k e ws http_ver pmsg out).2.1.auth_state = ws.auth_state := by
  have h := get_auth_handler2_str_auth_state k e ws pmsg
  unfold get_auth_handler2
  repeat' first | split | dsimp only
  all_goals simp_all

theorem recv_auth_reply_auth_state (k : Consts) (e : Env) (ws : Session)
    (txt : Option (List Byte)) (n : Nat) :
    (recv_auth_reply k e ws txt n).2.1.auth_state = ws.auth_state := by
  unfold recv_auth_reply
  repeat' first | split | dsimp only

theorem store_groupname_auth_state (k : Consts) (ws : Session) (r : ParseResult) :
    (store_groupname k ws r).auth_state = ws.auth_state := by
  unfold store_groupname
  repeat' first | split | dsimp only

theorem auth_fail_outcome (e : Env) (ws : Session) (out : Tls) (sent : List SecmodMsg)
    (reason : List Byte) : (auth_fail e ws out sent reason).outcome = .exited 1 := rfl

/-- When the tail of `post_auth_handler` returns, the session is in REQ or COOKIE. -/
theorem post_auth_reply_returned (k : Consts) (e : Env) (ws : Session) (http_ver : Nat)
    (out : Tls) (sent : List SecmodMsg) (r : Int)
    (h : (post_auth_reply k e ws http_ver out sent).outcome = .returned r) :
    2 ≤ (post_auth_reply k e ws http_ver out sent).ws.auth_state.rank := by
  unfold post_auth_reply at h ⊢
  dsimp only at h ⊢
  split
  · dsimp only
    rw [get_auth_handler2_auth_state]
    simp [AuthState.rank]
  · split
    · rename_i h1 h2
      rw [if_neg h1, if_pos h2, auth_fail_outcome] at h
      cases h
    · simp [AuthState.rank]

/-! ## C1: a cookie is set only on a complete OK reply -/

/-- C1: for a session with `cookie_set = 0`, if `recv_auth_reply` leaves `cookie_set = 1` then
the reply received was OK, carried a cookie of positive length, and its `dtls_session_id` has
exactly `sizeof(session_id)` bytes. -/
theorem recv_auth_reply_cookie_set (k : Consts) (e : Env) (ws : Session)
    (txt : Option (List Byte)) (n : Nat) (h0 : ws.cookie_set = 0)
    (h1 : (recv_auth_reply k e ws txt n).2.1.cookie_set = 1) :
    ∃ m, e.recv = .msg m ∧ m.reply = .OK ∧ m.has_cookie = true ∧ 0 < m.cookie.length ∧
      m.dtls_session_id.length = k.SESSION_ID_SIZE := by
  unfold recv_auth_reply at h1
  split at h1
  · simp [h0] at h1
  · rename_i m hm
    refine ⟨m, hm, ?_⟩
    split at h1
    · exfalso
      split at h1
      · dsimp only at h1
        split at h1 <;> simp [h0] at h1
      · simp [h0] at h1
    · split at h1
      · simp [h0] at h1
      · dsimp only at h1
        split at h1
        · exfalso
          split at h1 <;> simp [h0] at h1
        · rename_i hreply _ _ _ hc
          simp only [not_or, Bool.not_eq_false, ne_eq, Decidable.not_not] at hc
          exact ⟨hreply, hc.1, Nat.pos_of_ne_zero hc.2.1, hc.2.2⟩
    · simp [h0] at h1
    · simp [h0] at h1

/-- C1 at an OK reply with user `alice`, cookie `C0` and a 32-byte session id. -/
theorem recv_auth_reply_cookie_set_witness :
    (recv_auth_reply consts_ref (env_ok (.msg reply_ok_example)) session_password_example
        none 0).2.1.cookie_set = 1 ∧
    ∃ m, (env_ok (.msg reply_ok_example)).recv = .msg m ∧ m.reply = .OK ∧
      m.has_cookie = true ∧ 0 < m.cookie.length ∧
      m.dtls_session_id.length = consts_ref.SESSION_ID_SIZE :=
  ⟨by decide,
   recv_auth_reply_cookie_set consts_ref (env_ok (.msg reply_ok_example))
     session_password_example none 0 (by decide) (by decide)⟩

/-! ## C2: the authentication state never moves backwards -/

theorem post_auth_send_init_returned (k : Consts) (e : Env) (ws : Session) (http_ver : Nat)
    (out : Tls) (ireq : SecAuthInitMsg) (r : Int)
    (h : (post_auth_send_init k e ws http_ver out ireq).outcome = .returned r) :
    2 ≤ (post_auth_send_init k e ws http_ver out ireq).ws.auth_state.rank := by
  unfold post_auth_send_init at h ⊢
  split
  · rename_i h1
    rw [if_pos h1, auth_fail_outcome] at h
    cases h
  · rename_i h1
    rw [if_neg h1] at h
    split
    · rename_i h2
      rw [if_pos h2, auth_fail_outcome] at h
      cases h
    · rename_i h2
      rw [if_neg h2] at h
      exact post_auth_reply_returned k e _ http_ver out _ r h

theorem post_auth_cert_returned (k : Consts) (e : Env) (ws : Session) (http_ver : Nat)
    (out : Tls) (ireq : SecAuthInitMsg) (r : Int)
    (h : (post_auth_cert k e ws http_ver out ireq).outcome = .returned r) :
    2 ≤ (post_auth_cert k e ws http_ver out ireq).ws.auth_state.rank := by
  unfold post_auth_cert at h ⊢
  split
  · rename_i h1
    rw [if_pos h1] at h
    split
    · rename_i h2
      rw [if_pos h2, auth_fail_outcome] at h
      cases h
    · rename_i h2
      rw [if_neg h2] at h
      split
      · rename_i h3
        rw [if_pos h3, auth_fail_outcome] at h
        cases h
      · rename_i h3
        rw [if_neg h3] at h
        exact post_auth_send_init_returned k e _ http_ver out _ r h
  · rename_i h1
    rw [if_neg h1] at h
    exact post_auth_send_init_returned k e _ http_ver out _ r h

theorem ask_auth_auth_state (k : Consts) (e : Env) (ws : Session) (http_ver : Nat) (out : Tls) :
    (ask_auth k e ws http_ver out).ws.auth_state = ws.auth_state := by
  unfold ask_auth get_auth_handler
  exact get_auth_handler2_auth_state k e ws http_ver none out

theorem post_auth_inactive_returned (k : Consts) (e : Env) (ws : Session) (http_ver : Nat)
    (out : Tls) (r : Int)
    (h : (post_auth_inactive k e ws http_ver out).outcome = .returned r) :
    ws.auth_state.rank ≤ (post_auth_inactive k e ws http_ver out).ws.auth_state.rank ∨
    2 ≤ (post_auth_inactive k e ws http_ver out).ws.auth_state.rank := by
  unfold post_auth_inactive at h ⊢
  split
  · rename_i h1
    rw [if_pos h1] at h
    split
    · rename_i hg
      rw [hg] at h
      cases h
    · rename_i rg hg
      split at h
      · rename_i off hg2
        exact absurd hg2 (hg off)
      · split
        · rename_i u hu
          rw [hu] at h
          right
          exact post_auth_cert_returned k e _ http_ver out _ r h
        · left
          rw [ask_auth_auth_state, store_groupname_auth_state]
  · rename_i h1
    rw [if_neg h1] at h
    right
    exact post_auth_cert_returned k e _ http_ver out _ r h

theorem post_auth_cont_returned (k : Consts) (e : Env) (ws : Session) (http_ver : Nat)
    (out : Tls) (r : Int)
    (h : (post_auth_cont k e ws http_ver out).outcome = .returned r) :
    2 ≤ (post_auth_cont k e ws http_ver out).ws.auth_state.rank := by
  unfold post_auth_cont at h ⊢
  split
  · rename_i h1
    rw [if_pos h1] at h
    split
    · rename_i pw hp
      rw [hp] at h
      dsimp only at h ⊢
      split
      · rename_i h2
        rw [if_pos h2, auth_fail_outcome] at h
        cases h
      · rename_i h2
        rw [if_neg h2] at h
        split
        · rename_i h3
          rw [if_pos h3, auth_fail_outcome] at h
          cases h
        · rename_i h3
          rw [if_neg h3] at h
          exact post_auth_reply_returned k e _ http_ver out _ r h
    · rename_i hp
      split at h
      · rename_i pw hp2
        exact absurd hp2 (hp pw)
      · rw [auth_fail_outcome] at h
        cases h
  · rename_i h1
    rw [if_neg h1, auth_fail_outcome] at h
    cases h

/-- C2: with the order INACTIVE < INIT < REQ < COOKIE, whenever `post_auth_handler` returns
(the worker is not terminated) the state it leaves is at least the state it was called in; and
`get_auth_handler2` leaves `auth_state` as it was. -/
theorem post_auth_handler_monotonic (k : Consts) (e : Env) (ws : Session) (http_ver : Nat)
    (out : Tls) :
    (∀ r, (post_auth_handler k e ws http_ver out).outcome = .returned r →
      ws.auth_state.rank ≤ (post_auth_handler k e ws http_ver out).ws.auth_state.rank) ∧
    (∀ pmsg, (get_auth_handler2 k e ws http_ver pmsg out).2.1.auth_state = ws.auth_state) := by
  refine ⟨?_, fun pmsg => get_auth_handler2_auth_state k e ws http_ver pmsg out⟩
  intro r h
  unfold post_auth_handler at h ⊢
  dsimp only at h ⊢
  by_cases hs : ws.sid_set ≠ 0 ∧ ws.auth_state = .S_AUTH_INACTIVE
  · rw [if_pos hs] at h ⊢
    dsimp only at h ⊢
    rw [hs.2]
    exact Nat.le_trans (by decide) (post_auth_cont_returned k e _ http_ver out r h)
  · rw [if_neg hs] at h ⊢
    cases hst : ws.auth_state with
    | S_AUTH_INACTIVE =>
      simp only [hst] at h ⊢
      rcases post_auth_inactive_returned k e ws http_ver out r h with h1 | h1
      · rw [hst] at h1
        exact h1
      · exact Nat.le_trans (by decide) h1
    | S_AUTH_INIT =>
      simp only [hst] at h ⊢
      exact Nat.le_trans (by decide) (post_auth_cont_returned k e ws http_ver out r h)
    | S_AUTH_REQ =>
      simp only [hst] at h ⊢
      exact post_auth_cont_returned k e ws http_ver out r h
    | S_AUTH_COOKIE =>
      simp only [hst] at h
      rw [auth_fail_outcome] at h
      cases h

/-- C2 at a fresh session, the POST body `username=alice&password=secret` and the reply
MSG `OTP?`: the handler returns 0 and the state moved from INACTIVE to REQ. -/
theorem post_auth_handler_monotonic_witness :
    (post_auth_handler consts_ref (env_ok (.msg reply_msg_example))
      (session_with_body "username=alice&password=secret") 1 []).outcome = .returned 0 ∧
    (post_auth_handler consts_ref (env_ok (.msg reply_msg_example))
      (session_with_body "username=alice&password=secret") 1 []).ws.auth_state = .S_AUTH_REQ ∧
    (session_with_body "username=alice&password=secret").auth_state.rank ≤
      (post_auth_handler consts_ref (env_ok (.msg reply_msg_example))
        (session_with_body "username=alice&password=secret") 1 []).ws.auth_state.rank :=
  ⟨by decide, by decide,
   (post_auth_handler_monotonic consts_ref (env_ok (.msg reply_msg_example))
      (session_with_body "username=alice&password=secret") 1 []).1 0 (by decide)⟩

/-! ## The document built by `get_auth_handler2` -/

theorem str_append_str_eq {e : Env} {str data str1 : List Byte}
    (h : str_append_str e str data = some str1) : str1 = str ++ cstr data := by
  unfold str_append_str at h
  split at h
  · exact (Option.some.inj h).symm
  · cases h

theorem tls_write_eq {e : Env} {out out1 : Tls} {data : List Byte}
    (h : tls_write e out data = some out1) : out1 = out ++ [data] := by
  unfold tls_write at h
  split at h
  · exact (Option.some.inj h).symm
  · cases h

theorem first_group_index_shift (group : List Byte) (gl : List (List Byte)) (i : Nat) :
    first_group_index group gl (i + 1) = (first_group_index group gl i).map (· + 1) := by
  induction gl generalizing i with
  | nil => rfl
  | cons g gs ih =>
    unfold first_group_index
    split
    · rfl
    · exact ih (i + 1)

theorem group_display_name_eq_aux (group : List Byte) (gl : List (List Byte))
    (names : List (Option (List Byte))) :
    (match first_group_index group gl 0 with
     | none => group
     | some i =>
       match names.getD i none with
       | some n => n
       | none => group) =
    (match (gl.zip names).find? (fun p => cstr p.1 == cstr group) with
     | some (_, some n) => n
     | _ => group) := by
  induction gl generalizing names with
  | nil => rfl
  | cons g gs ih =>
    cases names with
    | nil =>
      simp only [List.zip_nil_right, List.find?_nil, List.getD_nil]
      split <;> rfl
    | cons n ns =>
      unfold first_group_index
      simp only [List.zip_cons_cons, List.find?_cons, strcmp_eq]
      by_cases hg : (cstr g == cstr group) = true
      · simp only [hg, if_true, List.getD_cons_zero]
        cases n <;> rfl
      · simp only [hg, Bool.false_eq_true, if_false]
        rw [first_group_index_shift, ← ih ns]
        cases first_group_index group gs 0 with
        | none => rfl
        | some i => simp only [Option.map_some', List.getD_cons_succ]

/-- The display name `append_group_str` picks is the one the specification describes. -/
theorem group_display_name_eq (c : Config) (group : List Byte) :
    group_display_name c group = spec_display_name c group := by
  unfold group_display_name spec_display_name
  cases c.friendly_group_list with
  | none => rfl
  | some names => exact group_display_name_eq_aux group c.group_list names

theorem append_cert_groups_eq (e : Env) (ws : Session) (gs : List (List Byte))
    (str str1 : List Byte) (h : append_cert_groups e ws gs str = some str1) :
    str1 = str ++ (((gs.filter (fun g =>
        !(ws.config.group_list.any (fun c => cstr g == cstr c)) && !(is_selected ws g))).map
        OptionElem.bare).map OptionElem.appended).flatten := by
  induction gs generalizing str with
  | nil =>
    unfold append_cert_groups at h
    simp only [List.filter_nil, List.map_nil, List.flatten_nil, List.append_nil]
    exact (Option.some.inj h).symm
  | cons g gs ih =>
    unfold append_cert_groups at h
    have hd : cert_group_dup ws g =
        (ws.config.group_list.any (fun c => cstr g == cstr c) || is_selected ws g) := by
      unfold cert_group_dup is_selected strcmp_eq
      rfl
    by_cases hdup : cert_group_dup ws g = true
    · rw [if_pos hdup] at h
      rw [List.filter_cons_of_neg]
      · exact ih str h
      · rw [hd] at hdup
        revert hdup
        cases ws.config.group_list.any (fun c => cstr g == cstr c) <;>
          cases is_selected ws g <;> simp
    · rw [if_neg hdup] at h
      rw [List.filter_cons_of_pos]
      · split at h
        · cases h
        · rename_i s1 hs1
          rw [ih s1 h, str_append_str_eq hs1]
          simp only [List.map_cons, List.flatten_cons, OptionElem.appended, List.append_assoc]
      · rw [hd] at hdup
        revert hdup
        cases ws.config.group_list.any (fun c => cstr g == cstr c) <;>
          cases is_selected ws g <;> simp

theorem append_config_groups_eq (e : Env) (ws : Session) (n i : Nat) (str str1 : List Byte)
    (hn : i + n = ws.config.group_list.length)
    (h : append_config_groups e ws n i str = some str1) :
    str1 = str ++ (((((ws.config.group_list.drop i).enumFrom i).filter
        (fun p => !(is_selected ws p.2))).map
        (fun p => OptionElem.valued p.2
          (match friendly_at ws.config p.1 with
           | some n => n
           | none => p.2))).map OptionElem.appended).flatten := by
  induction n generalizing i str with
  | zero =>
    unfold append_config_groups at h
    have hi : ws.config.group_list.length ≤ i := by omega
    rw [List.drop_eq_nil_of_le hi]
    simp only [List.enumFrom_nil, List.filter_nil, List.map_nil, List.flatten_nil,
      List.append_nil]
    exact (Option.some.inj h).symm
  | succ n ih =>
    unfold append_config_groups at h
    have hi : i < ws.config.group_list.length := by omega
    have hget : ws.config.group_list.getD i [] = ws.config.group_list[i] := by
      rw [List.getD_eq_getElem _ _ hi]
    rw [List.drop_eq_getElem_cons hi, List.enumFrom_cons]
    have hsel : (cstr ws.groupname ≠ [] ∧
        strcmp_eq ws.groupname (ws.config.group_list.getD i []) = true) ↔
        is_selected ws ws.config.group_list[i] = true := by
      unfold is_selected strcmp_eq
      rw [hget]
      simp
    by_cases hc : cstr ws.groupname ≠ [] ∧
        strcmp_eq ws.groupname (ws.config.group_list.getD i []) = true
    · rw [if_pos hc] at h
      rw [List.filter_cons_of_neg (by simpa using hsel.1 hc)]
      exact ih (i + 1) str (by omega) h
    · rw [if_neg hc] at h
      have hns : ¬ is_selected ws ws.config.group_list[i] = true := fun hh => hc (hsel.2 hh)
      rw [List.filter_cons_of_pos (by simpa using hns)]
      split at h
      · cases h
      · rename_i s1 hs1
        unfold append_group_idx at hs1
        dsimp only at hs1
        rw [ih (i + 1) s1 (by omega) h, str_append_str_eq hs1, hget]
        simp only [List.map_cons, List.flatten_cons, OptionElem.appended, List.append_assoc]

theorem cstr_of_no_nul (l : List Byte) (h : ∀ b ∈ l, b ≠ 0) : cstr l = l := by
  induction l with
  | nil => rfl
  | cons b bs ih =>
    unfold cstr
    rw [if_neg (h b (List.mem_cons_self b bs)), ih (fun x hx => h x (List.mem_cons_of_mem b hx))]

theorem append_groups_eq (k : Consts) (e : Env) (ws : Session) (str str1 : List Byte)
    (h : append_groups k e ws str = some str1) :
    str1 = str ++
      (if ws.config.group_list.length > 0 ∨ ws.cert_groups.length > 0 then
         lit "<select name=\"group_list\" label=\"GROUP:\">\n" ++
         ((spec_group_options ws (cert_enabled k ws)).map OptionElem.appended).flatten ++
         lit "</select>\n"
       else []) := by
  unfold append_groups at h
  split at h
  · rename_i hc
    rw [if_pos hc]
    split at h
    · cases h
    · rename_i s1 h1
      split at h
      · cases h
      · rename_i s2 h2
        split at h
        · cases h
        · rename_i s3 h3
          split at h
          · cases h
          · rename_i s4 h4
            split at h
            · cases h
            · rename_i s5 h5
              have e1 := str_append_str_eq h1
              have e6 := str_append_str_eq h
              have e5 := append_config_groups_eq e ws _ 0 s4 s5 (by omega) h5
              have hsel : cstr (lit "<select name=\"group_list\" label=\"GROUP:\">\n") =
                  lit "<select name=\"group_list\" label=\"GROUP:\">\n" := by decide
              have hend : cstr (lit "</select>\n") = lit "</select>\n" := by decide
              have e4 : s4 = s3 ++ (((if cert_enabled k ws = true then
                  (ws.cert_groups.filter (fun g =>
                    !(ws.config.group_list.any (fun c => cstr g == cstr c)) &&
                      !(is_selected ws g))).map OptionElem.bare
                  else []).map OptionElem.appended).flatten) := by
                by_cases hce : cert_enabled k ws = true
                · rw [if_pos hce] at h4 ⊢
                  exact append_cert_groups_eq e ws _ s3 s4 h4
                · rw [if_neg hce] at h4 ⊢
                  simp only [List.map_nil, List.flatten_nil, List.append_nil]
                  exact (Option.some.inj h4).symm
              have e3 : s3 = s2 ++ (((match ws.config.default_select_group with
                  | some d => [OptionElem.bare d]
                  | none => []).map OptionElem.appended).flatten) := by
                cases hd : ws.config.default_select_group with
                | none =>
                  simp only [hd] at h3 ⊢
                  simp only [List.map_nil, List.flatten_nil, List.append_nil]
                  exact (Option.some.inj h3).symm
                | some d =>
                  simp only [hd] at h3 ⊢
                  rw [str_append_str_eq h3]
                  simp [OptionElem.appended]
              have e2 : s2 = s1 ++ (((if cstr ws.groupname ≠ [] then
                  [OptionElem.valued ws.groupname (spec_display_name ws.config ws.groupname)]
                  else []).map OptionElem.appended).flatten) := by
                by_cases hgn : cstr ws.groupname ≠ []
                · rw [if_pos hgn] at h2 ⊢
                  unfold append_group_str at h2
                  rw [str_append_str_eq h2, group_display_name_eq]
                  simp [OptionElem.appended]
                · rw [if_neg hgn] at h2 ⊢
                  simp only [List.map_nil, List.flatten_nil, List.append_nil]
                  exact (Option.some.inj h2).symm
              rw [e6, e5, e4, e3, e2, e1, hsel, hend]
              unfold spec_group_options
              simp only [List.map_append, List.flatten_append, List.append_assoc, List.drop_zero,
                List.enum]
  · rename_i hc
    rw [if_neg hc, List.append_nil]
    exact (Option.some.inj h).symm

set_option maxRecDepth 100000 in
theorem cstr_login_msg_no_user_start : cstr login_msg_no_user_start = login_msg_no_user_start := by
  decide

set_option maxRecDepth 100000 in
theorem cstr_login_msg_no_user_end : cstr login_msg_no_user_end = login_msg_no_user_end := by
  decide

set_option maxRecDepth 100000 in
theorem cstr_login_msg_user_start : cstr login_msg_user_start = login_msg_user_start := by
  decide

set_option maxRecDepth 100000 in
theorem cstr_login_msg_user_end : cstr login_msg_user_end = login_msg_user_end := by
  decide

theorem get_cert_names_cert_enabled (k : Consts) (e : Env) (ws : Session) (crt : PeerCert) :
    (get_cert_names k e ws crt).2.config = ws.config ∧
    (get_cert_names k e ws crt).2.cert_auth_ok = ws.cert_auth_ok ∧
    (get_cert_names k e ws crt).2.groupname = ws.groupname := by
  unfold get_cert_names
  repeat' first | split | dsimp only
  all_goals exact ⟨rfl, rfl, rfl⟩

theorem get_cert_info_frame (k : Consts) (e : Env) (ws : Session) :
    (get_cert_info k e ws).2.config = ws.config ∧
    (get_cert_info k e ws).2.cert_auth_ok = ws.cert_auth_ok ∧
    (get_cert_info k e ws).2.groupname = ws.groupname := by
  unfold get_cert_info
  repeat' first | split | dsimp only
  all_goals first | exact ⟨rfl, rfl, rfl⟩ | exact get_cert_names_cert_enabled k e ws _

/-- The session `get_auth_handler2` renders the initial document from: the session after
`get_cert_info` when certificate authentication is on. -/
theorem get_auth_handler2_str_eq (k : Consts) (e : Env) (ws ws1 : Session)
    (pmsg : Option (List Byte)) (str : List Byte)
    (h : get_auth_handler2_str k e ws pmsg = (some str, ws1)) :
    (ws.auth_state = .S_AUTH_REQ →
      ws1 = ws ∧
      str = login_msg_no_user_start ++ cstr (password_prompt pmsg) ++ login_msg_no_user_end) ∧
    (ws.auth_state ≠ .S_AUTH_REQ →
      ws1 = (if cert_enabled k ws then (get_cert_info k e ws).2 else ws) ∧
      str = sent_user_document ws1 (cert_enabled k ws)) := by
  have hs1 := cstr_login_msg_no_user_start
  have hs2 := cstr_login_msg_no_user_end
  have hs3 := cstr_login_msg_user_start
  have hs4 := cstr_login_msg_user_end
  unfold get_auth_handler2_str at h
  split at h
  · rename_i hreq
    refine ⟨fun _ => ?_, fun hn => absurd hreq hn⟩
    split at h
    · cases h
    · rename_i s1 h1
      split at h
      · cases h
      · rename_i s2 h2
        split at h
        · cases h
        · rename_i s3 h3
          simp only [Prod.mk.injEq, Option.some.injEq] at h
          refine ⟨h.2.symm, ?_⟩
          rw [← h.1, str_append_str_eq h3, str_append_str_eq h2, str_append_str_eq h1, hs1, hs2]
          simp only [List.nil_append]
  · rename_i hreq
    refine ⟨fun hr => absurd hr hreq, fun _ => ?_⟩
    split at h
    · cases h
    · rename_i s1 h1
      split at h
      · cases h
      · dsimp only at h
        split at h
        · cases h
        · rename_i s2 h2
          split at h
          · cases h
          · rename_i s3 h3
            simp only [Prod.mk.injEq, Option.some.injEq] at h
            refine ⟨h.2.symm, ?_⟩
            have hce : cert_enabled k
                (if cert_enabled k ws = true then (get_cert_info k e ws).2 else ws) =
                cert_enabled k ws := by
              split
              · unfold cert_enabled
                rw [(get_cert_info_frame k e ws).1, (get_cert_info_frame k e ws).2.1]
              · rfl
            rw [← h.1, ← h.2, str_append_str_eq h3, append_groups_eq k e _ _ _ h2,
              str_append_str_eq h1, hs3, hs4, hce]
            unfold sent_user_document
            simp only [List.nil_append, List.append_assoc]

/-! ## C3: the success response is emitted at most once -/

theorem success_count_append (out : Tls) (c : List Byte) :
    success_count (out ++ [c]) = success_count out + (if is_webvpn_cookie c then 1 else 0) := by
  unfold success_count
  rw [List.countP_append, List.countP_cons, List.countP_nil, Nat.zero_add]

theorem not_cookie_head (a x : List Byte) (b : Byte) (h : a.head? = some b) (hb : b ≠ 83) :
    is_webvpn_cookie (a ++ x) = false := by
  cases a with
  | nil => cases h
  | cons c cs =>
    simp only [List.head?_cons, Option.some.injEq] at h
    subst h
    have : lit "Set-Cookie: webvpn=" = 83 :: lit "et-Cookie: webvpn=" := by decide
    unfold is_webvpn_cookie
    rw [this, List.cons_append, List.isPrefixOf]
    simp [Ne.symm hb]

theorem not_cookie_long (a x : List Byte) (hl : 19 ≤ a.length)
    (h : is_webvpn_cookie a = false) : is_webvpn_cookie (a ++ x) = false := by
  have hlen : (lit "Set-Cookie: webvpn=").length = 19 := by decide
  unfold is_webvpn_cookie at h ⊢
  cases hp : (lit "Set-Cookie: webvpn=").isPrefixOf (a ++ x) with
  | false => rfl
  | true =>
    exfalso
    rw [List.isPrefixOf_iff_prefix, List.prefix_iff_eq_take,
      List.take_append_of_le_length (by omega)] at hp
    have h2 : (lit "Set-Cookie: webvpn=").isPrefixOf a = true := by
      rw [List.isPrefixOf_iff_prefix, List.prefix_iff_eq_take]
      exact hp
    rw [h] at h2
    cases h2

theorem tls_write_count {e : Env} {out out1 : Tls} {data : List Byte}
    (h : tls_write e out data = some out1) (hd : is_webvpn_cookie data = false) :
    success_count out1 = success_count out := by
  rw [tls_write_eq h, success_count_append, hd]
  rfl

set_option maxRecDepth 100000 in
theorem get_auth_handler2_str_not_cookie (k : Consts) (e : Env) (ws ws1 : Session)
    (pmsg : Option (List Byte)) (str : List Byte)
    (h : get_auth_handler2_str k e ws pmsg = (some str, ws1)) :
    is_webvpn_cookie str = false := by
  have h1 := get_auth_handler2_str_eq k e ws ws1 pmsg str h
  by_cases hr : ws.auth_state = .S_AUTH_REQ
  · rw [(h1.1 hr).2, List.append_assoc]
    exact not_cookie_long _ _ (by decide) (by decide)
  · rw [(h1.2 hr).2]
    unfold sent_user_document
    rw [List.append_assoc]
    exact not_cookie_long _ _ (by decide) (by decide)

/-- The handler `get_auth_handler2` never emits the success header. -/
theorem get_auth_handler2_count (k : Consts) (e : Env) (ws : Session) (http_ver : Nat)
    (pmsg : Option (List Byte)) (out : Tls) :
    success_count (get_auth_handler2 k e ws http_ver pmsg out).2.2 = success_count out := by
  unfold get_auth_handler2
  split
  · rfl
  rename_i o1 h1
  have c1 := tls_write_count h1 (by
    rw [List.append_assoc]; exact not_cookie_head _ _ 72 (by decide) (by decide))
  split
  · exact c1
  rename_i o2 h2
  have c2 := (tls_write_count h2 (by decide)).trans c1
  split
  · exact c2
  rename_i o3 h3
  have c3 : success_count o3 = success_count out := by
    split at h3
    · refine (tls_write_count h3 ?_).trans c2
      rw [List.append_assoc, List.append_assoc, List.append_assoc]
      exact not_cookie_long _ _ (by decide) (by decide)
    · rw [← Option.some.inj h3]
      exact c2
  split
  · exact c3
  rename_i o4 h4
  have c4 := (tls_write_count h4 (by decide)).trans c3
  split
  · exact c4
  rename_i str ws1 hstr
  split
  · exact c4
  rename_i o5 h5
  have c5 := (tls_write_count h5 (by
    rw [List.append_assoc]; exact not_cookie_head _ _ 67 (by decide) (by decide))).trans c4
  split
  · exact c5
  rename_i o6 h6
  have c6 := (tls_write_count h6 (by decide)).trans c5
  split
  · exact c6
  rename_i o7 h7
  have c7 := (tls_write_count h7 (by decide)).trans c6
  split
  · exact c7
  rename_i o8 h8
  have c8 := (tls_write_count h8
    (get_auth_handler2_str_not_cookie k e ws ws1 pmsg str hstr)).trans c7
  split <;> exact c8

theorem tls_write_count_le {e : Env} {out out1 : Tls} {data : List Byte}
    (h : tls_write e out data = some out1) :
    success_count out1 ≤ success_count out + 1 := by
  rw [tls_write_eq h, success_count_append]
  split <;> omega

set_option maxRecDepth 100000 in
/-- The handler `post_common_handler` emits the success header at most once. -/
theorem post_common_handler_count (k : Consts) (e : Env) (ws : Session) (http_ver : Nat)
    (out : Tls) :
    success_count (post_common_handler k e ws http_ver out).2 ≤ success_count out + 1 := by
  unfold post_common_handler
  dsimp only
  split
  · dsimp only
    omega
  rename_i o1 h1
  have c1 := tls_write_count h1 (by
    rw [List.append_assoc]; exact not_cookie_head _ _ 72 (by decide) (by decide))
  split
  · dsimp only
    omega
  rename_i o2 h2
  have c2 := (tls_write_count h2 (by decide)).trans c1
  split
  · dsimp only
    omega
  rename_i o3 h3
  have c3 := (tls_write_count h3 (by decide)).trans c2
  split
  · dsimp only
    omega
  split
  · dsimp only
    omega
  rename_i o4 h4
  have c4 := (tls_write_count h4 (by
    rw [List.append_assoc]; exact not_cookie_head _ _ 67 (by decide) (by decide))).trans c3
  split
  · dsimp only
    omega
  rename_i o5 h5
  have c5 := (tls_write_count h5 (by decide)).trans c4
  split
  · dsimp only
    omega
  rename_i o6 h6
  have c6 := tls_write_count_le h6
  split
  · dsimp only
    omega
  rename_i o7 h7
  have c7 : success_count o7 = success_count o6 := by
    split at h7
    · split at h7
      · cases h7
      · rename_i o71 h71
        have c71 := tls_write_count h71 (by decide)
        split at h7
        · refine (tls_write_count h7 ?_).trans c71
          simp only [List.append_assoc]
          exact not_cookie_long _ _ (by decide) (by decide)
        · refine (tls_write_count h7 ?_).trans c71
          simp only [List.append_assoc]
          exact not_cookie_long _ _ (by decide) (by decide)
    · rw [← Option.some.inj h7]
  split
  · dsimp only
    omega
  rename_i o8 h8
  have c8 := tls_write_count h8 (by
    simp only [List.append_assoc]; exact not_cookie_head _ _ 13 (by decide) (by decide))
  split <;> (dsimp only; omega)

theorem auth_fail_count (e : Env) (ws : Session) (out : Tls) (sent : List SecmodMsg)
    (reason : List Byte) :
    success_count (auth_fail e ws out sent reason).out = success_count out := by
  unfold auth_fail
  dsimp only
  split
  · rename_i o1 h1
    refine tls_write_count h1 ?_
    rw [List.append_assoc]
    exact not_cookie_long _ _ (by decide) (by decide)
  · rfl

theorem auth_fail_ws (e : Env) (ws : Session) (out : Tls) (sent : List SecmodMsg)
    (reason : List Byte) : (auth_fail e ws out sent reason).ws = ws := rfl

theorem auth_fail_step (e : Env) (ws : Session) (out : Tls) (sent : List SecmodMsg)
    (reason : List Byte) : CountStep (auth_fail e ws out sent reason) out :=
  Or.inl (auth_fail_count e ws out sent reason)

theorem post_auth_reply_step (k : Consts) (e : Env) (ws : Session) (http_ver : Nat) (out : Tls)
    (sent : List SecmodMsg) : CountStep (post_auth_reply k e ws http_ver out sent) out := by
  unfold post_auth_reply
  dsimp only
  split
  · exact Or.inl (get_auth_handler2_count k e _ http_ver _ out)
  · split
    · exact auth_fail_step e _ out sent _
    · exact Or.inr ⟨post_common_handler_count k e _ http_ver out, rfl⟩

theorem post_auth_send_init_step (k : Consts) (e : Env) (ws : Session) (http_ver : Nat)
    (out : Tls) (ireq : SecAuthInitMsg) :
    CountStep (post_auth_send_init k e ws http_ver out ireq) out := by
  unfold post_auth_send_init
  repeat' split
  all_goals first | exact auth_fail_step e _ out _ _ | exact post_auth_reply_step k e _ http_ver out _

theorem post_auth_cert_step (k : Consts) (e : Env) (ws : Session) (http_ver : Nat)
    (out : Tls) (ireq : SecAuthInitMsg) :
    CountStep (post_auth_cert k e ws http_ver out ireq) out := by
  unfold post_auth_cert
  repeat' split
  all_goals first
    | exact auth_fail_step e _ out _ _
    | exact post_auth_send_init_step k e _ http_ver out _

theorem ask_auth_step (k : Consts) (e : Env) (ws : Session) (http_ver : Nat) (out : Tls) :
    CountStep (ask_auth k e ws http_ver out) out :=
  Or.inl (get_auth_handler2_count k e ws http_ver none out)

theorem post_auth_inactive_step (k : Consts) (e : Env) (ws : Session) (http_ver : Nat)
    (out : Tls) : CountStep (post_auth_inactive k e ws http_ver out) out := by
  unfold post_auth_inactive
  repeat' split
  all_goals first
    | exact Or.inl rfl
    | exact ask_auth_step k e _ http_ver out
    | exact post_auth_cert_step k e _ http_ver out _

theorem post_auth_cont_step (k : Consts) (e : Env) (ws : Session) (http_ver : Nat)
    (out : Tls) : CountStep (post_auth_cont k e ws http_ver out) out := by
  unfold post_auth_cont
  repeat' first | split | dsimp only
  all_goals first | exact auth_fail_step e _ out _ _ | exact post_auth_reply_step k e _ http_ver out _

theorem post_auth_handler_step (k : Consts) (e : Env) (ws : Session) (http_ver : Nat)
    (out : Tls) : CountStep (post_auth_handler k e ws http_ver out) out := by
  unfold post_auth_handler
  dsimp only
  split
  · exact post_auth_inactive_step k e _ http_ver out
  · exact post_auth_cont_step k e _ http_ver out
  · exact post_auth_cont_step k e _ http_ver out
  · exact auth_fail_step e _ out _ _

/-- A POST handled in state COOKIE takes the label `auth_fail`. -/
theorem post_auth_handler_cookie (k : Consts) (e : Env) (ws : Session) (http_ver : Nat)
    (out : Tls) (h : ws.auth_state = .S_AUTH_COOKIE) :
    post_auth_handler k e ws http_ver out =
      auth_fail e ws out [] (lit "Authentication failed") := by
  have hn : ¬ (ws.sid_set ≠ 0 ∧ ws.auth_state = .S_AUTH_INACTIVE) := by
    rw [h]
    intro hh
    cases hh.2
  unfold post_auth_handler
  dsimp only
  rw [if_neg hn]
  simp only [h]

theorem handle_step (k : Consts) (ws : Session) (out : Tls) (r : Request) :
    CountStep (handle k ws out r) out := by
  cases r with
  | post e body http_ver => exact post_auth_handler_step k e _ http_ver out
  | get e http_ver => exact Or.inl (get_auth_handler2_count k e ws http_ver none out)

theorem handle_cookie (k : Consts) (ws : Session) (out : Tls) (r : Request)
    (h : ws.auth_state = .S_AUTH_COOKIE) :
    success_count (handle k ws out r).out = success_count out ∧
    ∀ ret, (handle k ws out r).outcome = .returned ret →
      (handle k ws out r).ws.auth_state = .S_AUTH_COOKIE := by
  cases r with
  | post e body http_ver =>
    have hh := post_auth_handler_cookie k e
      { ws with req := { ws.req with body := body, body_length := body.length } } http_ver out h
    show success_count (post_auth_handler k e _ http_ver out).out = success_count out ∧
      ∀ ret, (post_auth_handler k e _ http_ver out).outcome = .returned ret →
        (post_auth_handler k e _ http_ver out).ws.auth_state = .S_AUTH_COOKIE
    rw [hh]
    refine ⟨auth_fail_count e _ out _ _, fun ret hret => ?_⟩
    rw [auth_fail_outcome] at hret
    cases hret
  | get e http_ver =>
    refine ⟨get_auth_handler2_count k e ws http_ver none out, fun ret _ => ?_⟩
    unfold handle get_auth_handler
    dsimp only
    rw [get_auth_handler2_auth_state, h]

theorem run_count (k : Consts) (ws : Session) (out : Tls) (reqs : List Request)
    (h : success_count out = 0 ∨ (success_count out ≤ 1 ∧ ws.auth_state = .S_AUTH_COOKIE)) :
    success_count (run k ws out reqs) ≤ 1 := by
  induction reqs generalizing ws out with
  | nil =>
    unfold run
    rcases h with h | h
    · omega
    · exact h.1
  | cons r rs ih =>
    have hstep := handle_step k ws out r
    have hnext : success_count (handle k ws out r).out = 0 ∨
        (success_count (handle k ws out r).out ≤ 1 ∧
          ((handle k ws out r).ws.auth_state = .S_AUTH_COOKIE ∨
            ∀ ret, (handle k ws out r).outcome ≠ .returned ret)) := by
      rcases h with h | h
      · rcases hstep with h1 | h1
        · left
          omega
        · right
          exact ⟨by omega, Or.inl h1.2⟩
      · right
        have hc := handle_cookie k ws out r h.2
        refine ⟨by omega, ?_⟩
        by_cases hr : ∃ ret, (handle k ws out r).outcome = .returned ret
        · obtain ⟨ret, hret⟩ := hr
          exact Or.inl (hc.2 ret hret)
        · exact Or.inr (fun ret hret => hr ⟨ret, hret⟩)
    unfold run
    split
    · rename_i ret hret
      apply ih
      rcases hnext with h1 | h1
      · exact Or.inl h1
      · rcases h1.2 with h2 | h2
        · exact Or.inr ⟨h1.1, h2⟩
        · exact absurd hret (h2 ret)
    · rcases hnext with h1 | h1
      · omega
      · exact h1.1

/-- C3: along every sequence of `post_auth_handler` / `get_auth_handler` calls on a session
that starts in INACTIVE, the success header `Set-Cookie: webvpn=` is written at most once; and a
POST handled in state COOKIE is the label `auth_fail` (the 401 path, ending the worker), which
writes no success header. -/
theorem webvpn_cookie_at_most_once (k : Consts) (ws : Session) (reqs : List Request)
    (h : ws.auth_state = .S_AUTH_INACTIVE) :
    success_count (run k ws [] reqs) ≤ 1 ∧
    ∀ (e : Env) (ws1 : Session) (http_ver : Nat) (out : Tls),
      ws1.auth_state = .S_AUTH_COOKIE →
      post_auth_handler k e ws1 http_ver out =
        auth_fail e ws1 out [] (lit "Authentication failed") ∧
      (post_auth_handler k e ws1 http_ver out).outcome = .exited 1 ∧
      success_count (post_auth_handler k e ws1 http_ver out).out = success_count out := by
  have _ := h
  refine ⟨run_count k ws [] reqs (Or.inl rfl), fun e ws1 http_ver out h1 => ?_⟩
  rw [post_auth_handler_cookie k e ws1 http_ver out h1]
  exact ⟨rfl, rfl, auth_fail_count e ws1 out _ _⟩

set_option maxRecDepth 100000 in
/-- C3 at the scenario S1 followed by one more POST: the success header is written exactly
once. -/
theorem webvpn_cookie_at_most_once_witness :
    session_password_example.auth_state = .S_AUTH_INACTIVE ∧
    success_count (run consts_ref session_password_example [] requests_example) = 1 ∧
    success_count (run consts_ref session_password_example [] requests_example) ≤ 1 :=
  ⟨rfl, by decide,
   (webvpn_cookie_at_most_once consts_ref session_password_example requests_example rfl).1⟩

/-! ## Lemmas on C strings, `memmem` and the scanning loops -/

theorem cstr_no_nul (l : List Byte) : ∀ b ∈ cstr l, b ≠ 0 := by
  induction l with
  | nil => intro b hb; cases hb
  | cons a as ih =>
    intro b hb
    unfold cstr at hb
    split at hb
    · cases hb
    · rename_i ha
      rcases List.mem_cons.1 hb with h | h
      · rw [h]; exact ha
      · exact ih b h

theorem cstr_append_of_no_nul (a x : List Byte) (h : ∀ b ∈ a, b ≠ 0) :
    cstr (a ++ x) = a ++ cstr x := by
  induction a with
  | nil => rfl
  | cons b bs ih =>
    rw [List.cons_append, cstr, if_neg (h b (List.mem_cons_self b bs)),
      ih (fun y hy => h y (List.mem_cons_of_mem b hy)), List.cons_append]

theorem cstr_initial (l : List Byte) : cstr l <+: l := by
  induction l with
  | nil => exact List.prefix_refl _
  | cons b bs ih =>
    unfold cstr
    split
    · exact List.nil_prefix
    · exact (List.prefix_cons_inj b).2 ih

theorem memmem_isSome_iff (hay needle : List Byte) :
    (memmem hay needle).isSome = true ↔ needle <:+: hay := by
  induction hay with
  | nil =>
    unfold memmem
    split
    · rename_i h
      rw [h]
      simp
    · rename_i h
      simp [h]
  | cons h hs ih =>
    unfold memmem
    split
    · rename_i hp
      simp only [Option.isSome_some, true_iff]
      exact (List.isPrefixOf_iff_prefix.1 hp).isInfix
    · rename_i hp
      rw [Option.isSome_map', ih, List.infix_cons_iff]
      constructor
      · exact Or.inr
      · rintro (h1 | h1)
        · exact absurd (List.isPrefixOf_iff_prefix.2 h1) hp
        · exact h1

theorem memmem_eq_none_iff (hay needle : List Byte) :
    memmem hay needle = none ↔ ¬ needle <:+: hay := by
  rw [← memmem_isSome_iff]
  cases memmem hay needle <;> simp

/-- The function `memmem` returns the offset of the first occurrence. -/
theorem memmem_first (needle : List Byte) (off : Nat) (hay : List Byte)
    (hocc : needle <+: hay.drop off) (hoff : off ≤ hay.length)
    (hfirst : ∀ j < off, ¬ needle <+: hay.drop j) : memmem hay needle = some off := by
  induction off generalizing hay with
  | zero =>
    rw [List.drop_zero] at hocc
    cases hay with
    | nil =>
      unfold memmem
      rw [if_pos (List.prefix_nil.1 hocc)]
    | cons h hs =>
      unfold memmem
      rw [if_pos (List.isPrefixOf_iff_prefix.2 hocc)]
  | succ n ih =>
    cases hay with
    | nil => simp at hoff
    | cons h hs =>
      unfold memmem
      have h0 : ¬ needle.isPrefixOf (h :: hs) = true := by
        intro hp
        exact hfirst 0 (Nat.succ_pos n) (by rw [List.drop_zero]; exact List.isPrefixOf_iff_prefix.1 hp)
      rw [if_neg h0, ih hs (by simpa using hocc) (by simpa using hoff)
        (fun j hj => by simpa using hfirst (j + 1) (by omega))]
      rfl

theorem scan_form_stop (w rest : List Byte) (hnul : ∀ b ∈ w, b ≠ 0) (hamp : ∀ b ∈ w, b ≠ 38)
    (hrest : rest = [] ∨ rest.head? = some 38 ∨ rest.head? = some 0) :
    scan_form (w ++ rest) = w.length := by
  induction w with
  | nil =>
    rw [List.nil_append]
    cases rest with
    | nil => rfl
    | cons r rs =>
      unfold scan_form
      rcases hrest with h | h | h
      · cases h
      · simp only [List.head?_cons, Option.some.injEq] at h
        rw [h]
        rfl
      · simp only [List.head?_cons, Option.some.injEq] at h
        rw [h]
        rfl
  | cons b bs ih =>
    rw [List.cons_append, scan_form, if_neg (hnul b (List.mem_cons_self b bs)),
      if_neg (hamp b (List.mem_cons_self b bs)),
      ih (fun y hy => hnul y (List.mem_cons_of_mem b hy))
        (fun y hy => hamp y (List.mem_cons_of_mem b hy))]
    rfl

theorem strncmp_eq_imp_initial (p t : List Byte) (n : Nat) (ht : ∀ b ∈ t, b ≠ 0)
    (hn : t.length ≤ n) (h : strncmp_eq p t n = true) : t <+: p := by
  unfold strncmp_eq at h
  rw [cstr_of_no_nul t ht, List.take_of_length_le hn] at h
  have h1 : (cstr p).take n = t := by simpa using h
  rw [← h1]
  exact (List.take_prefix n (cstr p)).trans (cstr_initial p)

theorem strncmp_eq_self (t rest : List Byte) (ht : ∀ b ∈ t, b ≠ 0) :
    strncmp_eq (t ++ rest) t t.length = true := by
  unfold strncmp_eq
  rw [cstr_append_of_no_nul t rest ht, cstr_of_no_nul t ht, List.take_left' rfl,
    List.take_of_length_le (Nat.le_refl _)]
  simp

theorem scan_xml_stop (t v rest : List Byte) (ht : ∀ b ∈ t, b ≠ 0) (ht0 : t.head? = some 60)
    (hnul : ∀ b ∈ v, b ≠ 0)
    (hfirst : ∀ j < v.length, ¬ t <+: (v ++ (t ++ rest)).drop j) :
    scan_xml t t.length (v ++ (t ++ rest)) = v.length := by
  induction v with
  | nil =>
    rw [List.nil_append]
    cases t with
    | nil => cases ht0
    | cons c cs =>
      simp only [List.head?_cons, Option.some.injEq] at ht0
      subst ht0
      rw [List.cons_append, scan_xml, if_neg (by decide)]
      have := strncmp_eq_self (60 :: cs) rest ht
      rw [List.cons_append] at this
      rw [if_pos ⟨rfl, this⟩]
      rfl
  | cons b bs ih =>
    rw [List.cons_append, scan_xml, if_neg (hnul b (List.mem_cons_self b bs))]
    have hno : ¬ (b = 60 ∧ strncmp_eq (b :: (bs ++ (t ++ rest))) t t.length = true) := by
      intro hh
      have := strncmp_eq_imp_initial _ t t.length ht (Nat.le_refl _) hh.2
      exact hfirst 0 (by simp) (by simpa using this)
    rw [if_neg hno, ih (fun y hy => hnul y (List.mem_cons_of_mem b hy))
      (fun j hj => by simpa using hfirst (j + 1) (by simp; omega))]
    rfl

theorem scan_xml_nil_or_nul (t : List Byte) (n : Nat) (v : List Byte)
    (h : v = [] ∨ v.head? = some 0) : scan_xml t n v = 0 := by
  cases v with
  | nil => rfl
  | cons b bs =>
    rcases h with h | h
    · cases h
    · simp only [List.head?_cons, Option.some.injEq] at h
      rw [scan_xml, if_pos h]

/-! ## What `parse_reply` returns -/

theorem temp_bytes_fit (text : List Byte) (h : text.length ≤ 63) :
    temp_bytes text (snprintf_ret text) = text ∧ snprintf_buf 64 text = text := by
  unfold temp_bytes snprintf_ret snprintf_buf
  have h1 : List.take (64 - 1) text = text := List.take_of_length_le (by omega)
  rw [h1, List.take_left' rfl]
  exact ⟨rfl, rfl⟩

theorem xml_open_length (name : List Byte) : (xml_open name).length = (cstr name).length + 2 := by
  unfold xml_open
  simp only [List.length_append]
  have h1 : (lit "<").length = 1 := by decide
  have h2 : (lit ">").length = 1 := by decide
  omega

theorem xml_close_length (name : List Byte) :
    (xml_close name).length = (cstr name).length + 3 := by
  unfold xml_close
  simp only [List.length_append]
  have h1 : (lit "</").length = 2 := by decide
  have h2 : (lit ">").length = 1 := by decide
  omega

theorem form_key_length (field : List Byte) :
    (form_key field).length = (cstr field).length + 1 := by
  unfold form_key
  simp only [List.length_append]
  have h1 : (lit "=").length = 1 := by decide
  omega

theorem xml_close_no_nul (name : List Byte) : ∀ b ∈ xml_close name, b ≠ 0 := by
  intro b hb
  unfold xml_close at hb
  simp only [List.mem_append] at hb
  rcases hb with (hb | hb) | hb
  · have : ∀ c ∈ lit "</", c ≠ 0 := by decide
    exact this b hb
  · exact cstr_no_nul name b hb
  · have : ∀ c ∈ lit ">", c ≠ 0 := by decide
    exact this b hb

theorem xml_close_head (name : List Byte) : (xml_close name).head? = some 60 := by
  unfold xml_close
  rw [List.append_assoc]
  rfl

theorem prefix_drop_le (needle hay : List Byte) (off : Nat) (hne : needle ≠ [])
    (h : needle <+: hay.drop off) : off + needle.length ≤ hay.length := by
  have h1 := h.length_le
  rw [List.length_drop] at h1
  have h2 : 0 < needle.length := List.length_pos.2 hne
  omega

/-- The XML branch fails when the opening tag does not occur. -/
theorem parse_reply_xml_missing (e : Env) (body : List Byte) (n : Nat) (name : List Byte)
    (hlen : (cstr name).length ≤ 60) (h : ¬ xml_open name <:+: body.take n) :
    parse_reply_xml e body n name = .not_found := by
  unfold parse_reply_xml
  dsimp only
  have hfit := temp_bytes_fit (lit "<" ++ cstr name ++ lit ">")
    (by have := xml_open_length name; unfold xml_open at this; omega)
  have hm := (memmem_eq_none_iff _ _).2 h
  unfold xml_open at hm
  rw [hfit.1, hm]

/-- The XML branch, when the opening tag first occurs at `off` and the scan from behind it
stops after `len` bytes. -/
theorem parse_reply_xml_found (e : Env) (body : List Byte) (n : Nat) (name : List Byte)
    (off : Nat) (hlen : (cstr name).length ≤ 60)
    (hocc : xml_open name <+: (body.take n).drop off)
    (hfirst : ∀ j < off, ¬ xml_open name <+: (body.take n).drop j) :
    parse_reply_xml e body n name =
      parse_finish e.unescape_html body (off + (xml_open name).length)
        (scan_xml (xml_close name) (xml_close name).length
          (body.drop (off + (xml_open name).length))) := by
  have hne : xml_open name ≠ [] := by
    intro h0
    have := xml_open_length name
    rw [h0] at this
    simp at this
  have hoff := prefix_drop_le _ _ off hne hocc
  unfold parse_reply_xml
  dsimp only
  have hfit1 := temp_bytes_fit (lit "<" ++ cstr name ++ lit ">")
    (by have := xml_open_length name; unfold xml_open at this; omega)
  have hfit2 := temp_bytes_fit (lit "</" ++ cstr name ++ lit ">")
    (by have := xml_close_length name; unfold xml_close at this; omega)
  rw [hfit1.1, hfit2.2]
  have hm := memmem_first (xml_open name) off (body.take n) hocc (by omega) hfirst
  unfold xml_open at hm
  rw [hm]
  rfl

/-- The form branch fails when `field=` does not occur. -/
theorem parse_reply_form_missing (e : Env) (body : List Byte) (n : Nat) (field : List Byte)
    (hlen : (cstr field).length ≤ 62) (h : ¬ form_key field <:+: body.take n) :
    parse_reply_form e body n field = .not_found := by
  unfold parse_reply_form
  dsimp only
  have hfit := temp_bytes_fit (cstr field ++ lit "=")
    (by have := form_key_length field; unfold form_key at this; omega)
  have hm := (memmem_eq_none_iff _ _).2 h
  unfold form_key at hm
  rw [hfit.1, hm]

/-- The form branch, when `field=` first occurs at `off`. -/
theorem parse_reply_form_found (e : Env) (body : List Byte) (n : Nat) (field : List Byte)
    (off : Nat) (hlen : (cstr field).length ≤ 62)
    (hocc : form_key field <+: (body.take n).drop off)
    (hfirst : ∀ j < off, ¬ form_key field <+: (body.take n).drop j) :
    parse_reply_form e body n field =
      parse_finish e.unescape_url body (off + (form_key field).length)
        (scan_form (body.drop (off + (form_key field).length))) := by
  have hne : form_key field ≠ [] := by
    intro h0
    have := form_key_length field
    rw [h0] at this
    simp at this
  have hoff := prefix_drop_le _ _ off hne hocc
  unfold parse_reply_form
  dsimp only
  have hfit1 := temp_bytes_fit (cstr field ++ lit "=")
    (by have := form_key_length field; unfold form_key at this; omega)
  rw [hfit1.1]
  have hm := memmem_first (form_key field) off (body.take n) hocc (by omega) hfirst
  unfold form_key at hm
  rw [hm]
  rfl

theorem parse_finish_value (unescape : List Byte → Option (List Byte)) (body : List Byte)
    (start : Nat) (v rest : List Byte) (hv : v ≠ []) (h : body.drop start = v ++ rest) :
    parse_finish unescape body start v.length =
      (match unescape v with
       | none => .unescape_failed
       | some u => .ok u) := by
  unfold parse_finish
  rw [if_neg (by simpa using hv), h, List.take_left' rfl]

theorem parse_finish_zero (unescape : List Byte → Option (List Byte)) (body : List Byte)
    (start : Nat) : (parse_finish unescape body start 0).ret = -1 := by
  unfold parse_finish
  rw [if_pos rfl]
  rfl

/-! ## C6: a missing or empty field is a failure -/

/-- The names `parse_reply` is called with fit its 64-byte temporaries. -/
theorem parse_reply_calls_fit (field : List Byte) (xml_field : Option (List Byte))
    (h : (field, xml_field) ∈ parse_reply_calls) :
    (cstr field).length ≤ 62 ∧ (cstr (xml_tag field xml_field)).length ≤ 60 := by
  unfold parse_reply_calls at h
  simp only [List.mem_cons, Prod.mk.injEq, List.mem_singleton, List.not_mem_nil, or_false] at h
  rcases h with ⟨h1, h2⟩ | ⟨h1, h2⟩ | ⟨h1, h2⟩ <;> subst h1 <;> subst h2 <;> decide

/-- C6: for every body and every field `parse_reply` is called with (`username`, `password`,
`group%5flist` with the tag `group-select`; or any other name that fits the 64-byte
temporaries), `parse_reply` returns -1 when the opening delimiter (`<name>` in XML mode,
`field=` in form mode) does not occur in the body, and returns -1 when the value behind the
first occurrence of the delimiter is empty: immediately followed by the closing tag (XML) or
`&` (form), by a NUL, or by the end of the body. -/
theorem parse_reply_missing_or_empty (e : Env) (body : List Byte) (body_length : Nat)
    (field : List Byte) (xml_field : Option (List Byte))
    (hfield : (field, xml_field) ∈ parse_reply_calls ∨
      ((cstr field).length ≤ 62 ∧ (cstr (xml_tag field xml_field)).length ≤ 60)) :
    (body_is_xml body body_length = true →
      (¬ xml_open (xml_tag field xml_field) <:+: body.take body_length →
        (parse_reply e body body_length field xml_field).ret = -1) ∧
      (∀ off, xml_open (xml_tag field xml_field) <+: (body.take body_length).drop off →
        (∀ j < off, ¬ xml_open (xml_tag field xml_field) <+: (body.take body_length).drop j) →
        ends_value (xml_close (xml_tag field xml_field))
          (body.drop (off + (xml_open (xml_tag field xml_field)).length)) →
        (parse_reply e body body_length field xml_field).ret = -1)) ∧
    (body_is_xml body body_length = false →
      (¬ form_key field <:+: body.take body_length →
        (parse_reply e body body_length field xml_field).ret = -1) ∧
      (∀ off, form_key field <+: (body.take body_length).drop off →
        (∀ j < off, ¬ form_key field <+: (body.take body_length).drop j) →
        ends_value (lit "&") (body.drop (off + (form_key field).length)) →
        (parse_reply e body body_length field xml_field).ret = -1)) := by
  have hfit : (cstr field).length ≤ 62 ∧ (cstr (xml_tag field xml_field)).length ≤ 60 := by
    rcases hfield with h | h
    · exact parse_reply_calls_fit field xml_field h
    · exact h
  obtain ⟨hlenf, hlen⟩ := hfit
  refine ⟨fun hx => ⟨fun hmiss => ?_, fun off hocc hfirst hend => ?_⟩,
    fun hx => ⟨fun hmiss => ?_, fun off hocc hfirst hend => ?_⟩⟩
  · unfold parse_reply
    rw [if_pos hx, parse_reply_xml_missing e body body_length _ hlen hmiss]
    rfl
  · unfold parse_reply
    rw [if_pos hx, parse_reply_xml_found e body body_length _ off hlen hocc hfirst]
    have hscan : scan_xml (xml_close (xml_tag field xml_field))
        (xml_close (xml_tag field xml_field)).length
        (body.drop (off + (xml_open (xml_tag field xml_field)).length)) = 0 := by
      rcases hend with h | h | h
      · exact scan_xml_nil_or_nul _ _ _ (Or.inl h)
      · exact scan_xml_nil_or_nul _ _ _ (Or.inr h)
      · obtain ⟨rest, hrest⟩ := h
        rw [← hrest]
        exact scan_xml_stop _ [] rest (xml_close_no_nul _) (xml_close_head _)
          (fun b hb => by cases hb) (fun j hj => by simp at hj)
    rw [hscan]
    exact parse_finish_zero _ _ _
  · unfold parse_reply
    rw [if_neg (by rw [hx]; decide), parse_reply_form_missing e body body_length _ hlenf hmiss]
    rfl
  · unfold parse_reply
    rw [if_neg (by rw [hx]; decide),
      parse_reply_form_found e body body_length _ off hlenf hocc hfirst]
    have hscan : scan_form (body.drop (off + (form_key field).length)) = 0 := by
      rcases hend with h | h | h
      · rw [h]; rfl
      · have := scan_form_stop [] _ (fun b hb => by cases hb) (fun b hb => by cases hb)
          (Or.inr (Or.inr h))
        simpa using this
      · obtain ⟨rest, hrest⟩ := h
        rw [← hrest]
        rfl
    rw [hscan]
    exact parse_finish_zero _ _ _

set_option maxRecDepth 100000 in
/-- C6 at the bodies `<?xml?><username></username>` (empty value),
`<?xml?><password>x</password>` searched for `username` (missing), `username=&password=x`
(empty value), `password=x` searched for `username` (missing), and, for the group, at
`<?xml?><group-select></group-select>` and `group%5flist=&username=u` (empty values). -/
theorem parse_reply_missing_or_empty_witness :
    (parse_reply (env_ok (.error 0)) (lit "<?xml?><username></username>") 28
      (lit "username") none).ret = -1 ∧
    (parse_reply (env_ok (.error 0)) (lit "<?xml?><password>x</password>") 29
      (lit "username") none).ret = -1 ∧
    (parse_reply (env_ok (.error 0)) (lit "username=&password=x") 20
      (lit "username") none).ret = -1 ∧
    (parse_reply (env_ok (.error 0)) (lit "password=x") 10
      (lit "username") none).ret = -1 ∧
    (parse_reply (env_ok (.error 0)) (lit "<?xml?><group-select></group-select>") 36
      (lit "group%5flist") (some (lit "group-select"))).ret = -1 ∧
    (parse_reply (env_ok (.error 0)) (lit "group%5flist=&username=u") 24
      (lit "group%5flist") (some (lit "group-select"))).ret = -1 :=
  ⟨((parse_reply_missing_or_empty (env_ok (.error 0)) (lit "<?xml?><username></username>") 28
      (lit "username") none (Or.inl (by decide))).1 (by decide)).2 7 (by decide) (by decide)
      (by decide),
   ((parse_reply_missing_or_empty (env_ok (.error 0)) (lit "<?xml?><password>x</password>") 29
      (lit "username") none (Or.inl (by decide))).1 (by decide)).1 (by decide),
   ((parse_reply_missing_or_empty (env_ok (.error 0)) (lit "username=&password=x") 20
      (lit "username") none (Or.inl (by decide))).2 (by decide)).2 0 (by decide) (by decide)
      (by decide),
   ((parse_reply_missing_or_empty (env_ok (.error 0)) (lit "password=x") 10
      (lit "username") none (Or.inl (by decide))).2 (by decide)).1 (by decide),
   ((parse_reply_missing_or_empty (env_ok (.error 0))
      (lit "<?xml?><group-select></group-select>") 36
      (lit "group%5flist") (some (lit "group-select")) (Or.inl (by decide))).1 (by decide)).2 7
      (by decide) (by decide) (by decide),
   ((parse_reply_missing_or_empty (env_ok (.error 0)) (lit "group%5flist=&username=u") 24
      (lit "group%5flist") (some (lit "group-select")) (Or.inl (by decide))).2 (by decide)).2 0
      (by decide) (by decide) (by decide)⟩

/-! ## C4: `parse_reply` undoes escaping -/

theorem head_of_initial (t l : List Byte) (b : Byte) (h0 : t.head? = some b) (h : t <+: l) :
    l.head? = some b := by
  obtain ⟨r, hr⟩ := h
  cases t with
  | nil => cases h0
  | cons c cs =>
    rw [← hr]
    exact h0

theorem head_drop_append (v x : List Byte) (j : Nat) (hj : j < v.length) :
    ∃ b ∈ v, ((v ++ x).drop j).head? = some b := by
  refine ⟨v[j], List.getElem_mem hj, ?_⟩
  rw [List.drop_append_of_le_length (by omega), List.drop_eq_getElem_cons hj]
  rfl

theorem no_close_inside (name v x : List Byte) (hlt : ∀ b ∈ v, b ≠ 60) :
    ∀ j < v.length, ¬ xml_close name <+: (v ++ x).drop j := by
  intro j hj hp
  obtain ⟨b, hb, hhead⟩ := head_drop_append v x j hj
  have := head_of_initial _ _ 60 (xml_close_head name) hp
  rw [hhead] at this
  exact hlt b hb (Option.some.inj this)

/-- The value of the XML branch when the first opening tag is followed by the non-empty,
NUL-free bytes `v` and the next closing tag. -/
theorem parse_reply_xml_value (e : Env) (body : List Byte) (n : Nat) (name : List Byte)
    (off : Nat) (v rest : List Byte) (hlen : (cstr name).length ≤ 60)
    (hocc : xml_open name <+: (body.take n).drop off)
    (hfirst : ∀ j < off, ¬ xml_open name <+: (body.take n).drop j)
    (hval : body.drop (off + (xml_open name).length) = v ++ (xml_close name ++ rest))
    (hnext : ∀ j < v.length, ¬ xml_close name <+: (v ++ (xml_close name ++ rest)).drop j)
    (hne : v ≠ []) (hnul : ∀ b ∈ v, b ≠ 0) :
    parse_reply_xml e body n name =
      (match e.unescape_html v with
       | none => .unescape_failed
       | some u => .ok u) := by
  rw [parse_reply_xml_found e body n name off hlen hocc hfirst, hval,
    scan_xml_stop _ v rest (xml_close_no_nul name) (xml_close_head name) hnul hnext]
  exact parse_finish_value _ _ _ v _ hne hval

/-- C4, amended: for every field name of at most 60 bytes and every value `v` whose escaped
text `esc v` is non-empty and holds no NUL byte: (i) in a form body (no `<?xml`) where the
first `field=` is followed by `esc v` and then `&` or the end of the body, `esc v` holding no
`&` and `unescape_url (esc v) = v`, `parse_reply` returns `v`; (ii) in a body containing
`<?xml` where the first `<name>` is followed by `esc v` and `</name>`, `esc v` holding no `<`
and `unescape_html (esc v) = v`, `parse_reply` returns `v`. -/
theorem parse_reply_undoes_escaping (e : Env) (esc : List Byte → List Byte)
    (field : List Byte) (xml_field : Option (List Byte)) (v pre rest : List Byte)
    (hne : esc v ≠ []) (hnul : ∀ b ∈ esc v, b ≠ 0) :
    ((cstr field).length ≤ 60 →
      ¬ lit "<?xml" <:+: pre ++ form_key field ++ esc v ++ rest →
      (∀ j < pre.length, ¬ form_key field <+: (pre ++ form_key field ++ esc v ++ rest).drop j) →
      (rest = [] ∨ lit "&" <+: rest) →
      (∀ b ∈ esc v, b ≠ 38) →
      e.unescape_url (esc v) = some v →
      parse_reply e (pre ++ form_key field ++ esc v ++ rest)
        (pre ++ form_key field ++ esc v ++ rest).length field xml_field = .ok v) ∧
    ((cstr (xml_tag field xml_field)).length ≤ 60 →
      lit "<?xml" <:+: pre ++ xml_open (xml_tag field xml_field) ++ esc v ++
        xml_close (xml_tag field xml_field) ++ rest →
      (∀ j < pre.length, ¬ xml_open (xml_tag field xml_field) <+:
        (pre ++ xml_open (xml_tag field xml_field) ++ esc v ++
          xml_close (xml_tag field xml_field) ++ rest).drop j) →
      (∀ b ∈ esc v, b ≠ 60) →
      e.unescape_html (esc v) = some v →
      parse_reply e (pre ++ xml_open (xml_tag field xml_field) ++ esc v ++
          xml_close (xml_tag field xml_field) ++ rest)
        (pre ++ xml_open (xml_tag field xml_field) ++ esc v ++
          xml_close (xml_tag field xml_field) ++ rest).length field xml_field = .ok v) := by
  constructor
  · intro hlen hform hfirst hrest hamp hinv
    have hx : ¬ body_is_xml (pre ++ form_key field ++ esc v ++ rest)
        (pre ++ form_key field ++ esc v ++ rest).length = true := by
      unfold body_is_xml
      rw [memmem_isSome_iff, List.take_length]
      exact hform
    have hdrop : (pre ++ form_key field ++ esc v ++ rest).drop
        (pre.length + (form_key field).length) = esc v ++ rest := by
      rw [List.append_assoc, ← List.length_append]
      exact List.drop_left' rfl
    unfold parse_reply
    rw [if_neg hx, parse_reply_form_found e _ _ field pre.length (by omega)
      (by rw [List.take_length, List.append_assoc, List.append_assoc, List.drop_left' rfl]
          exact List.prefix_append _ _)
      (by rw [List.take_length]; exact hfirst), hdrop,
      scan_form_stop (esc v) rest hnul hamp (by
        rcases hrest with h | h
        · exact Or.inl h
        · exact Or.inr (Or.inl (head_of_initial (lit "&") rest 38 (by decide) h)))]
    rw [parse_finish_value _ _ _ (esc v) rest hne hdrop, hinv]
  · intro hlen hxml hfirst hlt hinv
    have hx : body_is_xml (pre ++ xml_open (xml_tag field xml_field) ++ esc v ++
        xml_close (xml_tag field xml_field) ++ rest)
        (pre ++ xml_open (xml_tag field xml_field) ++ esc v ++
          xml_close (xml_tag field xml_field) ++ rest).length = true := by
      unfold body_is_xml
      rw [memmem_isSome_iff, List.take_length]
      exact hxml
    have hdrop : (pre ++ xml_open (xml_tag field xml_field) ++ esc v ++
        xml_close (xml_tag field xml_field) ++ rest).drop
        (pre.length + (xml_open (xml_tag field xml_field)).length) =
        esc v ++ (xml_close (xml_tag field xml_field) ++ rest) := by
      have hre : pre ++ xml_open (xml_tag field xml_field) ++ esc v ++
          xml_close (xml_tag field xml_field) ++ rest =
          (pre ++ xml_open (xml_tag field xml_field)) ++
            (esc v ++ (xml_close (xml_tag field xml_field) ++ rest)) := by
        simp only [List.append_assoc]
      rw [hre, ← List.length_append]
      exact List.drop_left' rfl
    unfold parse_reply
    rw [if_pos hx, parse_reply_xml_value e _ _ _ pre.length (esc v) rest hlen
      (by rw [List.take_length, List.append_assoc, List.append_assoc, List.append_assoc,
            List.drop_left' rfl]
          exact List.prefix_append _ _)
      (by rw [List.take_length]; exact hfirst) hdrop (no_close_inside _ _ _ hlt) hne hnul, hinv]

set_option maxRecDepth 100000 in
/-- C4 fails (1) for a field name of 61 bytes: in `<?xml?><name>v</name>` the value returned is
not `v`; (2) for an escaped text holding a NUL byte: in `<?xml?><u>a\0b</u>` the value returned
is `a`; (3) for an escape function with an empty output: in the body `f=` the parser fails. -/
theorem parse_reply_undoes_escaping_counterexample :
    (body_long_tag_value =
        lit "<?xml?>" ++ xml_open field61 ++ id (lit "v") ++ xml_close field61 ++ [] ∧
      lit "<?xml" <:+: body_long_tag_value ∧
      (∀ j < 7, ¬ xml_open field61 <+: body_long_tag_value.drop j) ∧
      (∀ b ∈ id (lit "v"), b ≠ 60) ∧
      unescape_html_ref (id (lit "v")) = some (lit "v") ∧
      parse_reply (env_ok (.error 0)) body_long_tag_value body_long_tag_value.length
        field61 none ≠ .ok (lit "v")) ∧
    (body_nul_example =
        lit "<?xml?>" ++ xml_open (lit "u") ++ id [97, 0, 98] ++ xml_close (lit "u") ++ [] ∧
      (∀ b ∈ id [97, 0, 98], b ≠ 60) ∧
      unescape_html_ref (id [97, 0, 98]) = some [97, 0, 98] ∧
      parse_reply (env_ok (.error 0)) body_nul_example body_nul_example.length
        (lit "u") none = .ok [97]) ∧
    (env_const_unescape.unescape_url ((fun _ => []) (lit "x")) = some (lit "x") ∧
      parse_reply env_const_unescape ([] ++ form_key (lit "f") ++ (fun _ => []) (lit "x") ++ [])
        2 (lit "f") none = .empty 2) := by
  decide

set_option maxRecDepth 100000 in
/-- C4, amended, at the form body `username=alice&password=se%21cret` (field `password`, value
`se!cret`) and the XML body of S6 (tag `password`, value `s&p`). -/
theorem parse_reply_undoes_escaping_witness :
    parse_reply (env_ok (.error 0)) body_form_example body_form_example.length
      (lit "password") none = .ok (lit "se!cret") ∧
    parse_reply (env_ok (.error 0)) body_xml_example body_xml_example.length
      (lit "password") none = .ok (lit "s&p") :=
  ⟨(parse_reply_undoes_escaping (env_ok (.error 0)) (fun _ => lit "se%21cret")
      (lit "password") none (lit "se!cret") (lit "username=alice&") []
      (by decide) (by decide)).1 (by decide) (by decide) (by decide) (by decide) (by decide)
      (by decide),
   (parse_reply_undoes_escaping (env_ok (.error 0)) (fun _ => lit "s&amp;p")
      (lit "password") none (lit "s&p")
      (lit "<?xml version=\"1.0\"?><config-auth><username>bob</username>")
      (lit "</config-auth>") (by decide) (by decide)).2 (by decide) (by decide) (by decide)
      (by decide) (by decide)⟩

/-! ## C8: the value of a tag in XML mode -/

/-- C8, amended: for a body containing `<?xml`, `parse_reply` called with a non-null
`xml_field` searches the tag `xml_field` instead of `field`; and for a tag name of at most 60
bytes (`xml_field` if given, else `field`), when the first `<name>` is followed by non-empty
bytes `v` without a NUL and then by the next `</name>`, the result is `unescape_html v` (a
failure when `unescape_html` fails). -/
theorem parse_reply_xml_between (e : Env) (body : List Byte) (body_length : Nat)
    (field : List Byte) (xml_field : Option (List Byte)) (off : Nat) (v rest : List Byte)
    (hx : lit "<?xml" <:+: body.take body_length) :
    (∀ x, xml_field = some x →
      parse_reply e body body_length field xml_field = parse_reply_xml e body body_length x) ∧
    ((cstr (xml_tag field xml_field)).length ≤ 60 →
      xml_open (xml_tag field xml_field) <+: (body.take body_length).drop off →
      (∀ j < off, ¬ xml_open (xml_tag field xml_field) <+: (body.take body_length).drop j) →
      body.drop (off + (xml_open (xml_tag field xml_field)).length) =
        v ++ (xml_close (xml_tag field xml_field) ++ rest) →
      (∀ j < v.length, ¬ xml_close (xml_tag field xml_field) <+:
        (v ++ (xml_close (xml_tag field xml_field) ++ rest)).drop j) →
      v ≠ [] → (∀ b ∈ v, b ≠ 0) →
      parse_reply e body body_length field xml_field =
        (match e.unescape_html v with
         | none => .unescape_failed
         | some u => .ok u)) := by
  have hxml : body_is_xml body body_length = true := by
    unfold body_is_xml
    exact (memmem_isSome_iff _ _).2 hx
  constructor
  · intro x hxf
    unfold parse_reply
    rw [if_pos hxml, hxf]
    rfl
  · intro hlen hocc hfirst hval hnext hne hnul
    unfold parse_reply
    rw [if_pos hxml]
    exact parse_reply_xml_value e body body_length _ off v rest hlen hocc hfirst hval hnext
      hne hnul

set_option maxRecDepth 100000 in
/-- C8 fails (1) for a tag name of 61 bytes: in `<?xml?><name>v</name>` the bytes between the
tags are `v`, the value returned is longer; (2) when a NUL lies between the tags: in
`<?xml?><u>a\0b</u>` the value returned is `a`, not the unescaped `a\0b`; (3) when nothing lies
between the tags: in `<?xml?><name></name>` the result is a failure, not the unescaped empty
string. -/
theorem parse_reply_xml_between_counterexample :
    (body_long_tag_value.drop (7 + (xml_open field61).length) =
        lit "v" ++ (xml_close field61 ++ []) ∧
      unescape_html_ref (lit "v") = some (lit "v") ∧
      parse_reply (env_ok (.error 0)) body_long_tag_value body_long_tag_value.length
        (lit "password") (some field61) ≠ .ok (lit "v")) ∧
    (body_nul_example.drop (7 + (xml_open (lit "u")).length) =
        [97, 0, 98] ++ (xml_close (lit "u") ++ []) ∧
      unescape_html_ref [97, 0, 98] = some [97, 0, 98] ∧
      parse_reply (env_ok (.error 0)) body_nul_example body_nul_example.length
        (lit "password") (some (lit "u")) = .ok [97]) ∧
    ((lit "<?xml?><u></u>").drop (7 + (xml_open (lit "u")).length) =
        [] ++ (xml_close (lit "u") ++ []) ∧
      unescape_html_ref [] = some [] ∧
      (parse_reply (env_ok (.error 0)) (lit "<?xml?><u></u>") 14
        (lit "password") (some (lit "u"))).ret = -1) := by
  decide

set_option maxRecDepth 100000 in
/-- C8, amended, at the body of S6: the tag `username` yields `bob`, the tag `password` yields
`s&p`, and a call with `xml_field = group-select` searches that tag. -/
theorem parse_reply_xml_between_witness :
    parse_reply (env_ok (.error 0)) body_xml_example body_xml_example.length
      (lit "username") none = .ok (lit "bob") ∧
    parse_reply (env_ok (.error 0)) body_xml_example body_xml_example.length
      (lit "user") (some (lit "password")) = .ok (lit "s&p") ∧
    parse_reply (env_ok (.error 0)) body_xml_example body_xml_example.length
      GROUPNAME_FIELD (some GROUPNAME_FIELD_XML) =
        parse_reply_xml (env_ok (.error 0)) body_xml_example body_xml_example.length
          GROUPNAME_FIELD_XML :=
  ⟨(parse_reply_xml_between (env_ok (.error 0)) body_xml_example body_xml_example.length
      (lit "username") none 34 (lit "bob")
      (lit "<password>s&amp;p</password></config-auth>") (by decide)).2
      (by decide) (by decide) (by decide) (by decide) (by decide) (by decide) (by decide),
   (parse_reply_xml_between (env_ok (.error 0)) body_xml_example body_xml_example.length
      (lit "user") (some (lit "password")) 58 (lit "s&amp;p") (lit "</config-auth>")
      (by decide)).2
      (by decide) (by decide) (by decide) (by decide) (by decide) (by decide) (by decide),
   (parse_reply_xml_between (env_ok (.error 0)) body_xml_example body_xml_example.length
      GROUPNAME_FIELD (some GROUPNAME_FIELD_XML) 0 [] [] (by decide)).1 _ rfl⟩

/-! ## C5: how the body shape is detected -/

/-- The value of the form branch when the first `field=` is followed by the non-empty bytes
`v`, free of NUL and `&`, and then by `&`, a NUL or the end of the body. -/
theorem parse_reply_form_stretch (e : Env) (body : List Byte) (n : Nat) (field : List Byte)
    (off : Nat) (v rest : List Byte) (hlen : (cstr field).length ≤ 62)
    (hocc : form_key field <+: (body.take n).drop off)
    (hfirst : ∀ j < off, ¬ form_key field <+: (body.take n).drop j)
    (hval : body.drop (off + (form_key field).length) = v ++ rest)
    (hrest : rest = [] ∨ rest.head? = some 38 ∨ rest.head? = some 0)
    (hne : v ≠ []) (hv : ∀ b ∈ v, b ≠ 0 ∧ b ≠ 38) :
    parse_reply_form e body n field =
      (match e.unescape_url v with
       | none => .unescape_failed
       | some u => .ok u) := by
  rw [parse_reply_form_found e body n field off hlen hocc hfirst, hval,
    scan_form_stop v rest (fun b hb => (hv b hb).1) (fun b hb => (hv b hb).2) hrest]
  exact parse_finish_value _ _ _ v _ hne hval

/-- C5: for every body and every field `parse_reply` is called with (or any other name that
fits the 64-byte temporaries), `parse_reply` searches with the XML delimiters exactly when the
five bytes `<?xml` occur, at any offset, within the first `body_length` bytes of the body.
When they occur, it fails if the tag `<name>` is absent (whether or not `field=` is present),
and if the first `<name>` is followed by the non-empty, NUL-free bytes `v` and the next
`</name>` it returns `unescape_html v`. When they do not occur, it fails if `field=` is absent
(whether or not a tag `<field>` is present), and if the first `field=` is followed by the
non-empty bytes `v`, free of NUL and `&`, and then by `&`, a NUL or the end of the body, it
returns `unescape_url v`. -/
theorem parse_reply_detects_xml (e : Env) (body : List Byte) (body_length : Nat)
    (field : List Byte) (xml_field : Option (List Byte))
    (hfield : (field, xml_field) ∈ parse_reply_calls ∨
      ((cstr field).length ≤ 62 ∧ (cstr (xml_tag field xml_field)).length ≤ 60)) :
    (body_is_xml body body_length = true ↔ lit "<?xml" <:+: body.take body_length) ∧
    (lit "<?xml" <:+: body.take body_length →
      (¬ xml_open (xml_tag field xml_field) <:+: body.take body_length →
        parse_reply e body body_length field xml_field = .not_found) ∧
      (∀ off v rest,
        xml_open (xml_tag field xml_field) <+: (body.take body_length).drop off →
        (∀ j < off, ¬ xml_open (xml_tag field xml_field) <+: (body.take body_length).drop j) →
        body.drop (off + (xml_open (xml_tag field xml_field)).length) =
          v ++ (xml_close (xml_tag field xml_field) ++ rest) →
        (∀ j < v.length, ¬ xml_close (xml_tag field xml_field) <+:
          (v ++ (xml_close (xml_tag field xml_field) ++ rest)).drop j) →
        v ≠ [] → (∀ b ∈ v, b ≠ 0) →
        parse_reply e body body_length field xml_field =
          (match e.unescape_html v with
           | none => .unescape_failed
           | some u => .ok u))) ∧
    (¬ lit "<?xml" <:+: body.take body_length →
      (¬ form_key field <:+: body.take body_length →
        parse_reply e body body_length field xml_field = .not_found) ∧
      (∀ off v rest,
        form_key field <+: (body.take body_length).drop off →
        (∀ j < off, ¬ form_key field <+: (body.take body_length).drop j) →
        body.drop (off + (form_key field).length) = v ++ rest →
        (rest = [] ∨ rest.head? = some 38 ∨ rest.head? = some 0) →
        v ≠ [] → (∀ b ∈ v, b ≠ 0 ∧ b ≠ 38) →
        parse_reply e body body_length field xml_field =
          (match e.unescape_url v with
           | none => .unescape_failed
           | some u => .ok u))) := by
  have hfit : (cstr field).length ≤ 62 ∧ (cstr (xml_tag field xml_field)).length ≤ 60 := by
    rcases hfield with h | h
    · exact parse_reply_calls_fit field xml_field h
    · exact h
  obtain ⟨hlenf, hlen⟩ := hfit
  have hx : body_is_xml body body_length = true ↔ lit "<?xml" <:+: body.take body_length := by
    unfold body_is_xml
    exact memmem_isSome_iff _ _
  refine ⟨hx, fun hxml => ⟨fun hmiss => ?_, fun off v rest hocc hfirst hval hnext hne hnul => ?_⟩,
    fun hform => ⟨fun hmiss => ?_, fun off v rest hocc hfirst hval hrest hne hv => ?_⟩⟩
  · unfold parse_reply
    rw [if_pos (hx.2 hxml), parse_reply_xml_missing e body body_length _ hlen hmiss]
  · unfold parse_reply
    rw [if_pos (hx.2 hxml)]
    exact parse_reply_xml_value e body body_length _ off v rest hlen hocc hfirst hval hnext
      hne hnul
  · unfold parse_reply
    rw [if_neg (fun h => hform (hx.1 h)),
      parse_reply_form_missing e body body_length _ hlenf hmiss]
  · unfold parse_reply
    rw [if_neg (fun h => hform (hx.1 h))]
    exact parse_reply_form_stretch e body body_length field off v rest hlenf hocc hfirst hval
      hrest hne hv

set_option maxRecDepth 100000 in
/-- C5 at four bodies. The XML body of S6 searched for `password`: the value between the tags,
HTML-unescaped, `s&p`. The body `username=bob&x=<?xml` searched for `username`: `<?xml` occurs
(at offset 15), no tag `<username>` does, and the text `username=bob` is not read. The form
body `username=bob&password=s%26p` searched for `password`: the value up to the end,
URL-unescaped, `s&p`. The body `<username>bob</username>` without `<?xml`, searched for
`username`: no `username=` occurs, and the tags are not read. -/
theorem parse_reply_detects_xml_witness :
    parse_reply (env_ok (.error 0)) body_xml_example body_xml_example.length
      (lit "password") none = .ok (lit "s&p") ∧
    parse_reply (env_ok (.error 0)) (lit "username=bob&x=<?xml") 20
      (lit "username") none = .not_found ∧
    parse_reply (env_ok (.error 0)) (lit "username=bob&password=s%26p") 27
      (lit "password") none = .ok (lit "s&p") ∧
    parse_reply (env_ok (.error 0)) (lit "<username>bob</username>") 24
      (lit "username") none = .not_found :=
  ⟨(((parse_reply_detects_xml (env_ok (.error 0)) body_xml_example body_xml_example.length
      (lit "password") none (Or.inl (by decide))).2.1 (by decide)).2 58 (lit "s&amp;p")
      (lit "</config-auth>") (by decide) (by decide) (by decide) (by decide) (by decide)
      (by decide)).trans (by decide),
   ((parse_reply_detects_xml (env_ok (.error 0)) (lit "username=bob&x=<?xml") 20
      (lit "username") none (Or.inl (by decide))).2.1 (by decide)).1 (by decide),
   (((parse_reply_detects_xml (env_ok (.error 0)) (lit "username=bob&password=s%26p") 27
      (lit "password") none (Or.inl (by decide))).2.2 (by decide)).2 13 (lit "s%26p") []
      (by decide) (by decide) (by decide) (by decide) (by decide) (by decide)).trans
      (by decide),
   ((parse_reply_detects_xml (env_ok (.error 0)) (lit "<username>bob</username>") 24
      (lit "username") none (Or.inl (by decide))).2.2 (by decide)).1 (by decide)⟩

/-! ## C7: the order of the fields of a form body -/

theorem prefix_append_sep (needle a b : List Byte) (sep : Byte) (hsep : sep ∉ needle)
    (h : needle <+: a ++ sep :: b) : needle <+: a := by
  obtain ⟨t, ht⟩ := h
  rcases List.append_eq_append_iff.1 ht with ⟨a1, ha, _⟩ | ⟨c, hc, hb⟩
  · exact ⟨a1, ha.symm⟩
  · cases c with
    | nil =>
      rw [List.append_nil] at hc
      rw [hc]
    | cons y ys =>
      exfalso
      rw [List.cons_append] at hb
      have hy : sep = y := (List.cons.inj hb).1
      apply hsep
      rw [hc, hy]
      exact List.mem_append_right _ (List.mem_cons_self y ys)

theorem memmem_append_sep (needle a b : List Byte) (sep : Byte) (hne : needle ≠ [])
    (hsep : sep ∉ needle) (hno : ¬ needle <:+: a) :
    memmem (a ++ sep :: b) needle = (memmem b needle).map (· + (a.length + 1)) := by
  induction a with
  | nil =>
    rw [List.nil_append, memmem]
    have h0 : ¬ needle.isPrefixOf (sep :: b) = true := by
      intro hp
      have := prefix_append_sep needle [] b sep hsep (List.isPrefixOf_iff_prefix.1 hp)
      exact hne (List.prefix_nil.1 this)
    rw [if_neg h0]
    rfl
  | cons x xs ih =>
    rw [List.cons_append, memmem]
    have h0 : ¬ needle.isPrefixOf (x :: (xs ++ sep :: b)) = true := by
      intro hp
      have := prefix_append_sep needle (x :: xs) b sep hsep (List.isPrefixOf_iff_prefix.1 hp)
      exact hno this.isInfix
    rw [if_neg h0, ih (fun h => hno (List.infix_cons h))]
    cases memmem b needle with
    | none => rfl
    | some o =>
      simp only [Option.map_some', List.length_cons, Option.some.injEq]
      omega

theorem memmem_at_start (needle rest : List Byte) :
    memmem (needle ++ rest) needle = some 0 := by
  cases h : needle ++ rest with
  | nil =>
    have : needle = [] := (List.append_eq_nil.1 h).1
    rw [memmem, if_pos this]
  | cons x xs =>
    rw [memmem, if_pos]
    rw [List.isPrefixOf_iff_prefix, ← h]
    exact List.prefix_append _ _

theorem memmem_none_of_not_infix (hay needle : List Byte) (h : ¬ needle <:+: hay) :
    memmem hay needle = none := (memmem_eq_none_iff hay needle).2 h

theorem parse_finish_value_eq (e : Env) (body : List Byte) (start : Nat) :
    (parse_finish e.unescape_url body start (scan_form (body.drop start))).value =
      form_value_at e (body.drop start) := by
  unfold parse_finish form_value_at
  split
  · rfl
  · split
    · rename_i h
      rw [h]
      rfl
    · rename_i h
      rw [h]
      rfl

/-- The value of the form branch in terms of the first occurrence of `field=`. -/
theorem parse_reply_form_value (e : Env) (body : List Byte) (field : List Byte)
    (hlen : (cstr field).length ≤ 62) :
    (parse_reply_form e body body.length field).value =
      (match memmem body (form_key field) with
       | none => none
       | some off => form_value_at e (body.drop (off + (form_key field).length))) := by
  unfold parse_reply_form
  dsimp only
  have hfit1 := temp_bytes_fit (cstr field ++ lit "=")
    (by have := form_key_length field; unfold form_key at this; omega)
  rw [hfit1.1, List.take_length]
  unfold form_key
  cases memmem body (cstr field ++ lit "=") with
  | none => rfl
  | some off => exact parse_finish_value_eq e body _

theorem form_body_cons (p : List Byte × List Byte) (ps : List (List Byte × List Byte)) :
    form_body (p :: ps) = pair_text p ∧ ps = [] ∨
    form_body (p :: ps) = pair_text p ++ 38 :: form_body ps ∧ ps ≠ [] := by
  cases ps with
  | nil => exact Or.inl ⟨rfl, rfl⟩
  | cons q qs =>
    right
    refine ⟨?_, by simp⟩
    show pair_text p ++ lit "&" ++ form_body (q :: qs) = _
    rw [List.append_assoc]
    rfl

theorem form_key_ne_nil (field : List Byte) : form_key field ≠ [] := by
  intro h0
  have := form_key_length field
  rw [h0] at this
  simp at this

theorem form_key_no_amp (field : List Byte) (h : ∀ b ∈ cstr field, b ≠ 38) :
    (38 : Byte) ∉ form_key field := by
  intro hm
  unfold form_key at hm
  rcases List.mem_append.1 hm with h1 | h1
  · exact h 38 h1 rfl
  · have : ∀ c ∈ lit "=", c ≠ 38 := by decide
    exact this 38 h1 rfl

theorem pair_text_no_xml (p : List Byte × List Byte) (h1 : url_encoded p.1)
    (h2 : url_encoded p.2) : ¬ lit "<?xml" <:+: pair_text p := by
  intro h
  have hmem : (60 : Byte) ∈ pair_text p := by
    have : (60 : Byte) ∈ lit "<?xml" := by decide
    exact h.subset this
  unfold pair_text at hmem
  rcases List.mem_append.1 hmem with h3 | h3
  · rcases List.mem_append.1 h3 with h4 | h4
    · exact (h1 60 h4).2.2 rfl
    · have : ∀ c ∈ lit "=", c ≠ 60 := by decide
      exact this 60 h4 rfl
  · exact (h2 60 h3).2.2 rfl

theorem form_body_no_xml (pairs : List (List Byte × List Byte))
    (henc : ∀ p ∈ pairs, url_encoded p.1 ∧ url_encoded p.2) :
    memmem (form_body pairs) (lit "<?xml") = none := by
  induction pairs with
  | nil => rfl
  | cons p ps ih =>
    have hp := henc p (List.mem_cons_self p ps)
    have hno := pair_text_no_xml p hp.1 hp.2
    rcases form_body_cons p ps with ⟨h, _⟩ | ⟨h, _⟩
    · rw [h]
      exact memmem_none_of_not_infix _ _ hno
    · rw [h, memmem_append_sep _ _ _ 38 (by decide) (by decide) hno,
        ih (fun q hq => henc q (List.mem_cons_of_mem p hq))]
      rfl

theorem form_value_at_pair (e : Env) (v tail : List Byte) (hv : url_encoded v)
    (htail : tail = [] ∨ tail.head? = some 38) :
    form_value_at e (v ++ tail) = if v = [] then none else e.unescape_url v := by
  have hscan : scan_form (v ++ tail) = v.length :=
    scan_form_stop v tail (fun b hb => (hv b hb).1) (fun b hb => (hv b hb).2.1)
      (by rcases htail with h | h
          · exact Or.inl h
          · exact Or.inr (Or.inl h))
  unfold form_value_at
  rw [hscan]
  by_cases h : v = []
  · rw [if_pos h, if_pos (by rw [h]; rfl)]
  · rw [if_neg h, if_neg (by simpa using h), List.take_left' rfl]

/-- The value read from a form body: the value of the pair whose key is the field. -/
theorem form_body_value (e : Env) (field : List Byte)
    (pairs : List (List Byte × List Byte))
    (hf : ∀ b ∈ cstr field, b ≠ 38)
    (henc : ∀ p ∈ pairs, url_encoded p.1 ∧ url_encoded p.2)
    (hkeys : (pairs.map Prod.fst).Nodup)
    (hocc : ∀ p ∈ pairs, p.1 ≠ cstr field → ¬ form_key field <:+: pair_text p) :
    (∀ p ∈ pairs, p.1 = cstr field →
      (match memmem (form_body pairs) (form_key field) with
       | none => none
       | some off => form_value_at e ((form_body pairs).drop (off + (form_key field).length))) =
        if p.2 = [] then none else e.unescape_url p.2) ∧
    ((∀ p ∈ pairs, p.1 ≠ cstr field) →
      (match memmem (form_body pairs) (form_key field) with
       | none => none
       | some off => form_value_at e ((form_body pairs).drop (off + (form_key field).length))) =
        none) := by
  induction pairs with
  | nil =>
    refine ⟨fun p hp => (by cases hp), fun _ => ?_⟩
    have : memmem (form_body []) (form_key field) = none := by
      show memmem [] (form_key field) = none
      rw [memmem, if_neg (form_key_ne_nil field)]
    rw [this]
  | cons q qs ih =>
    have hq := henc q (List.mem_cons_self q qs)
    have hnodup : q.1 ∉ qs.map Prod.fst ∧ (qs.map Prod.fst).Nodup := by
      rw [List.map_cons] at hkeys
      exact List.nodup_cons.1 hkeys
    have ih' := ih (fun p hp => henc p (List.mem_cons_of_mem q hp)) hnodup.2
      (fun p hp => hocc p (List.mem_cons_of_mem q hp))
    by_cases hk : q.1 = cstr field
    · have htext : pair_text q = form_key field ++ q.2 := by
        unfold pair_text form_key
        rw [hk]
      have hbody : ∃ tail, form_body (q :: qs) = form_key field ++ (q.2 ++ tail) ∧
          (tail = [] ∨ tail.head? = some 38) := by
        rcases form_body_cons q qs with ⟨h, _⟩ | ⟨h, _⟩
        · exact ⟨[], by rw [h, htext, List.append_nil], Or.inl rfl⟩
        · exact ⟨38 :: form_body qs, by rw [h, htext, List.append_assoc], Or.inr rfl⟩
      obtain ⟨tail, hb, htail⟩ := hbody
      have hval : (match memmem (form_body (q :: qs)) (form_key field) with
          | none => none
          | some off =>
            form_value_at e ((form_body (q :: qs)).drop (off + (form_key field).length))) =
          if q.2 = [] then none else e.unescape_url q.2 := by
        rw [hb, memmem_at_start]
        dsimp only
        rw [Nat.zero_add, List.drop_left' rfl]
        exact form_value_at_pair e q.2 tail hq.2 htail
      refine ⟨fun p hp hpk => ?_, fun hall => absurd hk (hall q (List.mem_cons_self q qs))⟩
      rcases List.mem_cons.1 hp with h | h
      · rw [h]
        exact hval
      · exfalso
        apply hnodup.1
        have hm : p.1 ∈ qs.map Prod.fst := List.mem_map_of_mem Prod.fst h
        rw [hpk, ← hk] at hm
        exact hm
    · have hno := hocc q (List.mem_cons_self q qs) hk
      rcases form_body_cons q qs with ⟨h, hqs⟩ | ⟨h, _⟩
      · have hnone : (match memmem (form_body (q :: qs)) (form_key field) with
            | none => none
            | some off =>
              form_value_at e ((form_body (q :: qs)).drop (off + (form_key field).length))) =
            none := by
          rw [h, memmem_none_of_not_infix _ _ hno]
        refine ⟨fun p hp hpk => ?_, fun _ => hnone⟩
        rw [hqs] at hp
        rcases List.mem_cons.1 hp with h1 | h1
        · rw [h1] at hpk
          exact absurd hpk hk
        · cases h1
      · have hshift : (match memmem (form_body (q :: qs)) (form_key field) with
            | none => none
            | some off =>
              form_value_at e ((form_body (q :: qs)).drop (off + (form_key field).length))) =
            (match memmem (form_body qs) (form_key field) with
             | none => none
             | some off =>
               form_value_at e ((form_body qs).drop (off + (form_key field).length))) := by
          rw [h, memmem_append_sep _ _ _ 38 (form_key_ne_nil field) (form_key_no_amp field hf) hno]
          cases memmem (form_body qs) (form_key field) with
          | none => rfl
          | some off =>
            dsimp only [Option.map_some']
            have hd : off + ((pair_text q).length + 1) + (form_key field).length =
                (pair_text q ++ [38]).length + (off + (form_key field).length) := by
              simp only [List.length_append, List.length_singleton]
              omega
            have hc : pair_text q ++ 38 :: form_body qs =
                (pair_text q ++ [38]) ++ form_body qs := by
              simp only [List.append_assoc, List.singleton_append]
            rw [hd, hc, List.drop_append]
        rw [hshift]
        refine ⟨fun p hp hpk => ?_, fun hall => ?_⟩
        · rcases List.mem_cons.1 hp with h1 | h1
          · rw [h1] at hpk
            exact absurd hpk hk
          · exact ih'.1 p h1 hpk
        · exact ih'.2 (fun p hp => hall p (List.mem_cons_of_mem q hp))

theorem parse_reply_form_body (e : Env) (field : List Byte) (xml_field : Option (List Byte))
    (pairs : List (List Byte × List Byte)) (hlen : (cstr field).length ≤ 62)
    (henc : ∀ p ∈ pairs, url_encoded p.1 ∧ url_encoded p.2) :
    (parse_reply e (form_body pairs) (form_body pairs).length field xml_field).value =
      (match memmem (form_body pairs) (form_key field) with
       | none => none
       | some off => form_value_at e ((form_body pairs).drop (off + (form_key field).length))) := by
  have hx : ¬ body_is_xml (form_body pairs) (form_body pairs).length = true := by
    unfold body_is_xml
    rw [List.take_length, form_body_no_xml pairs henc]
    decide
  unfold parse_reply
  rw [if_neg hx]
  exact parse_reply_form_value e (form_body pairs) field hlen

/-- C7, amended: for a form body built from `key=value` pairs of URL-encoded tokens (no NUL, no
raw `&`, no raw `<`) joined by `&`, with pairwise distinct keys, and a field name of at most 62
bytes that holds no raw `&`, such that no pair with another key contains the text `field=`: the
value `parse_reply` returns is the same for every permutation of the pairs; it is the unescaped
value of the pair whose key is the field, and a failure when that value is empty or there is no
such pair. The names `parse_reply` is called with (`username`, `password`, `group%5flist`) meet
both conditions on the field. -/
theorem parse_reply_form_order (e : Env) (field : List Byte) (xml_field : Option (List Byte))
    (pairs pairs1 : List (List Byte × List Byte)) (hperm : pairs1.Perm pairs)
    (hkeys : (pairs.map Prod.fst).Nodup) (hlen : (cstr field).length ≤ 62)
    (hf : ∀ b ∈ cstr field, b ≠ 38)
    (henc : ∀ p ∈ pairs, url_encoded p.1 ∧ url_encoded p.2)
    (hocc : ∀ p ∈ pairs, p.1 ≠ cstr field → ¬ form_key field <:+: pair_text p) :
    (parse_reply e (form_body pairs1) (form_body pairs1).length field xml_field).value =
      (parse_reply e (form_body pairs) (form_body pairs).length field xml_field).value ∧
    (∀ p ∈ pairs, p.1 = cstr field →
      (parse_reply e (form_body pairs) (form_body pairs).length field xml_field).value =
        if p.2 = [] then none else e.unescape_url p.2) ∧
    ((∀ p ∈ pairs, p.1 ≠ cstr field) →
      (parse_reply e (form_body pairs) (form_body pairs).length field xml_field).value =
        none) := by
  have henc1 : ∀ p ∈ pairs1, url_encoded p.1 ∧ url_encoded p.2 :=
    fun p hp => henc p (hperm.mem_iff.1 hp)
  have hocc1 : ∀ p ∈ pairs1, p.1 ≠ cstr field → ¬ form_key field <:+: pair_text p :=
    fun p hp => hocc p (hperm.mem_iff.1 hp)
  have hkeys1 : (pairs1.map Prod.fst).Nodup := (hperm.map Prod.fst).nodup_iff.2 hkeys
  have h := form_body_value e field pairs hf henc hkeys hocc
  have h1 := form_body_value e field pairs1 hf henc1 hkeys1 hocc1
  rw [parse_reply_form_body e field xml_field pairs hlen henc,
    parse_reply_form_body e field xml_field pairs1 hlen henc1]
  refine ⟨?_, h.1, h.2⟩
  by_cases hex : ∃ p ∈ pairs, p.1 = cstr field
  · obtain ⟨p, hp, hpk⟩ := hex
    rw [h.1 p hp hpk, h1.1 p (hperm.mem_iff.2 hp) hpk]
  · have hall : ∀ p ∈ pairs, p.1 ≠ cstr field := fun p hp hpk => hex ⟨p, hp, hpk⟩
    rw [h.2 hall, h1.2 (fun p hp => hall p (hperm.mem_iff.1 hp))]

set_option maxRecDepth 100000 in
/-- C7 fails for the distinct keys `xusername` and `username`: the field `username` yields `a`
for the body `xusername=a&username=b` and `b` for `username=b&xusername=a`. The two conditions
on the field name are needed as well: a 63-byte key is present in its pair but the parser
fails, a 62-byte key is found; and for the field `a&b`, which is no key and occurs in no pair,
the pairs `x=a`, `b=c` yield `c` in this order and a failure in the other. -/
theorem parse_reply_form_order_counterexample :
    (pairs_suffix_example.reverse.Perm pairs_suffix_example ∧
      (pairs_suffix_example.map Prod.fst).Nodup ∧
      (∀ p ∈ pairs_suffix_example, url_encoded p.1 ∧ url_encoded p.2) ∧
      (parse_reply (env_ok (.error 0)) (form_body pairs_suffix_example)
        (form_body pairs_suffix_example).length (lit "username") none).value = some (lit "a") ∧
      (parse_reply (env_ok (.error 0)) (form_body pairs_suffix_example.reverse)
        (form_body pairs_suffix_example.reverse).length (lit "username") none).value =
          some (lit "b")) ∧
    (unescape_url_ref (lit "v") = some (lit "v") ∧
      (parse_reply (env_ok (.error 0)) (form_body [(field63, lit "v")])
        (form_body [(field63, lit "v")]).length field63 none).value = none ∧
      (parse_reply (env_ok (.error 0)) (form_body [(field62, lit "v")])
        (form_body [(field62, lit "v")]).length field62 none).value = some (lit "v")) ∧
    (pairs_amp_example.reverse.Perm pairs_amp_example ∧
      (pairs_amp_example.map Prod.fst).Nodup ∧
      (∀ p ∈ pairs_amp_example, url_encoded p.1 ∧ url_encoded p.2) ∧
      (∀ p ∈ pairs_amp_example, p.1 ≠ cstr (lit "a&b") ∧
        ¬ form_key (lit "a&b") <:+: pair_text p) ∧
      (parse_reply (env_ok (.error 0)) (form_body pairs_amp_example)
        (form_body pairs_amp_example).length (lit "a&b") none).value = some (lit "c") ∧
      (parse_reply (env_ok (.error 0)) (form_body pairs_amp_example.reverse)
        (form_body pairs_amp_example.reverse).length (lit "a&b") none).value = none) := by
  refine ⟨⟨List.reverse_perm _, by decide, by decide, by decide, by decide⟩,
    ⟨by decide, by decide, by decide⟩,
    ⟨List.reverse_perm _, by decide, by decide, by decide, by decide, by decide⟩⟩

set_option maxRecDepth 100000 in
/-- C7, amended, at the pairs `username=alice`, `password=se%21cret` and their swap: the field
`password` yields `se!cret` in both orders. -/
theorem parse_reply_form_order_witness :
    (parse_reply (env_ok (.error 0)) (form_body pairs_example.reverse)
        (form_body pairs_example.reverse).length (lit "password") none).value =
      (parse_reply (env_ok (.error 0)) (form_body pairs_example)
        (form_body pairs_example).length (lit "password") none).value ∧
    (parse_reply (env_ok (.error 0)) (form_body pairs_example)
        (form_body pairs_example).length (lit "password") none).value = some (lit "se!cret") :=
  ⟨(parse_reply_form_order (env_ok (.error 0)) (lit "password") none pairs_example
      pairs_example.reverse (List.reverse_perm _) (by decide) (by decide) (by decide)
      (by decide) (by decide)).1,
   by decide⟩

/-! ## The option elements and their values -/

theorem until_byte_stop (b : Byte) (v rest : List Byte) (hv : ∀ c ∈ v, c ≠ b) :
    until_byte b (v ++ b :: rest) = v := by
  induction v with
  | nil =>
    rw [List.nil_append, until_byte, if_pos rfl]
  | cons c cs ih =>
    rw [List.cons_append, until_byte, if_neg (hv c (List.mem_cons_self c cs)),
      ih (fun x hx => hv x (List.mem_cons_of_mem c hx))]

theorem option_open_valued : lit "<option value=\"" = 60 :: 111 :: lit "ption value=\"" := by
  decide

theorem option_open_bare : lit "<option>" = 60 :: 111 :: lit "ption>" := by
  decide

theorem option_values_skip (t X : List Byte) (h : no_option_start t = true) :
    option_values (t ++ X) = option_values X := by
  induction t with
  | nil => rfl
  | cons b t ih =>
    cases t with
    | nil =>
      have hb : b ≠ 60 := by
        unfold no_option_start at h
        simpa using h
      cases X with
      | nil =>
        show option_values [b] = option_values []
        unfold option_values
        rw [option_open_valued, option_open_bare]
        simp [List.isPrefixOf, Ne.symm hb]
        rfl
      | cons x xs =>
        show option_values (b :: x :: xs) = option_values (x :: xs)
        rw [option_values, option_open_valued, option_open_bare]
        simp [List.isPrefixOf, Ne.symm hb]
    | cons c rest =>
      have h1 : ¬ (b = 60 ∧ c = 111) ∧ no_option_start (c :: rest) = true := by
        unfold no_option_start at h
        simp only [Bool.and_eq_true, Bool.not_eq_true', Bool.and_eq_false_iff, beq_eq_false_iff_ne,
          ne_eq] at h
        exact ⟨fun hh => h.1.elim (fun h2 => h2 hh.1) (fun h2 => h2 hh.2), h.2⟩
      have ih1 := ih h1.2
      show option_values (b :: (c :: rest ++ X)) = option_values X
      rw [option_values, option_open_valued, option_open_bare, ih1]
      have hne : ¬ (60 = b ∧ 111 = c) := fun hh => h1.1 ⟨hh.1.symm, hh.2.symm⟩
      by_cases hb : 60 = b
      · have hc : ¬ 111 = c := fun hh => hne ⟨hb, hh⟩
        simp [List.isPrefixOf, hb, hc]
      · simp [List.isPrefixOf, hb]

theorem no_option_start_of_no_lt (t : List Byte) (h : ∀ b ∈ t, b ≠ 60) :
    no_option_start t = true := by
  induction t with
  | nil => rfl
  | cons b t ih =>
    have hb := h b (List.mem_cons_self b t)
    cases t with
    | nil =>
      unfold no_option_start
      simpa using hb
    | cons c rest =>
      unfold no_option_start
      have := ih (fun x hx => h x (List.mem_cons_of_mem b hx))
      simp [hb, this]

theorem option_values_valued_head (R : List Byte) :
    option_values (lit "<option value=\"" ++ R) =
      until_byte 34 R :: option_values (lit "option value=\"" ++ R) := by
  have h1 : lit "<option value=\"" ++ R = 60 :: (lit "option value=\"" ++ R) := by
    rw [show lit "<option value=\"" = 60 :: lit "option value=\"" from by decide]
    rfl
  rw [h1, option_values, ← h1,
    if_pos (List.isPrefixOf_iff_prefix.2 (List.prefix_append _ _)),
    List.drop_left' (by decide)]

theorem option_values_bare_head (R : List Byte) :
    option_values (lit "<option>" ++ R) =
      until_byte 60 R :: option_values (lit "option>" ++ R) := by
  have h1 : lit "<option>" ++ R = 60 :: (lit "option>" ++ R) := by
    rw [show lit "<option>" = 60 :: lit "option>" from by decide]
    rfl
  have h2 : (lit "<option value=\"").isPrefixOf (lit "<option>" ++ R) = false := by
    rw [show lit "<option>" = [60, 111, 112, 116, 105, 111, 110, 62] from by decide,
      show lit "<option value=\"" =
        [60, 111, 112, 116, 105, 111, 110, 32, 118, 97, 108, 117, 101, 61, 34] from by decide]
    simp [List.isPrefixOf]
  rw [h1, option_values, ← h1, h2, if_neg (by decide),
    if_pos (List.isPrefixOf_iff_prefix.2 (List.prefix_append _ _)),
    List.drop_left' (by decide)]

theorem render_no_nul (o : OptionElem) : ∀ b ∈ o.render, b ≠ 0 := by
  intro b hb
  cases o with
  | valued v n =>
    unfold OptionElem.render at hb
    simp only [List.mem_append] at hb
    rcases hb with (((hb | hb) | hb) | hb) | hb
    · exact (by decide : ∀ c ∈ lit "<option value=\"", c ≠ 0) b hb
    · exact cstr_no_nul v b hb
    · exact (by decide : ∀ c ∈ lit "\">", c ≠ 0) b hb
    · exact cstr_no_nul n b hb
    · exact (by decide : ∀ c ∈ lit "</option>\n", c ≠ 0) b hb
  | bare g =>
    unfold OptionElem.render at hb
    simp only [List.mem_append] at hb
    rcases hb with (hb | hb) | hb
    · exact (by decide : ∀ c ∈ lit "<option>", c ≠ 0) b hb
    · exact cstr_no_nul g b hb
    · exact (by decide : ∀ c ∈ lit "</option>\n", c ≠ 0) b hb

/-- An option element that fits the temporary is appended in full. -/
theorem appended_of_fits (o : OptionElem) (h : o.fits) : o.appended = o.render := by
  have hc : cstr o.render = o.render := cstr_of_no_nul _ (render_no_nul o)
  have ht : snprintf_buf 128 o.render = o.render := by
    unfold snprintf_buf
    unfold OptionElem.fits at h
    exact List.take_of_length_le (by omega)
  cases o with
  | valued v n =>
    show cstr (snprintf_buf 128 (OptionElem.valued v n).render) = _
    rw [ht, hc]
  | bare g =>
    show cstr (snprintf_buf 128 (OptionElem.bare g).render) = _
    rw [ht, hc]

/-- The value read back from an option element without markup, and the values behind it. -/
theorem option_values_render (o : OptionElem) (X : List Byte) (hp : o.plain) :
    option_values (o.render ++ X) = o.value :: option_values X := by
  have hclose : option_values (lit "</option>\n" ++ X) = option_values X :=
    option_values_skip _ X (by decide)
  cases o with
  | valued v n =>
    obtain ⟨hv, hn⟩ := hp
    have hshape : (OptionElem.valued v n).render ++ X =
        lit "<option value=\"" ++ (cstr v ++ 34 :: (62 :: cstr n ++ (lit "</option>\n" ++ X))) := by
      unfold OptionElem.render
      rw [show lit "\">" = [34, 62] from by decide]
      simp only [List.append_assoc, List.cons_append, List.nil_append]
    have hinner : lit "option value=\"" ++
        (cstr v ++ 34 :: (62 :: cstr n ++ (lit "</option>\n" ++ X))) =
        (lit "option value=\"" ++ cstr v ++ [34, 62] ++ cstr n) ++ (lit "</option>\n" ++ X) := by
      simp only [List.append_assoc, List.cons_append, List.nil_append]
    rw [hshape, option_values_valued_head, until_byte_stop 34 (cstr v) _ (fun c hc => (hv c hc).2),
      hinner, option_values_skip _ _ (no_option_start_of_no_lt _ ?_), hclose]
    · rfl
    · intro b hb
      simp only [List.mem_append] at hb
      rcases hb with ((hb | hb) | hb) | hb
      · exact (by decide : ∀ c ∈ lit "option value=\"", c ≠ 60) b hb
      · exact (hv b hb).1
      · exact (by decide : ∀ c ∈ [34, 62], c ≠ 60) b hb
      · exact hn b hb
  | bare g =>
    have hg : ∀ b ∈ cstr g, b ≠ 60 := hp
    have hshape : (OptionElem.bare g).render ++ X =
        lit "<option>" ++ (cstr g ++ 60 :: (lit "/option>\n" ++ X)) := by
      unfold OptionElem.render
      rw [show lit "</option>\n" = 60 :: lit "/option>\n" from by decide]
      simp only [List.append_assoc, List.cons_append, List.nil_append]
    have hinner : lit "option>" ++ (cstr g ++ 60 :: (lit "/option>\n" ++ X)) =
        (lit "option>" ++ cstr g) ++ (lit "</option>\n" ++ X) := by
      rw [show lit "</option>\n" = 60 :: lit "/option>\n" from by decide]
      simp only [List.append_assoc, List.cons_append, List.nil_append]
    rw [hshape, option_values_bare_head, until_byte_stop 60 (cstr g) _ hg, hinner,
      option_values_skip _ _ (no_option_start_of_no_lt _ ?_), hclose]
    · rfl
    · intro b hb
      simp only [List.mem_append] at hb
      rcases hb with hb | hb
      · exact (by decide : ∀ c ∈ lit "option>", c ≠ 60) b hb
      · exact hg b hb

theorem option_values_renders (os : List OptionElem) (X : List Byte)
    (hp : ∀ o ∈ os, o.plain) :
    option_values ((os.map OptionElem.render).flatten ++ X) =
      os.map OptionElem.value ++ option_values X := by
  induction os with
  | nil => rfl
  | cons o os ih =>
    rw [List.map_cons, List.flatten_cons, List.append_assoc,
      option_values_render o _ (hp o (List.mem_cons_self o os)),
      ih (fun x hx => hp x (List.mem_cons_of_mem o hx))]
    rfl

set_option maxRecDepth 100000 in
/-- The values read back from the initial document of the specification: those of its option
elements, when they hold no markup. -/
theorem option_values_spec_document (ws : Session) (cert : Bool)
    (hp : ∀ o ∈ spec_group_options ws cert, o.plain) :
    option_values (spec_user_document ws cert) =
      if ws.config.group_list.length > 0 ∨ ws.cert_groups.length > 0 then
        (spec_group_options ws cert).map OptionElem.value
      else [] := by
  have hend : option_values login_msg_user_end = [] := by
    have := option_values_skip login_msg_user_end [] (by decide)
    rw [List.append_nil] at this
    exact this
  unfold spec_user_document
  rw [List.append_assoc, option_values_skip login_msg_user_start _ (by decide)]
  split
  · rw [List.append_assoc, List.append_assoc,
      option_values_skip (lit "<select name=\"group_list\" label=\"GROUP:\">\n") _ (by decide),
      option_values_renders _ _ hp,
      option_values_skip (lit "</select>\n") _ (by decide), hend, List.append_nil]
  · rw [List.nil_append, hend]

/-- The document `get_auth_handler2` builds is the one of the specification when every option
element fits the temporary. -/
theorem sent_user_document_fits (ws : Session) (cert : Bool)
    (hfit : ∀ o ∈ spec_group_options ws cert, o.fits) :
    sent_user_document ws cert = spec_user_document ws cert := by
  have h : (spec_group_options ws cert).map OptionElem.appended =
      (spec_group_options ws cert).map OptionElem.render :=
    List.map_congr_left (fun o ho => appended_of_fits o (hfit o ho))
  unfold sent_user_document spec_user_document
  rw [h]

/-! ## C9: the order of the group options -/

/-- What a successful `get_auth_handler2` has written: the header lines and then the document
built by `get_auth_handler2_str`. -/
theorem get_auth_handler2_ok (k : Consts) (e : Env) (ws : Session) (http_ver : Nat)
    (pmsg : Option (List Byte)) (out : Tls)
    (h : (get_auth_handler2 k e ws http_ver pmsg out).1 = 0) :
    ∃ str, get_auth_handler2_str k e ws pmsg =
        (some str, (get_auth_handler2 k e ws http_ver pmsg out).2.1) ∧
      (get_auth_handler2 k e ws http_ver pmsg out).2.2 =
        out ++ [lit "HTTP/1." ++ fmt_u http_ver ++ lit " 200 OK\r\n",
                lit "Connection: Keep-Alive\r\n"] ++
          (if ws.sid_set ≠ 0 then
             [lit "Set-Cookie: webvpncontext=" ++ cstr (e.base64_encode ws.sid) ++
               lit "; Max-Age=" ++ fmt_u k.MAX_AUTH_SECS ++ lit "; Secure\r\n"]
           else []) ++
          [lit "Content-Type: text/xml\r\n",
           lit "Content-Length: " ++ fmt_u str.length ++ lit "\r\n",
           lit "X-Transcend-Version: 1\r\n", lit "\r\n", str] := by
  have hh := h
  unfold get_auth_handler2 at hh
  split at hh
  · cases hh
  rename_i o1 h1
  split at hh
  · cases hh
  rename_i o2 h2
  split at hh
  · cases hh
  rename_i o3 h3
  split at hh
  · cases hh
  rename_i o4 h4
  split at hh
  · cases hh
  rename_i str ws1 hstr
  split at hh
  · cases hh
  rename_i o5 h5
  split at hh
  · cases hh
  rename_i o6 h6
  split at hh
  · cases hh
  rename_i o7 h7
  split at hh
  · cases hh
  rename_i o8 h8
  split at hh
  · rename_i hu
    have hres : get_auth_handler2 k e ws http_ver pmsg out = (0, ws1, o8) := by
      unfold get_auth_handler2
      rw [h1]
      dsimp only
      rw [h2]
      dsimp only
      rw [h3]
      dsimp only
      rw [h4]
      dsimp only
      rw [hstr]
      dsimp only
      rw [h5]
      dsimp only
      rw [h6]
      dsimp only
      rw [h7]
      dsimp only
      rw [h8]
      dsimp only
      rw [if_pos hu]
    rw [hres]
    refine ⟨str, hstr, ?_⟩
    have e3 : o3 = o2 ++ (if ws.sid_set ≠ 0 then
        [lit "Set-Cookie: webvpncontext=" ++ cstr (e.base64_encode ws.sid) ++
          lit "; Max-Age=" ++ fmt_u k.MAX_AUTH_SECS ++ lit "; Secure\r\n"]
        else []) := by
      by_cases hs : ws.sid_set ≠ 0
      · rw [if_pos hs] at h3 ⊢
        exact tls_write_eq h3
      · rw [if_neg hs] at h3 ⊢
        rw [List.append_nil]
        exact (Option.some.inj h3).symm
    show o8 = _
    rw [tls_write_eq h8, tls_write_eq h7, tls_write_eq h6, tls_write_eq h5, tls_write_eq h4,
      e3, tls_write_eq h2, tls_write_eq h1]
    simp only [List.append_assoc, List.cons_append, List.nil_append]
  · cases hh

theorem getLast_of_chunks (out mid : Tls) (a b c d str : List Byte) :
    (out ++ mid ++ [a, b, c, d, str]).getLast? = some str := by
  simp

theorem get_auth_handler2_document (k : Consts) (e : Env) (ws : Session) (http_ver : Nat)
    (pmsg : Option (List Byte)) (out : Tls)
    (h : (get_auth_handler2 k e ws http_ver pmsg out).1 = 0) :
    ∃ str, get_auth_handler2_str k e ws pmsg =
        (some str, (get_auth_handler2 k e ws http_ver pmsg out).2.1) ∧
      (get_auth_handler2 k e ws http_ver pmsg out).2.2.getLast? = some str := by
  obtain ⟨str, h1, h2⟩ := get_auth_handler2_ok k e ws http_ver pmsg out h
  refine ⟨str, h1, ?_⟩
  rw [h2, List.append_assoc out]
  exact getLast_of_chunks out _ _ _ _ _ str

/-- The document a successful `get_auth_handler2` sends for a session in a state other than REQ
with certificate authentication enabled and `cert_auth_ok` set: the initial prompt whose group
list holds the options of the specification, in their order, each as it passed through
`temp[128]`. -/
theorem group_options_sent (k : Consts) (e : Env) (ws : Session) (http_ver : Nat)
    (pmsg : Option (List Byte)) (out : Tls)
    (hstate : ws.auth_state ≠ .S_AUTH_REQ)
    (hcert : (ws.config.auth_types &&& k.AUTH_TYPE_CERTIFICATE) ≠ 0)
    (hok : ws.cert_auth_ok ≠ 0)
    (hret : (get_auth_handler2 k e ws http_ver pmsg out).1 = 0) :
    (get_auth_handler2 k e ws http_ver pmsg out).2.1 = (get_cert_info k e ws).2 ∧
    (get_auth_handler2 k e ws http_ver pmsg out).2.2.getLast? =
      some (sent_user_document (get_cert_info k e ws).2 true) ∧
    spec_group_options (get_cert_info k e ws).2 true =
      (if cstr ws.groupname ≠ [] then
         [OptionElem.valued ws.groupname (spec_display_name ws.config ws.groupname)]
       else []) ++
      (match ws.config.default_select_group with
       | some d => [OptionElem.bare d]
       | none => []) ++
      (((get_cert_info k e ws).2.cert_groups.filter (fun g =>
          !(ws.config.group_list.any (fun c => cstr g == cstr c)) &&
            !(cstr ws.groupname ≠ [] && cstr ws.groupname == cstr g))).map OptionElem.bare) ++
      ((ws.config.group_list.enum.filter (fun p =>
          !(cstr ws.groupname ≠ [] && cstr ws.groupname == cstr p.2))).map
        (fun p => OptionElem.valued p.2
          (match friendly_at ws.config p.1 with
           | some n => n
           | none => p.2))) := by
  have hce : cert_enabled k ws = true := by
    unfold cert_enabled
    simp [hcert, hok]
  obtain ⟨str, hstr, hlast⟩ := get_auth_handler2_document k e ws http_ver pmsg out hret
  have hdoc := (get_auth_handler2_str_eq k e ws _ pmsg str hstr).2 hstate
  rw [hce, if_pos rfl] at hdoc
  have hframe := get_cert_info_frame k e ws
  refine ⟨hdoc.1, ?_, ?_⟩
  · rw [hlast, hdoc.2, hdoc.1]
  · unfold spec_group_options is_selected
    rw [hframe.1, hframe.2.2]
    rfl

set_option maxRecDepth 100000 in
/-- C9 holds where every option element fits the 128-byte temporary, and fails where one does
not. (1) For a session in a state other than REQ with certificate authentication enabled and
`cert_auth_ok` set, when every option element of the specification is at most 127 bytes long,
the document a successful `get_auth_handler2` sends is the initial prompt whose group list
holds exactly these elements, in this order: `ws.groupname` if set; `default_select_group` if
configured; the certificate groups, in certificate order, that equal no configured group and
not the selected one; the configured groups, in declaration order, other than the selected
one. (2) Scenario S3 evaluates to `B` (`β`), `D`, `A` (`α`), `C` (`γ`). (3) A client that posts
`group%5flist=` with a group name of 60 bytes and no user name is asked again with a document
whose first option, 147 bytes long, is cut after 127 bytes: it has no closing tag, the option
`A` follows inside it, and the document is not the one of the specification. -/
theorem group_options_order :
    (∀ (k : Consts) (e : Env) (ws : Session) (http_ver : Nat) (pmsg : Option (List Byte))
        (out : Tls),
      ws.auth_state ≠ .S_AUTH_REQ →
      (ws.config.auth_types &&& k.AUTH_TYPE_CERTIFICATE) ≠ 0 →
      ws.cert_auth_ok ≠ 0 →
      (get_auth_handler2 k e ws http_ver pmsg out).1 = 0 →
      (∀ o ∈ spec_group_options (get_cert_info k e ws).2 true, o.fits) →
      (get_auth_handler2 k e ws http_ver pmsg out).2.2.getLast? =
        some (spec_user_document (get_cert_info k e ws).2 true) ∧
      spec_group_options (get_cert_info k e ws).2 true =
        (if cstr ws.groupname ≠ [] then
           [OptionElem.valued ws.groupname (spec_display_name ws.config ws.groupname)]
         else []) ++
        (match ws.config.default_select_group with
         | some d => [OptionElem.bare d]
         | none => []) ++
        (((get_cert_info k e ws).2.cert_groups.filter (fun g =>
            !(ws.config.group_list.any (fun c => cstr g == cstr c)) &&
              !(cstr ws.groupname ≠ [] && cstr ws.groupname == cstr g))).map
          OptionElem.bare) ++
        ((ws.config.group_list.enum.filter (fun p =>
            !(cstr ws.groupname ≠ [] && cstr ws.groupname == cstr p.2))).map
          (fun p => OptionElem.valued p.2
            (match friendly_at ws.config p.1 with
             | some n => n
             | none => p.2)))) ∧
    ((get_auth_handler2 consts_ref env_cert_example session_groups_example 1 none []).1 = 0 ∧
      spec_group_options (get_cert_info consts_ref env_cert_example
          session_groups_example).2 true =
        [OptionElem.valued (lit "B") [206, 178], OptionElem.bare (lit "D"),
         OptionElem.valued (lit "A") [206, 177], OptionElem.valued (lit "C") [206, 179]] ∧
      (get_auth_handler2 consts_ref env_cert_example session_groups_example 1 none
        []).2.2.getLast? = some document_groups_example) ∧
    (session_long_group_example.auth_state ≠ .S_AUTH_REQ ∧
      (session_long_group_example.config.auth_types &&&
        consts_ref.AUTH_TYPE_CERTIFICATE) ≠ 0 ∧
      session_long_group_example.cert_auth_ok ≠ 0 ∧
      (post_auth_handler consts_ref env_cert_example session_post_long_group_example 1
        []).outcome = .returned 0 ∧
      (post_auth_handler consts_ref env_cert_example session_post_long_group_example 1
        []).ws.groupname = group60 ∧
      (post_auth_handler consts_ref env_cert_example session_post_long_group_example 1
        []).out.getLast? = some document_long_group_example ∧
      (get_auth_handler2 consts_ref env_cert_example session_long_group_example 1 none
        []).1 = 0 ∧
      (get_auth_handler2 consts_ref env_cert_example session_long_group_example 1 none
        []).2.2.getLast? = some document_long_group_example ∧
      spec_group_options (get_cert_info consts_ref env_cert_example
          session_long_group_example).2 true =
        [OptionElem.valued group60 group60, OptionElem.valued (lit "A") (lit "A")] ∧
      (OptionElem.valued group60 group60).render.length = 147 ∧
      ¬ (OptionElem.valued group60 group60).render <:+: document_long_group_example ∧
      document_long_group_example ≠
        spec_user_document (get_cert_info consts_ref env_cert_example
          session_long_group_example).2 true) := by
  refine ⟨fun k e ws http_ver pmsg out hstate hcert hok hret hfit => ?_,
    ⟨by decide, by decide, by decide⟩,
    ⟨by decide, by decide, by decide, by decide, by decide, by decide, by decide, by decide,
      by decide, by decide, by decide, by decide⟩⟩
  have h := group_options_sent k e ws http_ver pmsg out hstate hcert hok hret
  refine ⟨?_, h.2.2⟩
  rw [h.2.1, sent_user_document_fits _ _ hfit]

/-! ## C10: no option value twice -/

theorem config_values_sublist (ws : Session) :
    (((ws.config.group_list.enum.filter (fun p => !(is_selected ws p.2))).map
      (fun p => OptionElem.valued p.2
        (match friendly_at ws.config p.1 with
         | some n => n
         | none => p.2))).map OptionElem.value).Sublist (ws.config.group_list.map cstr) := by
  have h1 : ((ws.config.group_list.enum.filter (fun p => !(is_selected ws p.2))).map
      (fun p => OptionElem.valued p.2
        (match friendly_at ws.config p.1 with
         | some n => n
         | none => p.2))).map OptionElem.value =
      ((ws.config.group_list.enum.filter (fun p => !(is_selected ws p.2))).map Prod.snd).map
        cstr := by
    rw [List.map_map, List.map_map]
    rfl
  rw [h1]
  apply List.Sublist.map
  have h2 := (List.filter_sublist (p := fun p => !(is_selected ws p.2))
    ws.config.group_list.enum).map Prod.snd
  rw [List.enum_map_snd] at h2
  exact h2

/-- The values of the options of the specification are pairwise distinct when the configured
groups are, the certificate groups are, and the default-select placeholder is none of them nor
the selected group. -/
theorem spec_group_options_nodup (ws : Session) (cert : Bool)
    (hgl : (ws.config.group_list.map cstr).Nodup)
    (hcg : cert = true → (ws.cert_groups.map cstr).Nodup)
    (hd : ∀ d, ws.config.default_select_group = some d →
      (cstr ws.groupname ≠ [] → cstr d ≠ cstr ws.groupname) ∧
      cstr d ∉ ws.config.group_list.map cstr ∧
      (cert = true → cstr d ∉ ws.cert_groups.map cstr)) :
    ((spec_group_options ws cert).map OptionElem.value).Nodup := by
  unfold spec_group_options
  simp only [List.map_append]
  have hsel : ∀ x, x ∈ (if cstr ws.groupname ≠ [] then
      [OptionElem.valued ws.groupname (spec_display_name ws.config ws.groupname)]
      else []).map OptionElem.value → cstr ws.groupname ≠ [] ∧ x = cstr ws.groupname := by
    intro x hx
    split at hx
    · rename_i hg
      simp only [List.map_cons, List.map_nil, List.mem_singleton] at hx
      exact ⟨hg, hx⟩
    · cases hx
  have hdef : ∀ x, x ∈ (match ws.config.default_select_group with
      | some d => [OptionElem.bare d]
      | none => []).map OptionElem.value →
      ∃ d, ws.config.default_select_group = some d ∧ x = cstr d := by
    intro x hx
    split at hx
    · rename_i d hdd
      simp only [List.map_cons, List.map_nil, List.mem_singleton] at hx
      exact ⟨d, hdd, hx⟩
    · cases hx
  have hcertm : ∀ x, x ∈ (if cert = true then
      (ws.cert_groups.filter (fun g =>
        !(ws.config.group_list.any (fun c => cstr g == cstr c)) && !(is_selected ws g))).map
        OptionElem.bare
      else []).map OptionElem.value →
      ∃ g ∈ ws.cert_groups, x = cstr g ∧ (∀ c ∈ ws.config.group_list, cstr g ≠ cstr c) ∧
        is_selected ws g = false ∧ cert = true := by
    intro x hx
    split at hx
    · rename_i hcert
      simp only [List.map_map, List.mem_map, List.mem_filter, Bool.and_eq_true,
        Bool.not_eq_true', List.any_eq_false, beq_iff_eq, Function.comp_apply] at hx
      obtain ⟨g, ⟨hg, hno, hs⟩, hxg⟩ := hx
      exact ⟨g, hg, hxg.symm, hno, hs, hcert⟩
    · cases hx
  have hconfm : ∀ x, x ∈ ((ws.config.group_list.enum.filter
      (fun p => !(is_selected ws p.2))).map
      (fun p => OptionElem.valued p.2
        (match friendly_at ws.config p.1 with
         | some n => n
         | none => p.2))).map OptionElem.value →
      ∃ g ∈ ws.config.group_list, x = cstr g ∧ is_selected ws g = false := by
    intro x hx
    simp only [List.map_map, List.mem_map, List.mem_filter, Bool.not_eq_true',
      Function.comp_apply] at hx
    obtain ⟨p, ⟨hp, hs⟩, hxp⟩ := hx
    exact ⟨p.2, List.snd_mem_of_mem_enum hp, hxp.symm, hs⟩
  have hnotsel : ∀ g, cstr ws.groupname ≠ [] → is_selected ws g = false →
      cstr ws.groupname ≠ cstr g := by
    intro g hg hs heq
    unfold is_selected at hs
    simp [hg, heq] at hs
    exact hg (heq.trans hs)
  refine List.Nodup.append (List.Nodup.append (List.Nodup.append ?_ ?_ ?_) ?_ ?_) ?_ ?_
  · split
    · exact List.nodup_singleton _
    · exact List.nodup_nil
  · split
    · exact List.nodup_singleton _
    · exact List.nodup_nil
  · intro x hx1 hx2
    obtain ⟨hg, hxg⟩ := hsel x hx1
    obtain ⟨d, hdd, hxd⟩ := hdef x hx2
    exact (hd d hdd).1 hg (hxd ▸ hxg)
  · split
    · rename_i hcert
      rw [List.map_map]
      have : (ws.cert_groups.filter (fun g =>
          !(ws.config.group_list.any (fun c => cstr g == cstr c)) &&
            !(is_selected ws g))).map (OptionElem.value ∘ OptionElem.bare) =
          (ws.cert_groups.filter (fun g =>
          !(ws.config.group_list.any (fun c => cstr g == cstr c)) &&
            !(is_selected ws g))).map cstr := rfl
      rw [this]
      exact List.Nodup.sublist ((List.filter_sublist _).map cstr) (hcg hcert)
    · exact List.nodup_nil
  · intro x hx1 hx2
    obtain ⟨g, hg, hxg, _, hs, hcert⟩ := hcertm x hx2
    rcases List.mem_append.1 hx1 with h | h
    · obtain ⟨hgn, hxn⟩ := hsel x h
      exact hnotsel g hgn hs (hxn ▸ hxg)
    · obtain ⟨d, hdd, hxd⟩ := hdef x h
      apply (hd d hdd).2.2 hcert
      rw [← hxd, hxg]
      exact List.mem_map_of_mem cstr hg
  · exact List.Nodup.sublist (config_values_sublist ws) hgl
  · intro x hx1 hx2
    obtain ⟨g, hg, hxg, hs⟩ := hconfm x hx2
    rcases List.mem_append.1 hx1 with h | h
    · rcases List.mem_append.1 h with h | h
      · obtain ⟨hgn, hxn⟩ := hsel x h
        exact hnotsel g hgn hs (hxn ▸ hxg)
      · obtain ⟨d, hdd, hxd⟩ := hdef x h
        apply (hd d hdd).2.1
        rw [← hxd, hxg]
        exact List.mem_map_of_mem cstr hg
    · obtain ⟨c, hc, hxc, hno, _, _⟩ := hcertm x h
      exact hno g hg (hxc ▸ hxg)

/-- C10, amended: for a session in a state other than REQ, when the configured groups are
pairwise distinct, the certificate groups (if certificate authentication is on) are pairwise
distinct, `default_select_group` (if configured) differs from the selected group, from every
configured group and from every certificate group, every option element is at most 127 bytes
long (it fits `temp[128]`), and no group name or display name holds a `<`, nor a value written
as an attribute a `"`: the document a successful `get_auth_handler2` sends is the one of the
specification, the option values read back from it are those of its option elements, and no
value appears twice among them. -/
theorem group_options_distinct (k : Consts) (e : Env) (ws : Session) (http_ver : Nat)
    (pmsg : Option (List Byte)) (out : Tls)
    (hstate : ws.auth_state ≠ .S_AUTH_REQ)
    (hret : (get_auth_handler2 k e ws http_ver pmsg out).1 = 0)
    (hgl : (ws.config.group_list.map cstr).Nodup)
    (hcg : cert_enabled k ws = true →
      ((get_auth_handler2 k e ws http_ver pmsg out).2.1.cert_groups.map cstr).Nodup)
    (hd : ∀ d, ws.config.default_select_group = some d →
      (cstr ws.groupname ≠ [] → cstr d ≠ cstr ws.groupname) ∧
      cstr d ∉ ws.config.group_list.map cstr ∧
      (cert_enabled k ws = true →
        cstr d ∉ (get_auth_handler2 k e ws http_ver pmsg out).2.1.cert_groups.map cstr))
    (hfit : ∀ o ∈ spec_group_options (get_auth_handler2 k e ws http_ver pmsg out).2.1
      (cert_enabled k ws), o.fits)
    (hplain : ∀ o ∈ spec_group_options (get_auth_handler2 k e ws http_ver pmsg out).2.1
      (cert_enabled k ws), o.plain) :
    ∃ body, (get_auth_handler2 k e ws http_ver pmsg out).2.2.getLast? = some body ∧
      body = spec_user_document (get_auth_handler2 k e ws http_ver pmsg out).2.1
        (cert_enabled k ws) ∧
      option_values body =
        (if (get_auth_handler2 k e ws http_ver pmsg out).2.1.config.group_list.length > 0 ∨
            (get_auth_handler2 k e ws http_ver pmsg out).2.1.cert_groups.length > 0 then
           (spec_group_options (get_auth_handler2 k e ws http_ver pmsg out).2.1
             (cert_enabled k ws)).map OptionElem.value
         else []) ∧
      (option_values body).Nodup := by
  obtain ⟨str, hstr, hlast⟩ := get_auth_handler2_document k e ws http_ver pmsg out hret
  have hdoc := (get_auth_handler2_str_eq k e ws _ pmsg str hstr).2 hstate
  have hframe : (get_auth_handler2 k e ws http_ver pmsg out).2.1.config = ws.config ∧
      (get_auth_handler2 k e ws http_ver pmsg out).2.1.groupname = ws.groupname := by
    rw [hdoc.1]
    split
    · exact ⟨(get_cert_info_frame k e ws).1, (get_cert_info_frame k e ws).2.2⟩
    · exact ⟨rfl, rfl⟩
  have hnodup : ((spec_group_options (get_auth_handler2 k e ws http_ver pmsg out).2.1
      (cert_enabled k ws)).map OptionElem.value).Nodup := by
    apply spec_group_options_nodup
    · rw [hframe.1]
      exact hgl
    · exact hcg
    · rw [hframe.1, hframe.2]
      exact hd
  have hvalues := option_values_spec_document _ _ hplain
  refine ⟨str, hlast, ?_, ?_, ?_⟩
  · rw [hdoc.2, sent_user_document_fits _ _ hfit]
  · rw [hdoc.2, sent_user_document_fits _ _ hfit, hvalues]
  · rw [hdoc.2, sent_user_document_fits _ _ hfit, hvalues]
    split
    · exact hnodup
    · exact List.nodup_nil

set_option maxRecDepth 100000 in
/-- C10 fails: with the group `A` configured twice the document offers the value `A` twice;
with `default_select_group = A` and `A` configured it offers `A` twice; with the certificate
group `D` named twice it offers `D` twice; and with the distinct groups `a"x` and `a"y`
configured, the two `value` attributes both read `a`. -/
theorem group_options_distinct_counterexample :
    ((get_auth_handler2 consts_ref env_cert_example session_dup_config_example 1 none []).1 = 0 ∧
      (get_auth_handler2 consts_ref env_cert_example session_dup_config_example 1 none
        []).2.2.getLast? = some document_dup_config_example ∧
      option_values document_dup_config_example = [lit "A", lit "A"]) ∧
    ((get_auth_handler2 consts_ref env_cert_example session_dup_default_example 1 none
        []).1 = 0 ∧
      (get_auth_handler2 consts_ref env_cert_example session_dup_default_example 1 none
        []).2.2.getLast? = some document_dup_default_example ∧
      option_values document_dup_default_example = [lit "A", lit "A"]) ∧
    ((get_auth_handler2 consts_ref env_cert_example session_dup_cert_example 1 none []).1 = 0 ∧
      (get_auth_handler2 consts_ref env_cert_example session_dup_cert_example 1 none
        []).2.2.getLast? = some document_dup_cert_example ∧
      option_values document_dup_cert_example = [lit "D", lit "D"]) ∧
    ((session_quote_example.config.group_list.map cstr).Nodup ∧
      (get_auth_handler2 consts_ref env_cert_example session_quote_example 1 none []).1 = 0 ∧
      option_values ((get_auth_handler2 consts_ref env_cert_example session_quote_example 1
        none []).2.2.getLast?.getD []) = [lit "a", lit "a"]) := by
  decide

set_option maxRecDepth 100000 in
/-- C10, amended, at scenario S3: the values read back from the document are `B`, `D`, `A`,
`C`. -/
theorem group_options_distinct_witness :
    option_values document_groups_example = [lit "B", lit "D", lit "A", lit "C"] ∧
    ∃ body, (get_auth_handler2 consts_ref env_cert_example session_groups_example 1 none
        []).2.2.getLast? = some body ∧
      body = spec_user_document (get_auth_handler2 consts_ref env_cert_example
        session_groups_example 1 none []).2.1 (cert_enabled consts_ref session_groups_example) ∧
      option_values body =
        (if (get_auth_handler2 consts_ref env_cert_example session_groups_example 1 none
              []).2.1.config.group_list.length > 0 ∨
            (get_auth_handler2 consts_ref env_cert_example session_groups_example 1 none
              []).2.1.cert_groups.length > 0 then
           (spec_group_options (get_auth_handler2 consts_ref env_cert_example
             session_groups_example 1 none []).2.1
             (cert_enabled consts_ref session_groups_example)).map OptionElem.value
         else []) ∧
      (option_values body).Nodup :=
  ⟨by decide,
   group_options_distinct consts_ref env_cert_example session_groups_example 1 none []
      (by decide) (by decide) (by decide) (fun _ => by decide)
      (fun d hd => by cases hd) (by decide) (by decide)⟩


/-! ## C11: when the group selector is part of the document -/

/-- An occurrence of `n` in `a ++ b` lies in `a`, lies in `b`, or starts in `a` and ends in
`b`. -/
theorem infix_append_cases (n a b : List Byte) (h : n <:+: a ++ b) :
    n <:+: a ∨ n <:+: b ∨
      ∃ n1 n2, n = n1 ++ n2 ∧ n1 ≠ [] ∧ n2 ≠ [] ∧ n1 <:+ a ∧ n2 <+: b := by
  obtain ⟨s, t, hst⟩ := h
  rcases List.append_eq_append_iff.1 hst with ⟨a1, ha, _⟩ | ⟨c1, hc, hb⟩
  · exact Or.inl ⟨s, a1, ha.symm⟩
  · rcases List.append_eq_append_iff.1 hc with ⟨a2, ha2, hn⟩ | ⟨c2, _, hc2⟩
    · by_cases h1 : a2 = []
      · subst h1
        refine Or.inr (Or.inl ⟨[], t, ?_⟩)
        rw [hb, hn]
        simp
      · by_cases h2 : c1 = []
        · subst h2
          refine Or.inl ⟨s, [], ?_⟩
          rw [ha2, hn]
          simp
        · exact Or.inr (Or.inr ⟨a2, c1, hn, h1, h2, ⟨s, ha2.symm⟩, ⟨t, hb.symm⟩⟩)
    · refine Or.inr (Or.inl ⟨c2, t, ?_⟩)
      rw [hb, hc2]

set_option maxRecDepth 100000 in
/-- The password document holds the start of a group selector only inside its prompt. -/
theorem select_not_in_prompt_document (p : List Byte) (hp : ¬ select_open_tag <:+: p) :
    ¬ select_open_tag <:+: login_msg_no_user_start ++ p ++ login_msg_no_user_end := by
  intro h
  rw [List.append_assoc] at h
  have hgt : ∀ n1 n2 : List Byte, select_open_tag = n1 ++ n2 → n1 ≠ [] →
      ∀ t : List Byte, t ++ n1 = login_msg_no_user_start → False := by
    intro n1 n2 hn h1 t ht
    rcases List.eq_nil_or_concat n1 with h0 | ⟨n0, z, hz⟩
    · exact h1 h0
    · have hs : login_msg_no_user_start = login_msg_no_user_start.dropLast ++ [62] := by decide
      rw [hz, hs] at ht
      have hz2 : [z] = [62] := by
        have := List.append_inj_right' (show (t ++ n0) ++ [z] = _ ++ [62] by
          rw [← ht]; simp) rfl
        exact this
      have hmem : (62 : Byte) ∈ select_open_tag := by
        rw [hn, hz]
        simp only [List.cons.injEq, and_true] at hz2
        rw [hz2]
        simp
      exact absurd hmem (by decide)
  have hlt : ∀ n1 n2 : List Byte, select_open_tag = n1 ++ n2 → n1 ≠ [] → n2 ≠ [] →
      n2 <+: login_msg_no_user_end → False := by
    intro n1 n2 hn h1 h2 ⟨t, ht⟩
    cases n1 with
    | nil => exact h1 rfl
    | cons x n1 =>
      cases n2 with
      | nil => exact h2 rfl
      | cons y n2 =>
        have he : login_msg_no_user_end = 60 :: login_msg_no_user_end.tail := by decide
        rw [he] at ht
        have hy : y = 60 := by
          simp only [List.cons_append, List.cons.injEq] at ht
          exact ht.1
        have hmem : (60 : Byte) ∈ select_open_tag.tail := by
          rw [hn, hy]
          simp
        exact absurd hmem (by decide)
  rcases infix_append_cases _ _ _ h with h1 | h2 | ⟨n1, n2, hn, h1, _, ⟨t, ht⟩, _⟩
  · exact (memmem_eq_none_iff _ _).1 (by decide) h1
  · rcases infix_append_cases _ _ _ h2 with h3 | h4 | ⟨n1, n2, hn, h1, h2, _, h5⟩
    · exact hp h3
    · exact (memmem_eq_none_iff _ _).1 (by decide) h4
    · exact hlt n1 n2 hn h1 h2 h5
  · exact hgt n1 n2 hn h1 t ht

set_option maxRecDepth 100000 in
/-- The initial document without a group selector does not hold the start of one. -/
theorem select_not_in_plain_document :
    ¬ select_open_tag <:+: login_msg_user_start ++ [] ++ login_msg_user_end :=
  (memmem_eq_none_iff _ _).1 (by decide)

/-- The initial document with a group selector holds its start. -/
theorem select_in_group_document (opts : List Byte) :
    select_open_tag <:+: login_msg_user_start ++
      (lit "<select name=\"group_list\" label=\"GROUP:\">\n" ++ opts ++ lit "</select>\n") ++
      login_msg_user_end := by
  refine ⟨login_msg_user_start,
    lit " label=\"GROUP:\">\n" ++ opts ++ lit "</select>\n" ++ login_msg_user_end, ?_⟩
  have h : lit "<select name=\"group_list\" label=\"GROUP:\">\n" =
      select_open_tag ++ lit " label=\"GROUP:\">\n" := by decide
  rw [h]
  simp only [List.append_assoc]


/-- C11: the document a successful `get_auth_handler2` sends holds the start of the element
`<select name="group_list" ...>` if and only if `auth_state` is not REQ and a group is
configured or a certificate group is stored in the session as the call leaves it (the
certificate is read during the call), provided that in state REQ the prompt does not hold that
text itself. -/
theorem select_element_iff (k : Consts) (e : Env) (ws : Session) (http_ver : Nat)
    (pmsg : Option (List Byte)) (out : Tls)
    (hret : (get_auth_handler2 k e ws http_ver pmsg out).1 = 0)
    (hprompt : ws.auth_state = .S_AUTH_REQ →
      ¬ select_open_tag <:+: cstr (password_prompt pmsg)) :
    ∃ doc, (get_auth_handler2 k e ws http_ver pmsg out).2.2.getLast? = some doc ∧
      (select_open_tag <:+: doc ↔
        ws.auth_state ≠ .S_AUTH_REQ ∧
          (ws.config.group_list.length > 0 ∨
            (get_auth_handler2 k e ws http_ver pmsg out).2.1.cert_groups.length > 0)) := by
  obtain ⟨str, h1, h2⟩ := get_auth_handler2_document k e ws http_ver pmsg out hret
  obtain ⟨hreq, hnreq⟩ := get_auth_handler2_str_eq k e ws _ pmsg str h1
  refine ⟨str, h2, ?_⟩
  by_cases hs : ws.auth_state = .S_AUTH_REQ
  · obtain ⟨_, hstr⟩ := hreq hs
    constructor
    · intro hin
      rw [hstr] at hin
      exact absurd hin (select_not_in_prompt_document _ (hprompt hs))
    · intro hc
      exact absurd hs hc.1
  · obtain ⟨hws, hstr⟩ := hnreq hs
    have hcfg : (get_auth_handler2 k e ws http_ver pmsg out).2.1.config = ws.config := by
      rw [hws]
      split
      · exact (get_cert_info_frame k e ws).1
      · rfl
    rw [hstr]
    unfold sent_user_document
    rw [hcfg]
    by_cases hc : ws.config.group_list.length > 0 ∨
        (get_auth_handler2 k e ws http_ver pmsg out).2.1.cert_groups.length > 0
    · rw [if_pos hc]
      exact ⟨fun _ => ⟨hs, hc⟩, fun _ => select_in_group_document _⟩
    · rw [if_neg hc]
      exact ⟨fun hin => absurd hin select_not_in_plain_document, fun h => absurd h.2 hc⟩

set_option maxRecDepth 100000 in
/-- C11 in state REQ with the default prompt: the password document holds no group selector. -/
theorem select_element_iff_witness :
    (get_auth_handler2 consts_ref (env_ok (.error 0)) session_req_example 1 none []).1 = 0 ∧
    (session_req_example.auth_state = .S_AUTH_REQ →
      ¬ select_open_tag <:+: cstr (password_prompt none)) ∧
    ∃ doc, (get_auth_handler2 consts_ref (env_ok (.error 0)) session_req_example 1 none
        []).2.2.getLast? = some doc ∧
      (select_open_tag <:+: doc ↔
        session_req_example.auth_state ≠ .S_AUTH_REQ ∧
          (session_req_example.config.group_list.length > 0 ∨
            (get_auth_handler2 consts_ref (env_ok (.error 0)) session_req_example 1 none
              []).2.1.cert_groups.length > 0)) :=
  ⟨by decide, fun _ => (memmem_eq_none_iff _ _).1 (by decide),
   select_element_iff consts_ref (env_ok (.error 0)) session_req_example 1 none []
     (by decide) (fun _ => (memmem_eq_none_iff _ _).1 (by decide))⟩

set_option maxRecDepth 100000 in
/-- C11 read to the letter fails twice. In state REQ a prompt that holds the text of a group
selector puts it into the document. And a session that stores no certificate group on entry,
with no group configured, gets the selector once the call has read the group `D` from the
certificate. -/
theorem select_element_iff_counterexample :
    (session_req_example.auth_state = .S_AUTH_REQ ∧
      (get_auth_handler2 consts_ref (env_ok (.error 0)) session_req_example 1
        (some prompt_select_example) []).1 = 0 ∧
      select_open_tag <:+: ((get_auth_handler2 consts_ref (env_ok (.error 0))
        session_req_example 1 (some prompt_select_example) []).2.2.getLast?.getD [])) ∧
    (session_cert_fresh_example.auth_state ≠ .S_AUTH_REQ ∧
      session_cert_fresh_example.config.group_list.length = 0 ∧
      session_cert_fresh_example.cert_groups.length = 0 ∧
      (get_auth_handler2 consts_ref env_cert_group_example session_cert_fresh_example 1
        none []).1 = 0 ∧
      (get_auth_handler2 consts_ref env_cert_group_example session_cert_fresh_example 1
        none []).2.1.cert_groups = [lit "D"] ∧
      select_open_tag <:+: ((get_auth_handler2 consts_ref env_cert_group_example
        session_cert_fresh_example 1 none []).2.2.getLast?.getD [])) :=
  ⟨⟨by decide, by decide, (memmem_isSome_iff _ _).1 (by decide)⟩,
   by decide, by decide, by decide, by decide, by decide,
   (memmem_isSome_iff _ _).1 (by decide)⟩


/-! ## C12: the Content-Length of the challenge -/

/-- C12: when `get_auth_handler2` succeeds, the decimal number of its `Content-Length:` line is
the number of bytes it sends after the blank line: the header lines are followed by that line,
the version line, the blank line and the document, which in state REQ is the password document
and otherwise the initial document. The line prints the length through `%u` after a cast to
`unsigned int`; `hlen` says that the length is a value of that type, as it is for every document
a caller can ask for (the prompt is NULL or a text of the `MAX_MSG_SIZE` buffer). -/
theorem content_length_matches (k : Consts) (e : Env) (ws : Session) (http_ver : Nat)
    (pmsg : Option (List Byte)) (out : Tls)
    (hret : (get_auth_handler2 k e ws http_ver pmsg out).1 = 0)
    (hlen : ((get_auth_handler2 k e ws http_ver pmsg out).2.2.getLast?.getD []).length <
      4294967296) :
    ∃ body, (get_auth_handler2 k e ws http_ver pmsg out).2.2 =
        out ++ [lit "HTTP/1." ++ fmt_u http_ver ++ lit " 200 OK\r\n",
                lit "Connection: Keep-Alive\r\n"] ++
          (if ws.sid_set ≠ 0 then
             [lit "Set-Cookie: webvpncontext=" ++ cstr (e.base64_encode ws.sid) ++
               lit "; Max-Age=" ++ fmt_u k.MAX_AUTH_SECS ++ lit "; Secure\r\n"]
           else []) ++
          [lit "Content-Type: text/xml\r\n",
           lit "Content-Length: " ++ lit (Nat.repr body.length) ++ lit "\r\n",
           lit "X-Transcend-Version: 1\r\n", lit "\r\n", body] ∧
      (ws.auth_state = .S_AUTH_REQ →
        body = login_msg_no_user_start ++ cstr (password_prompt pmsg) ++
          login_msg_no_user_end) ∧
      (ws.auth_state ≠ .S_AUTH_REQ →
        body = sent_user_document (get_auth_handler2 k e ws http_ver pmsg out).2.1
          (cert_enabled k ws)) := by
  obtain ⟨str, h1, h2⟩ := get_auth_handler2_ok k e ws http_ver pmsg out hret
  obtain ⟨hreq, hnreq⟩ := get_auth_handler2_str_eq k e ws _ pmsg str h1
  have hlast : (get_auth_handler2 k e ws http_ver pmsg out).2.2.getLast? = some str := by
    rw [h2, List.append_assoc out]
    exact getLast_of_chunks out _ _ _ _ _ str
  rw [hlast] at hlen
  have hfmt : fmt_u str.length = lit (Nat.repr str.length) := by
    unfold fmt_u
    rw [Nat.mod_eq_of_lt (show str.length < 4294967296 from hlen)]
  refine ⟨str, ?_, fun hs => (hreq hs).2, fun hs => (hnreq hs).2⟩
  rw [h2, hfmt]

set_option maxRecDepth 100000 in
/-- C12 for the initial document of a fresh session. -/
theorem content_length_matches_witness :
    (get_auth_handler2 consts_ref (env_ok (.error 0)) {} 1 none []).1 = 0 ∧
    ((get_auth_handler2 consts_ref (env_ok (.error 0)) {} 1 none []).2.2.getLast?.getD
      []).length < 4294967296 ∧
    ∃ body, (get_auth_handler2 consts_ref (env_ok (.error 0)) {} 1 none []).2.2 =
        [] ++ [lit "HTTP/1." ++ fmt_u 1 ++ lit " 200 OK\r\n",
                lit "Connection: Keep-Alive\r\n"] ++
          (if ({} : Session).sid_set ≠ 0 then
             [lit "Set-Cookie: webvpncontext=" ++
               cstr ((env_ok (.error 0)).base64_encode ({} : Session).sid) ++
               lit "; Max-Age=" ++ fmt_u consts_ref.MAX_AUTH_SECS ++ lit "; Secure\r\n"]
           else []) ++
          [lit "Content-Type: text/xml\r\n",
           lit "Content-Length: " ++ lit (Nat.repr body.length) ++ lit "\r\n",
           lit "X-Transcend-Version: 1\r\n", lit "\r\n", body] ∧
      (({} : Session).auth_state = .S_AUTH_REQ →
        body = login_msg_no_user_start ++ cstr (password_prompt none) ++
          login_msg_no_user_end) ∧
      (({} : Session).auth_state ≠ .S_AUTH_REQ →
        body = sent_user_document
          (get_auth_handler2 consts_ref (env_ok (.error 0)) {} 1 none []).2.1
          (cert_enabled consts_ref {})) :=
  ⟨by decide, by decide,
   content_length_matches consts_ref (env_ok (.error 0)) {} 1 none [] (by decide) (by decide)⟩

/-! ## C14: a default route empties the route list -/

theorem array_set_length (a : List (Option (List Byte))) (i : Nat) (v : Option (List Byte)) :
    (array_set a i v).length = a.length := by
  unfold array_set
  split
  · exact List.length_set _ _ _
  · rfl

theorem array_stray_inside (id : ArrayId) (a : List (Option (List Byte))) (i : Nat)
    (v : Option (List Byte)) (h : i < a.length) : array_stray id a i v = [] := by
  unfold array_stray
  rw [if_pos h]

/-- The loops over `dns` and `nbns` write inside the array when the entries fit it. -/
theorem copy_strings_inside (e : Env) (id : ArrayId) (rs : List (List Byte)) (i : Nat)
    (a : List (Option (List Byte))) (s : List StrayWrite) (h : i + rs.length ≤ a.length) :
    (copy_strings e id rs i a s).1.length = a.length ∧ (copy_strings e id rs i a s).2 = s := by
  induction rs generalizing i a with
  | nil => exact ⟨rfl, rfl⟩
  | cons r rs ih =>
    unfold copy_strings
    rw [List.length_cons] at h
    rw [array_stray_inside _ _ _ _ (by omega), List.append_nil]
    have := ih (i + 1) (array_set a i (talloc_strdup e r)) (by rw [array_set_length]; omega)
    rw [array_set_length] at this
    exact this

/-- The result of `recv_cookie_auth_reply` on an OK reply that came with a descriptor and holds
both names. -/
theorem recv_cookie_auth_reply_ok (k : Consts) (e : Env) (ws : Session) (m : AuthReplyMsg)
    (fd : Int) (vname user : List Byte)
    (hrecv : e.cookie_reply = .msg m fd) (hok : m.reply = .OK) (hfd : fd ≠ -1)
    (hv : m.vname = some vname) (hu : m.user_name = some user) :
    recv_cookie_auth_reply k e ws =
      (0, cookie_store_dns e (cookie_store_routes e (cookie_store_config e
        (cookie_store_addresses e
          (cookie_store_names k { ws with tun_fd := fd } m vname user) m) m) m) m) := by
  unfold recv_cookie_auth_reply
  rw [hrecv]
  dsimp only
  rw [hok]
  dsimp only
  rw [if_pos hfd, hv, hu]

/-- The arrays and the record of stray writes as `recv_cookie_auth_reply` leaves them on an OK
reply that came with a descriptor and holds both names, in terms of the three loops. -/
theorem recv_cookie_auth_reply_arrays (k : Consts) (e : Env) (ws : Session) (m : AuthReplyMsg)
    (fd : Int) (vname user : List Byte)
    (hrecv : e.cookie_reply = .msg m fd) (hok : m.reply = .OK) (hfd : fd ≠ -1)
    (hv : m.vname = some vname) (hu : m.user_name = some user) :
    (recv_cookie_auth_reply k e ws).2.routes =
      (copy_routes e m.routes 0 ws.routes ws.stray_writes).1 ∧
    (recv_cookie_auth_reply k e ws).2.routes_size =
      (if (copy_routes e m.routes 0 ws.routes ws.stray_writes).2.1 = true then 0
       else m.routes.length) ∧
    (recv_cookie_auth_reply k e ws).2.default_route =
      (if e.check_if_default_route (copy_routes e m.routes 0 ws.routes ws.stray_writes).1
          (if (copy_routes e m.routes 0 ws.routes ws.stray_writes).2.1 = true then 0
           else m.routes.length) = true then 1
       else if (copy_routes e m.routes 0 ws.routes ws.stray_writes).2.1 = true then 1
       else ws.default_route) ∧
    (recv_cookie_auth_reply k e ws).2.dns =
      (copy_strings e .dns m.dns 0 ws.dns
        (copy_routes e m.routes 0 ws.routes ws.stray_writes).2.2).1 ∧
    (recv_cookie_auth_reply k e ws).2.nbns =
      (copy_strings e .nbns m.nbns 0 ws.nbns
        (copy_strings e .dns m.dns 0 ws.dns
          (copy_routes e m.routes 0 ws.routes ws.stray_writes).2.2).2).1 ∧
    (recv_cookie_auth_reply k e ws).2.stray_writes =
      (copy_strings e .nbns m.nbns 0 ws.nbns
        (copy_strings e .dns m.dns 0 ws.dns
          (copy_routes e m.routes 0 ws.routes ws.stray_writes).2.2).2).2 := by
  rw [recv_cookie_auth_reply_ok k e ws m fd vname user hrecv hok hfd hv hu]
  exact ⟨rfl, rfl, rfl, rfl, rfl, rfl⟩

set_option maxRecDepth 100000 in
/-- C13 at a banner of 300 bytes, `MAX_BANNER_SIZE` being 256: `post_common_handler` succeeds
and announces `Content-Length: 506`, the length of the body with the whole banner element, but
the body it writes after the blank line holds the 287 bytes of the element that fit `msg`: 476
bytes, the banner cut short and its closing tag missing. -/
theorem post_common_handler_long_banner :
    (post_common_handler consts_ref (env_ok (.error 0)) session_long_banner_example 1 []).1
      = 0 ∧
    lit "Content-Length: 506\r\n" ∈
      (post_common_handler consts_ref (env_ok (.error 0)) session_long_banner_example 1 []).2 ∧
    (post_common_handler consts_ref (env_ok (.error 0)) session_long_banner_example 1
      []).2.getLast? =
      some (lit "\r\n" ++ SUCCESS_MSG_HEAD ++ (lit "<banner>" ++ List.replicate 279 120) ++
        SUCCESS_MSG_FOOT) ∧
    (SUCCESS_MSG_HEAD ++ (lit "<banner>" ++ List.replicate 279 120) ++
      SUCCESS_MSG_FOOT).length = 476 ∧
    (SUCCESS_MSG_HEAD ++ (lit "<banner>" ++ List.replicate 300 120 ++ lit "</banner>") ++
      SUCCESS_MSG_FOOT).length = 506 := by
  refine ⟨by decide, by decide, by decide, by decide, by decide⟩

/-! ## C17: no password -/

/-- What the label `auth_fail` leaves in the TLS output: the 401 response when the write
succeeds, nothing when it fails. -/
theorem auth_fail_out (e : Env) (ws : Session) (out : Tls) (sent : List SecmodMsg)
    (reason : List Byte) :
    (e.tls_ok out (lit "HTTP/1.1 401 Unauthorized\r\nX-Reason: " ++ cstr reason ++
        lit "\r\n\r\n") = true →
      (auth_fail e ws out sent reason).out =
        out ++ [lit "HTTP/1.1 401 Unauthorized\r\nX-Reason: " ++ cstr reason ++
          lit "\r\n\r\n"]) ∧
    (e.tls_ok out (lit "HTTP/1.1 401 Unauthorized\r\nX-Reason: " ++ cstr reason ++
        lit "\r\n\r\n") = false →
      (auth_fail e ws out sent reason).out = out) := by
  unfold auth_fail tls_write
  constructor
  · intro h
    rw [if_pos h]
  · intro h
    rw [if_neg (by rw [h]; decide)]


theorem store_groupname_frame (k : Consts) (ws : Session) (r : ParseResult) :
    (store_groupname k ws r).config = ws.config ∧
    (store_groupname k ws r).cert_auth_ok = ws.cert_auth_ok := by
  unfold store_groupname
  repeat' first | split | dsimp only
  all_goals exact ⟨rfl, rfl⟩

/-- The certificate part of the branch INACTIVE fails with `No certificate` when certificate
authentication is enabled and no certificate was accepted. -/
theorem post_auth_cert_no_cert (k : Consts) (e : Env) (ws : Session) (http_ver : Nat)
    (out : Tls) (ireq : SecAuthInitMsg)
    (hcert : (ws.config.auth_types &&& k.AUTH_TYPE_CERTIFICATE) ≠ 0)
    (hok : ws.cert_auth_ok = 0) :
    post_auth_cert k e ws http_ver out ireq = auth_fail e ws out [] MSG_NO_CERT_ERROR := by
  unfold post_auth_cert
  rw [if_pos hcert, if_pos hok]

/-- C18: for a session in state INACTIVE with no sid whose auth types include CERTIFICATE and
whose `cert_auth_ok` is 0, `post_auth_handler` takes the label `auth_fail` with the reason
`No certificate`: it sends nothing to the security module, hands the response
`401 Unauthorized` with `X-Reason: No certificate` to the TLS session (which takes it unless the
write fails) and terminates the worker. This holds for every POST body when password
authentication is disabled; when it is enabled as well, for the bodies from which `parse_reply`
reads a username and whose group field is not present with an empty value. -/
theorem no_certificate_unauthorized (k : Consts) (e : Env) (ws : Session) (http_ver : Nat)
    (out : Tls)
    (hstate : ws.auth_state = .S_AUTH_INACTIVE) (hsid : ws.sid_set = 0)
    (hcert : (ws.config.auth_types &&& k.AUTH_TYPE_CERTIFICATE) ≠ 0)
    (hok : ws.cert_auth_ok = 0)
    (hbody : (ws.config.auth_types &&& k.AUTH_TYPE_USERNAME_PASS) ≠ 0 →
      (∃ u, parse_reply e ws.req.body ws.req.body_length USERNAME_FIELD none = .ok u) ∧
      ∀ off, parse_reply e ws.req.body ws.req.body_length GROUPNAME_FIELD
        (some GROUPNAME_FIELD_XML) ≠ .empty off) :
    (∃ ws1, post_auth_handler k e ws http_ver out =
      auth_fail e ws1 out [] MSG_NO_CERT_ERROR) ∧
    (post_auth_handler k e ws http_ver out).sent = [] ∧
    (post_auth_handler k e ws http_ver out).outcome = .exited 1 ∧
    (post_auth_handler k e ws http_ver out).fatal_close = true ∧
    (e.tls_ok out (lit "HTTP/1.1 401 Unauthorized\r\nX-Reason: No certificate\r\n\r\n") = true →
      (post_auth_handler k e ws http_ver out).out =
        out ++ [lit "HTTP/1.1 401 Unauthorized\r\nX-Reason: No certificate\r\n\r\n"]) ∧
    (e.tls_ok out (lit "HTTP/1.1 401 Unauthorized\r\nX-Reason: No certificate\r\n\r\n") = false →
      (post_auth_handler k e ws http_ver out).out = out) := by
  have hmain : ∃ ws1, post_auth_handler k e ws http_ver out =
      auth_fail e ws1 out [] MSG_NO_CERT_ERROR := by
    unfold post_auth_handler
    have hnot : ¬ (ws.sid_set ≠ 0 ∧ ws.auth_state = .S_AUTH_INACTIVE) :=
      fun h => h.1 hsid
    dsimp only
    rw [if_neg hnot, hstate]
    dsimp only
    unfold post_auth_inactive
    by_cases hp : (ws.config.auth_types &&& k.AUTH_TYPE_USERNAME_PASS) ≠ 0
    · obtain ⟨⟨u, hu⟩, hg⟩ := hbody hp
      rw [if_pos hp]
      split
      · rename_i off hoff
        exact absurd hoff (hg off)
      · rw [hu]
        dsimp only
        refine ⟨_, post_auth_cert_no_cert k e _ http_ver out _ ?_ ?_⟩
        · show ((store_groupname k ws _).config.auth_types &&& k.AUTH_TYPE_CERTIFICATE) ≠ 0
          rw [(store_groupname_frame k ws _).1]
          exact hcert
        · show (store_groupname k ws _).cert_auth_ok = 0
          rw [(store_groupname_frame k ws _).2]
          exact hok
    · rw [if_neg hp]
      exact ⟨_, post_auth_cert_no_cert k e ws http_ver out _ hcert hok⟩
  obtain ⟨ws1, h1⟩ := hmain
  have htext : lit "HTTP/1.1 401 Unauthorized\r\nX-Reason: " ++ cstr MSG_NO_CERT_ERROR ++
      lit "\r\n\r\n" = lit "HTTP/1.1 401 Unauthorized\r\nX-Reason: No certificate\r\n\r\n" := by
    decide
  have hout := auth_fail_out e ws1 out [] MSG_NO_CERT_ERROR
  rw [htext] at hout
  refine ⟨⟨ws1, h1⟩, ?_⟩
  rw [h1]
  exact ⟨rfl, rfl, rfl, hout.1, hout.2⟩

set_option maxRecDepth 100000 in
/-- C18 with password and certificate authentication enabled, no certificate presented, and
the body `username=alice&password=x`. -/
theorem no_certificate_unauthorized_witness :
    (session_both_user_example.auth_state = .S_AUTH_INACTIVE ∧
      session_both_user_example.sid_set = 0 ∧
      (session_both_user_example.config.auth_types &&& consts_ref.AUTH_TYPE_CERTIFICATE) ≠ 0 ∧
      session_both_user_example.cert_auth_ok = 0 ∧
      parse_reply (env_ok (.error 0)) session_both_user_example.req.body
        session_both_user_example.req.body_length USERNAME_FIELD none = .ok (lit "alice") ∧
      parse_reply (env_ok (.error 0)) session_both_user_example.req.body
        session_both_user_example.req.body_length GROUPNAME_FIELD (some GROUPNAME_FIELD_XML) =
        .not_found) ∧
    (post_auth_handler consts_ref (env_ok (.error 0)) session_both_user_example 1 []).sent
      = [] ∧
    (post_auth_handler consts_ref (env_ok (.error 0)) session_both_user_example 1 []).outcome =
      .exited 1 ∧
    (post_auth_handler consts_ref (env_ok (.error 0)) session_both_user_example 1 []).out =
      [lit "HTTP/1.1 401 Unauthorized\r\nX-Reason: No certificate\r\n\r\n"] := by
  have hu : parse_reply (env_ok (.error 0)) session_both_user_example.req.body
      session_both_user_example.req.body_length USERNAME_FIELD none = .ok (lit "alice") := by
    decide
  have hg : parse_reply (env_ok (.error 0)) session_both_user_example.req.body
      session_both_user_example.req.body_length GROUPNAME_FIELD (some GROUPNAME_FIELD_XML) =
      .not_found := by decide
  have h := no_certificate_unauthorized consts_ref (env_ok (.error 0))
    session_both_user_example 1 [] rfl rfl (by decide) rfl
    (fun _ => ⟨⟨lit "alice", hu⟩, fun off hoff => by rw [hg] at hoff; cases hoff⟩)
  exact ⟨⟨rfl, rfl, by decide, rfl, hu, hg⟩, h.2.1, h.2.2.1, h.2.2.2.2.1 rfl⟩

set_option maxRecDepth 100000 in
/-- C18 read to the letter fails when password authentication is enabled as well and the body
holds no username: with the body `password=x` the handler asks again with the initial challenge
(200) and returns, no 401 is written. -/
theorem no_certificate_unauthorized_counterexample :
    session_both_example.auth_state = .S_AUTH_INACTIVE ∧
    session_both_example.sid_set = 0 ∧
    (session_both_example.config.auth_types &&& consts_ref.AUTH_TYPE_CERTIFICATE) ≠ 0 ∧
    session_both_example.cert_auth_ok = 0 ∧
    (post_auth_handler consts_ref (env_ok (.error 0)) session_both_example 1 []).outcome =
      .returned 0 ∧
    (post_auth_handler consts_ref (env_ok (.error 0)) session_both_example 1 []).out.head? =
      some (lit "HTTP/1.1 200 OK\r\n") ∧
    (post_auth_handler consts_ref (env_ok (.error 0)) session_both_example 1
      []).fatal_close = false :=
  ⟨rfl, rfl, by decide, rfl, by decide, by decide, by decide⟩


/-! ## C19: no username -/

/-- In state INACTIVE with no sid and password authentication enabled, a body from which no
username can be read, and whose group field is not present with an empty value, makes
`post_auth_handler` take the label `ask_auth`: it returns what `get_auth_handler` returns for the
initial challenge, sends nothing to the security module, and leaves `auth_state` INACTIVE. -/
theorem post_auth_handler_asks_again (k : Consts) (e : Env) (ws : Session) (http_ver : Nat)
    (out : Tls)
    (hstate : ws.auth_state = .S_AUTH_INACTIVE) (hsid : ws.sid_set = 0)
    (hpass : (ws.config.auth_types &&& k.AUTH_TYPE_USERNAME_PASS) ≠ 0)
    (huser : (parse_reply e ws.req.body ws.req.body_length USERNAME_FIELD none).ret = -1)
    (hgroup : ∀ off, parse_reply e ws.req.body ws.req.body_length GROUPNAME_FIELD
      (some GROUPNAME_FIELD_XML) ≠ .empty off) :
    post_auth_handler k e ws http_ver out =
      ask_auth k e (store_groupname k ws (parse_reply e ws.req.body ws.req.body_length
        GROUPNAME_FIELD (some GROUPNAME_FIELD_XML))) http_ver out ∧
    (post_auth_handler k e ws http_ver out).sent = [] ∧
    (post_auth_handler k e ws http_ver out).fatal_close = false ∧
    (post_auth_handler k e ws http_ver out).ws.auth_state = .S_AUTH_INACTIVE := by
  have hmain : post_auth_handler k e ws http_ver out =
      ask_auth k e (store_groupname k ws (parse_reply e ws.req.body ws.req.body_length
        GROUPNAME_FIELD (some GROUPNAME_FIELD_XML))) http_ver out := by
    unfold post_auth_handler
    have hnot : ¬ (ws.sid_set ≠ 0 ∧ ws.auth_state = .S_AUTH_INACTIVE) :=
      fun h => h.1 hsid
    dsimp only
    rw [if_neg hnot, hstate]
    dsimp only
    unfold post_auth_inactive
    rw [if_pos hpass]
    split
    · rename_i off hoff
      exact absurd hoff (hgroup off)
    · split
      · rename_i u hu
        rw [hu] at huser
        exact absurd huser (by simp [ParseResult.ret])
      · rfl
  rw [hmain]
  refine ⟨rfl, rfl, rfl, ?_⟩
  rw [ask_auth_auth_state, store_groupname_auth_state]
  exact hstate

set_option maxRecDepth 100000 in
/-- C19 at the body `group%5flist=&password=x`, in state INACTIVE with no sid and password
authentication enabled: the username field is missing, and `post_auth_handler` neither answers
nor returns: it calls `talloc_free` on the pointer `parse_reply` left in `groupname`, which
points into the request body. -/
theorem post_auth_handler_empty_group_aborts :
    (session_with_body "group%5flist=&password=x").auth_state = .S_AUTH_INACTIVE ∧
    (session_with_body "group%5flist=&password=x").sid_set = 0 ∧
    ((session_with_body "group%5flist=&password=x").config.auth_types &&&
      consts_ref.AUTH_TYPE_USERNAME_PASS) ≠ 0 ∧
    field_missing_or_empty (session_with_body "group%5flist=&password=x").req.body
      (session_with_body "group%5flist=&password=x").req.body_length USERNAME_FIELD none ∧
    parse_reply (env_ok (.error 0)) (session_with_body "group%5flist=&password=x").req.body
      (session_with_body "group%5flist=&password=x").req.body_length GROUPNAME_FIELD
      (some GROUPNAME_FIELD_XML) = .empty 13 ∧
    (post_auth_handler consts_ref (env_ok (.error 0))
      (session_with_body "group%5flist=&password=x") 1 []).outcome = .aborted ∧
    (post_auth_handler consts_ref (env_ok (.error 0))
      (session_with_body "group%5flist=&password=x") 1 []).out = [] :=
  ⟨rfl, rfl, by decide, Or.inr ⟨by decide, Or.inl ((memmem_eq_none_iff _ _).1 (by decide))⟩,
   by decide, by decide, by decide⟩


/-! ## C20: an OK reply must be complete -/

/-- The return value of `recv_auth_reply` on an OK reply. -/
theorem recv_auth_reply_ok_cases (k : Consts) (e : Env) (ws : Session)
    (txt : Option (List Byte)) (n : Nat) (m : SecAuthReplyMsg)
    (hrecv : e.recv = .msg m) (hok : m.reply = .OK) :
    ((m.user_name ≠ none ∧ m.has_cookie = true ∧ 0 < m.cookie.length ∧
        m.dtls_session_id.length = k.SESSION_ID_SIZE) ∧
      (recv_auth_reply k e ws txt n).1 = 0) ∨
    (¬ (m.user_name ≠ none ∧ m.has_cookie = true ∧ 0 < m.cookie.length ∧
        m.dtls_session_id.length = k.SESSION_ID_SIZE) ∧
      (recv_auth_reply k e ws txt n).1 = k.ERR_AUTH_FAIL) := by
  unfold recv_auth_reply
  rw [hrecv]
  dsimp only
  rw [hok]
  dsimp only
  split
  · rename_i hu
    exact Or.inr ⟨fun h => h.1 hu, rfl⟩
  · rename_i user hu
    split
    · rename_i hc
      refine Or.inr ⟨fun h => ?_, rfl⟩
      obtain ⟨_, h2, h3, h4⟩ := h
      rcases hc with hc | hc | hc
      · rw [h2] at hc
        cases hc
      · omega
      · exact hc h4
    · rename_i hc
      refine Or.inl ⟨⟨by rw [hu]; simp, ?_, ?_, ?_⟩, rfl⟩
      · cases h : m.has_cookie
        · exact absurd (Or.inl h) hc
        · rfl
      · rcases Nat.eq_zero_or_pos m.cookie.length with h | h
        · exact absurd (Or.inr (Or.inl h)) hc
        · exact h
      · by_cases h : m.dtls_session_id.length = k.SESSION_ID_SIZE
        · exact h
        · exact absurd (Or.inr (Or.inr h)) hc

/-- The return value of `recv_auth_reply` on a FAILED reply. -/
theorem recv_auth_reply_failed (k : Consts) (e : Env) (ws : Session)
    (txt : Option (List Byte)) (n : Nat) (m : SecAuthReplyMsg)
    (hrecv : e.recv = .msg m) (hfailed : m.reply = .FAILED) :
    (recv_auth_reply k e ws txt n).1 = k.ERR_AUTH_FAIL := by
  unfold recv_auth_reply
  rw [hrecv]
  dsimp only
  rw [hfailed]

/-- The tail of `post_auth_handler` takes the label `auth_fail` when `recv_auth_reply` returns
`ERR_AUTH_FAIL`. -/
theorem post_auth_reply_fail (k : Consts) (e : Env) (ws : Session) (http_ver : Nat)
    (out : Tls) (sent : List SecmodMsg)
    (hneg : k.ERR_AUTH_FAIL < 0) (hne : k.ERR_AUTH_FAIL ≠ k.ERR_AUTH_CONTINUE)
    (hret : (recv_auth_reply k e ws (some e.stack_msg) k.MAX_MSG_SIZE).1 = k.ERR_AUTH_FAIL) :
    post_auth_reply k e ws http_ver out sent =
      auth_fail e (recv_auth_reply k e ws (some e.stack_msg) k.MAX_MSG_SIZE).2.1 out sent
        (lit "Authentication failed") := by
  unfold post_auth_reply
  dsimp only
  rw [hret, if_neg hne, if_pos hneg]

theorem post_auth_reply_refused (k : Consts) (e : Env) (ws : Session) (http_ver : Nat)
    (out : Tls) (sent : List SecmodMsg)
    (hneg : k.ERR_AUTH_FAIL < 0) (hne : k.ERR_AUTH_FAIL ≠ k.ERR_AUTH_CONTINUE)
    (hret : ∀ ws1, (recv_auth_reply k e ws1 (some e.stack_msg) k.MAX_MSG_SIZE).1 =
      k.ERR_AUTH_FAIL)
    (hstate : ws.auth_state ≠ .S_AUTH_COOKIE) :
    Refused e out (post_auth_reply k e ws http_ver out sent) := by
  rw [post_auth_reply_fail k e ws http_ver out sent hneg hne (hret ws)]
  refine ⟨?_, fun _ => ⟨_, rfl⟩⟩
  show (recv_auth_reply k e ws (some e.stack_msg) k.MAX_MSG_SIZE).2.1.auth_state ≠ _
  rw [recv_auth_reply_auth_state]
  exact hstate

theorem auth_fail_refused (e : Env) (ws : Session) (out : Tls) (reason : List Byte)
    (hstate : ws.auth_state ≠ .S_AUTH_COOKIE) :
    Refused e out (auth_fail e ws out [] reason) :=
  ⟨hstate, fun h => absurd rfl h⟩

theorem post_auth_send_init_refused (k : Consts) (e : Env) (ws : Session) (http_ver : Nat)
    (out : Tls) (ireq : SecAuthInitMsg)
    (hneg : k.ERR_AUTH_FAIL < 0) (hne : k.ERR_AUTH_FAIL ≠ k.ERR_AUTH_CONTINUE)
    (hret : ∀ ws1, (recv_auth_reply k e ws1 (some e.stack_msg) k.MAX_MSG_SIZE).1 =
      k.ERR_AUTH_FAIL)
    (hstate : ws.auth_state ≠ .S_AUTH_COOKIE) :
    Refused e out (post_auth_send_init k e ws http_ver out ireq) := by
  unfold post_auth_send_init
  repeat' split
  · exact auth_fail_refused e ws out _ hstate
  · exact auth_fail_refused e ws out _ hstate
  · exact post_auth_reply_refused k e _ http_ver out _ hneg hne hret (by simp)

theorem post_auth_cert_refused (k : Consts) (e : Env) (ws : Session) (http_ver : Nat)
    (out : Tls) (ireq : SecAuthInitMsg)
    (hneg : k.ERR_AUTH_FAIL < 0) (hne : k.ERR_AUTH_FAIL ≠ k.ERR_AUTH_CONTINUE)
    (hret : ∀ ws1, (recv_auth_reply k e ws1 (some e.stack_msg) k.MAX_MSG_SIZE).1 =
      k.ERR_AUTH_FAIL)
    (hstate : ws.auth_state ≠ .S_AUTH_COOKIE) :
    Refused e out (post_auth_cert k e ws http_ver out ireq) := by
  have hc : (get_cert_info k e ws).2.auth_state ≠ .S_AUTH_COOKIE := by
    rw [get_cert_info_auth_state]
    exact hstate
  unfold post_auth_cert
  repeat' split
  · exact auth_fail_refused e ws out _ hstate
  · exact auth_fail_refused e _ out _ hc
  · exact post_auth_send_init_refused k e _ http_ver out _ hneg hne hret hc
  · exact post_auth_send_init_refused k e _ http_ver out _ hneg hne hret hstate


theorem post_auth_inactive_refused (k : Consts) (e : Env) (ws : Session) (http_ver : Nat)
    (out : Tls)
    (hneg : k.ERR_AUTH_FAIL < 0) (hne : k.ERR_AUTH_FAIL ≠ k.ERR_AUTH_CONTINUE)
    (hret : ∀ ws1, (recv_auth_reply k e ws1 (some e.stack_msg) k.MAX_MSG_SIZE).1 =
      k.ERR_AUTH_FAIL)
    (hstate : ws.auth_state ≠ .S_AUTH_COOKIE) :
    Refused e out (post_auth_inactive k e ws http_ver out) := by
  unfold post_auth_inactive
  repeat' split
  · exact ⟨hstate, fun h => absurd rfl h⟩
  · refine post_auth_cert_refused k e _ http_ver out _ hneg hne hret ?_
    show (store_groupname k ws _).auth_state ≠ _
    rw [store_groupname_auth_state]
    exact hstate
  · refine ⟨?_, fun h => absurd rfl h⟩
    rw [ask_auth_auth_state, store_groupname_auth_state]
    exact hstate
  · exact post_auth_cert_refused k e ws http_ver out _ hneg hne hret hstate

theorem post_auth_cont_refused (k : Consts) (e : Env) (ws : Session) (http_ver : Nat)
    (out : Tls)
    (hneg : k.ERR_AUTH_FAIL < 0) (hne : k.ERR_AUTH_FAIL ≠ k.ERR_AUTH_CONTINUE)
    (hret : ∀ ws1, (recv_auth_reply k e ws1 (some e.stack_msg) k.MAX_MSG_SIZE).1 =
      k.ERR_AUTH_FAIL)
    (hstate : ws.auth_state ≠ .S_AUTH_COOKIE) :
    Refused e out (post_auth_cont k e ws http_ver out) := by
  unfold post_auth_cont
  repeat' first | split | dsimp only
  all_goals first
    | exact auth_fail_refused e ws out _ hstate
    | exact post_auth_reply_refused k e _ http_ver out _ hneg hne hret (by simp)

theorem post_auth_handler_refused (k : Consts) (e : Env) (ws : Session) (http_ver : Nat)
    (out : Tls)
    (hneg : k.ERR_AUTH_FAIL < 0) (hne : k.ERR_AUTH_FAIL ≠ k.ERR_AUTH_CONTINUE)
    (hret : ∀ ws1, (recv_auth_reply k e ws1 (some e.stack_msg) k.MAX_MSG_SIZE).1 =
      k.ERR_AUTH_FAIL)
    (hstate : ws.auth_state ≠ .S_AUTH_COOKIE) :
    Refused e out (post_auth_handler k e ws http_ver out) := by
  have hs : (if ws.sid_set ≠ 0 ∧ ws.auth_state = .S_AUTH_INACTIVE then
      { ws with auth_state := .S_AUTH_INIT } else ws).auth_state ≠ .S_AUTH_COOKIE := by
    split
    · simp
    · exact hstate
  unfold post_auth_handler
  dsimp only
  split
  · exact post_auth_inactive_refused k e _ http_ver out hneg hne hret hs
  · exact post_auth_cont_refused k e _ http_ver out hneg hne hret hs
  · exact post_auth_cont_refused k e _ http_ver out hneg hne hret hs
  · rename_i h
    exact absurd h hs


/-- C20: for a reply of the security module with `reply = OK`, `recv_auth_reply` returns 0 if
and only if `user_name` is present, a cookie is present with a length above 0, and
`dtls_session_id` is exactly `sizeof(ws->session_id)` bytes long. Otherwise it returns
`ERR_AUTH_FAIL`, the value it returns for a FAILED reply, and `post_auth_handler`, called in a
state other than COOKIE with this reply waiting, does not enter COOKIE: once it has sent its
message to the security module it takes the label `auth_fail`, which hands the response
`401 Unauthorized` to the TLS session and terminates the worker. The constant `ERR_AUTH_FAIL`
is a negative error code other than `ERR_AUTH_CONTINUE`. -/
theorem ok_reply_complete_iff (k : Consts) (e : Env) (ws : Session)
    (txt : Option (List Byte)) (n : Nat) (m : SecAuthReplyMsg)
    (hrecv : e.recv = .msg m) (hok : m.reply = .OK)
    (hneg : k.ERR_AUTH_FAIL < 0) (hne : k.ERR_AUTH_FAIL ≠ k.ERR_AUTH_CONTINUE) :
    ((recv_auth_reply k e ws txt n).1 = 0 ↔
      m.user_name ≠ none ∧ m.has_cookie = true ∧ 0 < m.cookie.length ∧
        m.dtls_session_id.length = k.SESSION_ID_SIZE) ∧
    (¬ (m.user_name ≠ none ∧ m.has_cookie = true ∧ 0 < m.cookie.length ∧
        m.dtls_session_id.length = k.SESSION_ID_SIZE) →
      (recv_auth_reply k e ws txt n).1 = k.ERR_AUTH_FAIL ∧
      (∀ e1 m1, e1.recv = .msg m1 → m1.reply = .FAILED →
        (recv_auth_reply k e1 ws txt n).1 = (recv_auth_reply k e ws txt n).1) ∧
      ∀ ws0 http_ver out, ws0.auth_state ≠ .S_AUTH_COOKIE →
        (post_auth_handler k e ws0 http_ver out).ws.auth_state ≠ .S_AUTH_COOKIE ∧
        ((post_auth_handler k e ws0 http_ver out).sent ≠ [] →
          (post_auth_handler k e ws0 http_ver out).outcome = .exited 1 ∧
          (post_auth_handler k e ws0 http_ver out).fatal_close = true ∧
          (e.tls_ok out
              (lit "HTTP/1.1 401 Unauthorized\r\nX-Reason: Authentication failed\r\n\r\n") =
              true →
            (post_auth_handler k e ws0 http_ver out).out = out ++
              [lit "HTTP/1.1 401 Unauthorized\r\nX-Reason: Authentication failed\r\n\r\n"]) ∧
          (e.tls_ok out
              (lit "HTTP/1.1 401 Unauthorized\r\nX-Reason: Authentication failed\r\n\r\n") =
              false →
            (post_auth_handler k e ws0 http_ver out).out = out))) := by
  have hzero : k.ERR_AUTH_FAIL ≠ 0 := by omega
  constructor
  · rcases recv_auth_reply_ok_cases k e ws txt n m hrecv hok with ⟨hc, hr⟩ | ⟨hc, hr⟩
    · exact ⟨fun _ => hc, fun _ => hr⟩
    · refine ⟨fun h => ?_, fun h => absurd h hc⟩
      rw [hr] at h
      exact absurd h hzero
  · intro hinc
    have hall : ∀ ws1 txt1 n1, (recv_auth_reply k e ws1 txt1 n1).1 = k.ERR_AUTH_FAIL := by
      intro ws1 txt1 n1
      rcases recv_auth_reply_ok_cases k e ws1 txt1 n1 m hrecv hok with ⟨hc, _⟩ | ⟨_, hr⟩
      · exact absurd hc hinc
      · exact hr
    refine ⟨hall ws txt n, fun e1 m1 h1 h2 => ?_, fun ws0 http_ver out hstate => ?_⟩
    · rw [hall ws txt n]
      exact recv_auth_reply_failed k e1 ws txt n m1 h1 h2
    · obtain ⟨hs, hsent⟩ := post_auth_handler_refused k e ws0 http_ver out hneg hne
        (fun ws1 => hall ws1 _ _) hstate
      refine ⟨hs, fun hne2 => ?_⟩
      obtain ⟨ws1, hres⟩ := hsent hne2
      have htext : lit "HTTP/1.1 401 Unauthorized\r\nX-Reason: " ++
          cstr (lit "Authentication failed") ++ lit "\r\n\r\n" =
          lit "HTTP/1.1 401 Unauthorized\r\nX-Reason: Authentication failed\r\n\r\n" := by
        decide
      have hout := auth_fail_out e ws1 out (post_auth_handler k e ws0 http_ver out).sent
        (lit "Authentication failed")
      rw [htext, ← hres] at hout
      rw [hres]
      refine ⟨rfl, rfl, ?_, ?_⟩
      · rw [← hres]
        exact hout.1
      · rw [← hres]
        exact hout.2

set_option maxRecDepth 100000 in
/-- C20 for an OK reply without a cookie, the constants `ERR_AUTH_FAIL` and `ERR_AUTH_CONTINUE`
being -3 and -4: `recv_auth_reply` returns -3, and the POST of `username=alice&password=secret`
on a fresh session is answered by the 401 response, the session left in state INIT. -/
theorem ok_reply_complete_iff_witness :
    ((env_ok (.msg reply_ok_no_cookie_example)).recv = .msg reply_ok_no_cookie_example ∧
      reply_ok_no_cookie_example.reply = .OK ∧ consts_ref.ERR_AUTH_FAIL < 0 ∧
      consts_ref.ERR_AUTH_FAIL ≠ consts_ref.ERR_AUTH_CONTINUE) ∧
    ((recv_auth_reply consts_ref (env_ok (.msg reply_ok_no_cookie_example)) {} none 0).1 =
        -3 ∧
      (post_auth_handler consts_ref (env_ok (.msg reply_ok_no_cookie_example))
        (session_with_body "username=alice&password=secret") 1 []).out =
        [lit "HTTP/1.1 401 Unauthorized\r\nX-Reason: Authentication failed\r\n\r\n"] ∧
      (post_auth_handler consts_ref (env_ok (.msg reply_ok_no_cookie_example))
        (session_with_body "username=alice&password=secret") 1 []).ws.auth_state =
        .S_AUTH_INIT) ∧
    ((recv_auth_reply consts_ref (env_ok (.msg reply_ok_no_cookie_example)) {} none 0).1 = 0 ↔
      reply_ok_no_cookie_example.user_name ≠ none ∧
        reply_ok_no_cookie_example.has_cookie = true ∧
        0 < reply_ok_no_cookie_example.cookie.length ∧
        reply_ok_no_cookie_example.dtls_session_id.length = consts_ref.SESSION_ID_SIZE) :=
  ⟨⟨rfl, rfl, by decide, by decide⟩, ⟨by decide, by decide, by decide⟩,
   (ok_reply_complete_iff consts_ref (env_ok (.msg reply_ok_no_cookie_example)) {} none 0
     reply_ok_no_cookie_example rfl rfl (by decide) (by decide)).1⟩


/-! ## The success document for a banner that fits -/

/-- The text `snprintf` formats for the banner is stored whole when it fits `msg`. -/
theorem banner_text_fits (k : Consts) (b : List Byte)
    (hfit : (cstr b).length + 17 ≤ k.MAX_BANNER_SIZE + 31) :
    cstr (snprintf_buf (k.MAX_BANNER_SIZE + 32) (lit "<banner>" ++ cstr b ++ lit "</banner>")) =
      lit "<banner>" ++ cstr b ++ lit "</banner>" := by
  have hl : (lit "<banner>" ++ cstr b ++ lit "</banner>").length = (cstr b).length + 17 := by
    rw [List.length_append, List.length_append]
    have h1 : (lit "<banner>").length = 8 := by decide
    have h2 : (lit "</banner>").length = 9 := by decide
    omega
  unfold snprintf_buf
  rw [List.take_of_length_le (by omega)]
  apply cstr_of_no_nul
  intro c hc
  rcases List.mem_append.1 hc with h | h
  · rcases List.mem_append.1 h with h | h
    · intro h0
      rw [h0] at h
      exact absurd h (by decide)
    · exact cstr_no_nul b c h
  · intro h0
    rw [h0] at h
    exact absurd h (by decide)

/-- The second block of cookies of `post_common_handler` only appends to the output. -/
theorem compat_cookies_append (k : Consts) (e : Env) (ws : Session) (o o1 : Tls)
    (h : (if k.ANYCONNECT_CLIENT_COMPAT then
           match tls_write e o
             (lit "Set-Cookie: webvpnc=; expires=Thu, 01 Jan 1970 22:00:00 GMT; path=/; Secure\r\n") with
           | none => none
           | some out =>
             match ws.config.xml_config_file with
             | some file =>
               tls_write e out (lit "Set-Cookie: webvpnc=bu:/&p:t&iu:1/&sh:" ++
                 cstr ws.config.cert_hash ++
                 lit "&lu:/+CSCOT+/translation-table?textdomain%3DAnyConnect%26type%3Dmanifest&fu:profiles%2F" ++
                 cstr file ++ lit "&fh:" ++ cstr ws.config.xml_config_hash ++
                 lit "; path=/; Secure\r\n")
             | none =>
               tls_write e out (lit "Set-Cookie: webvpnc=bu:/&p:t&iu:1/&sh:" ++
                 cstr ws.config.cert_hash ++ lit "; path=/; Secure\r\n")
         else some o) = some o1) :
    ∃ mid, o1 = o ++ mid := by
  split at h
  · split at h
    · cases h
    · rename_i o2 h2
      split at h
      · exact ⟨_, by rw [tls_write_eq h, tls_write_eq h2, List.append_assoc]⟩
      · exact ⟨_, by rw [tls_write_eq h, tls_write_eq h2, List.append_assoc]⟩
  · exact ⟨[], by rw [List.append_nil]; exact (Option.some.inj h).symm⟩


/-- For a banner whose element fits the buffer `msg` (and without a banner), a successful
`post_common_handler` announces in `Content-Length:` the length of the body it writes after the
blank line, and that body is `SUCCESS_MSG_HEAD`, the banner element when a banner is
configured, and `SUCCESS_MSG_FOOT`. -/
theorem post_common_handler_fits (k : Consts) (e : Env) (ws : Session) (http_ver : Nat)
    (out : Tls)
    (hret : (post_common_handler k e ws http_ver out).1 = 0)
    (hfit : ∀ b, ws.config.banner = some b → (cstr b).length + 17 ≤ k.MAX_BANNER_SIZE + 31)
    (hk : k.MAX_BANNER_SIZE + 31 + SUCCESS_MSG_HEAD.length + SUCCESS_MSG_FOOT.length <
      4294967296) :
    ∃ pre mid body, (post_common_handler k e ws http_ver out).2 =
        out ++ pre ++ [lit "Content-Length: " ++ lit (Nat.repr body.length) ++ lit "\r\n"] ++
          mid ++ [lit "\r\n" ++ body] ∧
      body = SUCCESS_MSG_HEAD ++
        (match ws.config.banner with
         | some b => lit "<banner>" ++ cstr b ++ lit "</banner>"
         | none => []) ++ SUCCESS_MSG_FOOT := by
  have htext : cstr (snprintf_buf (k.MAX_BANNER_SIZE + 32)
      (match ws.config.banner with
       | some b => lit "<banner>" ++ cstr b ++ lit "</banner>"
       | none => [])) =
      (match ws.config.banner with
       | some b => lit "<banner>" ++ cstr b ++ lit "</banner>"
       | none => []) := by
    cases hb : ws.config.banner with
    | none => rfl
    | some b => exact banner_text_fits k b (hfit b hb)
  have hsize : (match ws.config.banner with
       | some b => lit "<banner>" ++ cstr b ++ lit "</banner>"
       | none => ([] : List Byte)).length ≤ k.MAX_BANNER_SIZE + 31 := by
    cases hb : ws.config.banner with
    | none => simp
    | some b =>
      have := hfit b hb
      simp only [List.length_append]
      have h1 : (lit "<banner>").length = 8 := by decide
      have h2 : (lit "</banner>").length = 9 := by decide
      omega
  revert hret
  unfold post_common_handler
  dsimp only
  split
  · intro h; simp at h
  rename_i o1 h1
  split
  · intro h; simp at h
  rename_i o2 h2
  split
  · intro h; simp at h
  rename_i o3 h3
  split
  · intro h; simp at h
  split
  · intro h; simp at h
  rename_i o4 h4
  split
  · intro h; simp at h
  rename_i o5 h5
  split
  · intro h; simp at h
  rename_i o6 h6
  split
  · intro h; simp at h
  rename_i o7 h7
  split
  · intro h; simp at h
  rename_i o8 h8
  split
  · intro _
    obtain ⟨mid, hmid⟩ := compat_cookies_append k e ws o6 o7 h7
    refine ⟨[lit "HTTP/1." ++ fmt_u http_ver ++ lit " 200 OK\r\n",
      lit "Connection: Keep-Alive\r\n", lit "Content-Type: text/xml\r\n"],
      [lit "X-Transcend-Version: 1\r\n",
       lit "Set-Cookie: webvpn=" ++ cstr (e.base64_encode
         ((match ws.cookie with | some c => c | none => []).take ws.cookie_size)) ++
         lit "; Secure\r\n"] ++ mid, _, ?_, rfl⟩
    show o8 = _
    rw [tls_write_eq h8, hmid, tls_write_eq h6, tls_write_eq h5, tls_write_eq h4,
      tls_write_eq h3, tls_write_eq h2, tls_write_eq h1, htext]
    have hfmt : fmt_u (snprintf_ret (match ws.config.banner with
        | some b => lit "<banner>" ++ cstr b ++ lit "</banner>"
        | none => []) + SUCCESS_MSG_HEAD.length + SUCCESS_MSG_FOOT.length) =
        lit (Nat.repr (SUCCESS_MSG_HEAD ++ (match ws.config.banner with
          | some b => lit "<banner>" ++ cstr b ++ lit "</banner>"
          | none => []) ++ SUCCESS_MSG_FOOT).length) := by
      have hlen : (SUCCESS_MSG_HEAD ++ (match ws.config.banner with
          | some b => lit "<banner>" ++ cstr b ++ lit "</banner>"
          | none => []) ++ SUCCESS_MSG_FOOT).length =
          (match ws.config.banner with
          | some b => lit "<banner>" ++ cstr b ++ lit "</banner>"
          | none => ([] : List Byte)).length + SUCCESS_MSG_HEAD.length +
            SUCCESS_MSG_FOOT.length := by
        rw [List.length_append, List.length_append]
        omega
      unfold fmt_u snprintf_ret
      rw [Nat.mod_eq_of_lt (by omega), hlen]
    rw [hfmt]
    simp only [List.append_assoc, List.cons_append, List.nil_append]
  · intro h; simp at h


/-! ## C22: a MSG reply and the sid -/

/-- C22: for a MSG reply that carries a text and a sid of exactly `sizeof(ws->sid)` bytes,
received into a buffer `txt` that is not NULL, `recv_auth_reply` leaves the reply's sid in the
session and `sid_set = 1`; for every other MSG reply (no sid, a sid of another length, no text,
or no buffer) the session's sid and `sid_set` are unchanged. -/
theorem msg_reply_sid (k : Consts) (e : Env) (ws : Session) (txt : Option (List Byte))
    (n : Nat) (m : SecAuthReplyMsg) (hrecv : e.recv = .msg m) (hmsg : m.reply = .MSG) :
    (txt ≠ none ∧ m.msg ≠ none ∧ m.has_sid = true ∧ m.sid.length = k.SID_SIZE →
      (recv_auth_reply k e ws txt n).2.1.sid = m.sid ∧
      (recv_auth_reply k e ws txt n).2.1.sid_set = 1) ∧
    (¬ (txt ≠ none ∧ m.msg ≠ none ∧ m.has_sid = true ∧ m.sid.length = k.SID_SIZE) →
      (recv_auth_reply k e ws txt n).2.1.sid = ws.sid ∧
      (recv_auth_reply k e ws txt n).2.1.sid_set = ws.sid_set) := by
  cases txt with
  | none =>
    unfold recv_auth_reply
    rw [hrecv]
    dsimp only
    rw [hmsg]
    exact ⟨fun h => absurd rfl h.1, fun _ => ⟨rfl, rfl⟩⟩
  | some t =>
    cases hm : m.msg with
    | none =>
      unfold recv_auth_reply
      rw [hrecv]
      dsimp only
      rw [hmsg]
      dsimp only
      rw [hm]
      exact ⟨fun h => absurd rfl h.2.1, fun _ => ⟨rfl, rfl⟩⟩
    | some text =>
      unfold recv_auth_reply
      rw [hrecv]
      dsimp only
      rw [hmsg]
      dsimp only
      rw [hm]
      dsimp only
      by_cases hs : m.has_sid = true ∧ m.sid.length = k.SID_SIZE
      · rw [if_pos hs]
        exact ⟨fun _ => ⟨rfl, rfl⟩, fun h => absurd ⟨by simp, by simp, hs.1, hs.2⟩ h⟩
      · rw [if_neg hs]
        exact ⟨fun h => absurd ⟨h.2.2.1, h.2.2.2⟩ hs, fun _ => ⟨rfl, rfl⟩⟩

/-- C22 for the reply of scenario S1: the prompt `OTP?` with a 12-byte sid. -/
theorem msg_reply_sid_witness :
    ((env_ok (.msg reply_msg_example)).recv = .msg reply_msg_example ∧
      reply_msg_example.reply = .MSG) ∧
    (recv_auth_reply consts_ref (env_ok (.msg reply_msg_example)) {} (some []) 256).2.1.sid =
      [1, 2, 3, 4, 5, 6, 7, 8, 9, 10, 11, 12] ∧
    (recv_auth_reply consts_ref (env_ok (.msg reply_msg_example)) {} (some []) 256).2.1.sid_set
      = 1 :=
  ⟨⟨rfl, rfl⟩,
   (msg_reply_sid consts_ref (env_ok (.msg reply_msg_example)) {} (some []) 256
     reply_msg_example rfl rfl).1 ⟨by decide, by decide, rfl, rfl⟩⟩

/-- C22 read to the letter fails for a MSG reply whose sid is not `sizeof(ws->sid)` bytes long
(here 5 bytes, the size being 12) and for one that carries a sid and no text: the session's sid
stays empty and `sid_set` stays 0. -/
theorem msg_reply_sid_counterexample :
    (reply_msg_short_sid_example.reply = .MSG ∧
      reply_msg_short_sid_example.has_sid = true ∧
      (recv_auth_reply consts_ref (env_ok (.msg reply_msg_short_sid_example)) {} (some [])
        256).2.1.sid = [] ∧
      (recv_auth_reply consts_ref (env_ok (.msg reply_msg_short_sid_example)) {} (some [])
        256).2.1.sid_set = 0) ∧
    (reply_msg_no_text_example.reply = .MSG ∧
      reply_msg_no_text_example.has_sid = true ∧
      reply_msg_no_text_example.sid.length = consts_ref.SID_SIZE ∧
      (recv_auth_reply consts_ref (env_ok (.msg reply_msg_no_text_example)) {} (some [])
        256).2.1.sid = [] ∧
      (recv_auth_reply consts_ref (env_ok (.msg reply_msg_no_text_example)) {} (some [])
        256).2.1.sid_set = 0) :=
  ⟨⟨rfl, rfl, by decide, by decide⟩, rfl, rfl, by decide, by decide, by decide⟩


/-! ## C21: a MSG reply asks for the password again -/

/-- In state REQ `get_auth_handler2` succeeds when every write and every allocation does. -/
theorem get_auth_handler2_req_succeeds (k : Consts) (e : Env) (ws : Session) (http_ver : Nat)
    (pmsg : Option (List Byte)) (out : Tls) (h : ws.auth_state = .S_AUTH_REQ)
    (htls : ∀ o d, e.tls_ok o d = true) (hstr : ∀ s d, e.str_ok s d = true)
    (hunc : ∀ o, e.uncork_ok o = true) :
    (get_auth_handler2 k e ws http_ver pmsg out).1 = 0 := by
  unfold get_auth_handler2 get_auth_handler2_str
  by_cases hs : ws.sid_set = 0
  · simp only [tls_write, str_append_str, htls, hstr, hunc, h, hs, if_true, ne_eq,
      not_true_eq_false, if_false]
  · simp only [tls_write, str_append_str, htls, hstr, hunc, h, hs, if_true, ne_eq,
      not_false_eq_true]

/-- What `recv_auth_reply` returns for a MSG reply with a text. -/
theorem recv_auth_reply_msg (k : Consts) (e : Env) (ws : Session) (t : List Byte) (n : Nat)
    (m : SecAuthReplyMsg) (text : List Byte)
    (hrecv : e.recv = .msg m) (hmsg : m.reply = .MSG) (htext : m.msg = some text) :
    (recv_auth_reply k e ws (some t) n).1 = k.ERR_AUTH_CONTINUE ∧
    (recv_auth_reply k e ws (some t) n).2.2 = some (snprintf_buf n (cstr text)) := by
  unfold recv_auth_reply
  rw [hrecv]
  dsimp only
  rw [hmsg]
  dsimp only
  rw [htext]
  exact ⟨rfl, rfl⟩

theorem post_auth_reply_reprompted (k : Consts) (e : Env) (ws : Session) (http_ver : Nat)
    (out : Tls) (sent : List SecmodMsg) (m : SecAuthReplyMsg) (text : List Byte)
    (hrecv : e.recv = .msg m) (hmsg : m.reply = .MSG) (htext : m.msg = some text) :
    Reprompted k e http_ver (snprintf_buf k.MAX_MSG_SIZE (cstr text)) out
      (post_auth_reply k e ws http_ver out sent) := by
  obtain ⟨h1, h2⟩ := recv_auth_reply_msg k e ws e.stack_msg k.MAX_MSG_SIZE m text hrecv hmsg
    htext
  intro _
  unfold post_auth_reply
  dsimp only
  rw [if_pos h1, h2]
  exact ⟨_, rfl, rfl, rfl, rfl, rfl⟩

theorem post_auth_send_init_reprompted (k : Consts) (e : Env) (ws : Session) (http_ver : Nat)
    (out : Tls) (ireq : SecAuthInitMsg) (m : SecAuthReplyMsg) (text : List Byte)
    (hrecv : e.recv = .msg m) (hmsg : m.reply = .MSG) (htext : m.msg = some text) :
    Reprompted k e http_ver (snprintf_buf k.MAX_MSG_SIZE (cstr text)) out
      (post_auth_send_init k e ws http_ver out ireq) := by
  unfold post_auth_send_init
  repeat' split
  all_goals first
    | exact fun h => absurd rfl h
    | exact post_auth_reply_reprompted k e _ http_ver out _ m text hrecv hmsg htext

theorem post_auth_cert_reprompted (k : Consts) (e : Env) (ws : Session) (http_ver : Nat)
    (out : Tls) (ireq : SecAuthInitMsg) (m : SecAuthReplyMsg) (text : List Byte)
    (hrecv : e.recv = .msg m) (hmsg : m.reply = .MSG) (htext : m.msg = some text) :
    Reprompted k e http_ver (snprintf_buf k.MAX_MSG_SIZE (cstr text)) out
      (post_auth_cert k e ws http_ver out ireq) := by
  unfold post_auth_cert
  repeat' split
  all_goals first
    | exact fun h => absurd rfl h
    | exact post_auth_send_init_reprompted k e _ http_ver out _ m text hrecv hmsg htext

theorem post_auth_inactive_reprompted (k : Consts) (e : Env) (ws : Session) (http_ver : Nat)
    (out : Tls) (m : SecAuthReplyMsg) (text : List Byte)
    (hrecv : e.recv = .msg m) (hmsg : m.reply = .MSG) (htext : m.msg = some text) :
    Reprompted k e http_ver (snprintf_buf k.MAX_MSG_SIZE (cstr text)) out
      (post_auth_inactive k e ws http_ver out) := by
  unfold post_auth_inactive
  repeat' split
  all_goals first
    | exact fun h => absurd rfl h
    | exact post_auth_cert_reprompted k e _ http_ver out _ m text hrecv hmsg htext

theorem post_auth_cont_reprompted (k : Consts) (e : Env) (ws : Session) (http_ver : Nat)
    (out : Tls) (m : SecAuthReplyMsg) (text : List Byte)
    (hrecv : e.recv = .msg m) (hmsg : m.reply = .MSG) (htext : m.msg = some text) :
    Reprompted k e http_ver (snprintf_buf k.MAX_MSG_SIZE (cstr text)) out
      (post_auth_cont k e ws http_ver out) := by
  unfold post_auth_cont
  repeat' first | split | dsimp only
  all_goals first
    | exact fun h => absurd rfl h
    | exact post_auth_reply_reprompted k e _ http_ver out _ m text hrecv hmsg htext

theorem post_auth_handler_reprompted (k : Consts) (e : Env) (ws : Session) (http_ver : Nat)
    (out : Tls) (m : SecAuthReplyMsg) (text : List Byte)
    (hrecv : e.recv = .msg m) (hmsg : m.reply = .MSG) (htext : m.msg = some text) :
    Reprompted k e http_ver (snprintf_buf k.MAX_MSG_SIZE (cstr text)) out
      (post_auth_handler k e ws http_ver out) := by
  unfold post_auth_handler
  dsimp only
  split
  · exact post_auth_inactive_reprompted k e _ http_ver out m text hrecv hmsg htext
  · exact post_auth_cont_reprompted k e _ http_ver out m text hrecv hmsg htext
  · exact post_auth_cont_reprompted k e _ http_ver out m text hrecv hmsg htext
  · exact fun h => absurd rfl h


/-- The text `snprintf` leaves in a buffer is a C string of its own. -/
theorem cstr_snprintf_buf (n : Nat) (text : List Byte) :
    cstr (snprintf_buf n (cstr text)) = (cstr text).take (n - 1) := by
  unfold snprintf_buf
  exact cstr_of_no_nul _ (fun b hb => cstr_no_nul text b (List.mem_of_mem_take hb))

/-- C21: for every POST on which `post_auth_handler` sent an init or a continuation message and
the security module replied MSG with the text `m`, the handler ends with `auth_state = REQ` and
returns what `get_auth_handler2` returns; when that is 0 the body of the response is
`login_msg_no_user_start`, then the first `MAX_MSG_SIZE - 1` bytes of `m` (what fits the
buffer `msg` with its NUL), then `login_msg_no_user_end`; and it is 0 whenever every write and
every allocation succeeds. -/
theorem msg_reply_reprompts (k : Consts) (e : Env) (ws : Session) (http_ver : Nat) (out : Tls)
    (m : SecAuthReplyMsg) (text : List Byte)
    (hrecv : e.recv = .msg m) (hmsg : m.reply = .MSG) (htext : m.msg = some text)
    (hsent : (post_auth_handler k e ws http_ver out).sent ≠ []) :
    (post_auth_handler k e ws http_ver out).ws.auth_state = .S_AUTH_REQ ∧
    (post_auth_handler k e ws http_ver out).fatal_close = false ∧
    (∃ r, (post_auth_handler k e ws http_ver out).outcome = .returned r ∧
      (r = 0 → (post_auth_handler k e ws http_ver out).out.getLast? =
        some (login_msg_no_user_start ++ (cstr text).take (k.MAX_MSG_SIZE - 1) ++
          login_msg_no_user_end))) ∧
    ((∀ o d, e.tls_ok o d = true) → (∀ s d, e.str_ok s d = true) →
      (∀ o, e.uncork_ok o = true) →
      (post_auth_handler k e ws http_ver out).outcome = .returned 0) := by
  obtain ⟨ws1, hs, ho, hw, hout, hf⟩ :=
    post_auth_handler_reprompted k e ws http_ver out m text hrecv hmsg htext hsent
  refine ⟨?_, hf, ⟨_, ho, fun hr => ?_⟩, fun htls hstr hunc => ?_⟩
  · rw [hw, get_auth_handler2_auth_state]
    exact hs
  · obtain ⟨str, h1, h2⟩ := get_auth_handler2_document k e ws1 http_ver _ out hr
    have h3 := ((get_auth_handler2_str_eq k e ws1 _ _ str h1).1 hs).2
    rw [hout, h2, h3]
    have hp : password_prompt (some (snprintf_buf k.MAX_MSG_SIZE (cstr text))) =
        snprintf_buf k.MAX_MSG_SIZE (cstr text) := rfl
    rw [hp, cstr_snprintf_buf]
  · rw [ho, get_auth_handler2_req_succeeds k e ws1 http_ver _ out hs htls hstr hunc]

set_option maxRecDepth 100000 in
/-- C21 at scenario S1: the POST of `username=alice&password=secret` on a fresh session,
answered by the security module with the prompt `OTP?`. -/
theorem msg_reply_reprompts_witness :
    ((env_ok (.msg reply_msg_example)).recv = .msg reply_msg_example ∧
      reply_msg_example.reply = .MSG ∧ reply_msg_example.msg = some (lit "OTP?") ∧
      (post_auth_handler consts_ref (env_ok (.msg reply_msg_example))
        (session_with_body "username=alice&password=secret") 1 []).sent ≠ []) ∧
    (post_auth_handler consts_ref (env_ok (.msg reply_msg_example))
      (session_with_body "username=alice&password=secret") 1 []).ws.auth_state =
      .S_AUTH_REQ ∧
    (post_auth_handler consts_ref (env_ok (.msg reply_msg_example))
      (session_with_body "username=alice&password=secret") 1 []).outcome = .returned 0 ∧
    (post_auth_handler consts_ref (env_ok (.msg reply_msg_example))
      (session_with_body "username=alice&password=secret") 1 []).out.getLast? =
      some (login_msg_no_user_start ++ lit "OTP?" ++ login_msg_no_user_end) := by
  have h := msg_reply_reprompts consts_ref (env_ok (.msg reply_msg_example))
    (session_with_body "username=alice&password=secret") 1 [] reply_msg_example (lit "OTP?")
    rfl rfl rfl (by decide)
  exact ⟨⟨rfl, rfl, rfl, by decide⟩, h.1,
    h.2.2.2 (fun _ _ => rfl) (fun _ _ => rfl) (fun _ => rfl), by decide⟩


/-! ## C23: the group chosen by the client -/

theorem get_cert_names_groupname (k : Consts) (e : Env) (ws : Session) (crt : PeerCert) :
    (get_cert_names k e ws crt).2.groupname = ws.groupname := by
  unfold get_cert_names
  repeat' first | split | dsimp only

theorem get_auth_handler2_str_groupname (k : Consts) (e : Env) (ws : Session)
    (pmsg : Option (List Byte)) :
    (get_auth_handler2_str k e ws pmsg).2.groupname = ws.groupname := by
  unfold get_auth_handler2_str
  repeat' first | split | dsimp only
  all_goals exact (get_cert_info_frame k e ws).2.2

theorem get_auth_handler2_groupname (k : Consts) (e : Env) (ws : Session) (http_ver : Nat)
    (pmsg : Option (List Byte)) (out : Tls) :
    (get_auth_handler2 k e ws http_ver pmsg out).2.1.groupname = ws.groupname := by
  have h := get_auth_handler2_str_groupname k e ws pmsg
  unfold get_auth_handler2
  repeat' first | split | dsimp only
  all_goals simp_all

theorem recv_auth_reply_groupname (k : Consts) (e : Env) (ws : Session)
    (txt : Option (List Byte)) (n : Nat) :
    (recv_auth_reply k e ws txt n).2.1.groupname = ws.groupname := by
  unfold recv_auth_reply
  repeat' first | split | dsimp only

theorem post_auth_reply_group (k : Consts) (e : Env) (ws : Session) (http_ver : Nat)
    (out : Tls) (ireq : SecAuthInitMsg) :
    GroupStored ws.groupname ireq.group_name
      (post_auth_reply k e ws http_ver out [.init ireq]) := by
  have hr := recv_auth_reply_groupname k e ws (some e.stack_msg) k.MAX_MSG_SIZE
  have hsent : ∀ msg ∈ [SecmodMsg.init ireq],
      ∃ i : SecAuthInitMsg, msg = .init i ∧ i.group_name = ireq.group_name := by
    intro msg hm
    rw [List.mem_singleton] at hm
    exact ⟨ireq, hm, rfl⟩
  unfold post_auth_reply
  dsimp only
  split
  · refine ⟨?_, hsent⟩
    show (get_auth_handler2 k e _ http_ver _ out).2.1.groupname = _
    rw [get_auth_handler2_groupname]
    exact hr
  · split
    · exact ⟨hr, hsent⟩
    · exact ⟨hr, hsent⟩

theorem auth_fail_group (e : Env) (ws : Session) (out : Tls) (reason : List Byte)
    (gn : Option (List Byte)) :
    GroupStored ws.groupname gn (auth_fail e ws out [] reason) :=
  ⟨rfl, fun _ h => by cases h⟩

theorem post_auth_send_init_group (k : Consts) (e : Env) (ws : Session) (http_ver : Nat)
    (out : Tls) (ireq : SecAuthInitMsg) :
    GroupStored ws.groupname ireq.group_name
      (post_auth_send_init k e ws http_ver out ireq) := by
  unfold post_auth_send_init
  repeat' split
  · exact auth_fail_group e ws out _ _
  · exact auth_fail_group e ws out _ _
  · exact post_auth_reply_group k e { ws with auth_state := .S_AUTH_INIT } http_ver out ireq

theorem post_auth_cert_group (k : Consts) (e : Env) (ws : Session) (http_ver : Nat)
    (out : Tls) (ireq : SecAuthInitMsg) :
    GroupStored ws.groupname ireq.group_name (post_auth_cert k e ws http_ver out ireq) := by
  have hc := (get_cert_info_frame k e ws).2.2
  unfold post_auth_cert
  repeat' split
  · exact auth_fail_group e ws out _ _
  · rw [← hc]
    exact auth_fail_group e _ out _ _
  · rw [← hc]
    exact post_auth_send_init_group k e _ http_ver out _
  · exact post_auth_send_init_group k e ws http_ver out _


/-- What the branch INACTIVE does with a group field that parses to `g`. -/
theorem post_auth_handler_group (k : Consts) (e : Env) (ws : Session) (http_ver : Nat)
    (out : Tls) (g : List Byte)
    (hstate : ws.auth_state = .S_AUTH_INACTIVE) (hsid : ws.sid_set = 0)
    (hpass : (ws.config.auth_types &&& k.AUTH_TYPE_USERNAME_PASS) ≠ 0)
    (hg : parse_reply e ws.req.body ws.req.body_length GROUPNAME_FIELD
      (some GROUPNAME_FIELD_XML) = .ok g) :
    GroupStored (store_groupname k ws (.ok g)).groupname (init_group_name k ws (.ok g))
      (post_auth_handler k e ws http_ver out) := by
  unfold post_auth_handler
  have hnot : ¬ (ws.sid_set ≠ 0 ∧ ws.auth_state = .S_AUTH_INACTIVE) := fun h => h.1 hsid
  dsimp only
  rw [if_neg hnot, hstate]
  dsimp only
  unfold post_auth_inactive
  rw [if_pos hpass, hg]
  dsimp only
  split
  · exact post_auth_cert_group k e _ http_ver out _
  · refine ⟨?_, fun _ h => by cases h⟩
    show (get_auth_handler2 k e _ http_ver none out).2.1.groupname = _
    rw [get_auth_handler2_groupname]

/-- C23: for a session in state INACTIVE with no sid and password authentication enabled, and a
POST body whose group field parses to a value `g`: if `default_select_group` is configured and
`strcmp` finds `g` equal to it, `ws.groupname` is left unchanged and every `SecAuthInit` message
sent carries no `group_name`; otherwise `ws.groupname` becomes `g` as `snprintf` stores it in
the name buffer and every `SecAuthInit` message sent carries that stored name. Only
`SecAuthInit` messages are sent, and one is sent when the username parses, certificate
authentication is off and the security module can be reached. -/
theorem group_selection (k : Consts) (e : Env) (ws : Session) (http_ver : Nat)
    (out : Tls) (g : List Byte)
    (hstate : ws.auth_state = .S_AUTH_INACTIVE) (hsid : ws.sid_set = 0)
    (hpass : (ws.config.auth_types &&& k.AUTH_TYPE_USERNAME_PASS) ≠ 0)
    (hg : parse_reply e ws.req.body ws.req.body_length GROUPNAME_FIELD
      (some GROUPNAME_FIELD_XML) = .ok g) :
    ((∃ d, ws.config.default_select_group = some d ∧ strcmp_eq g d = true) →
      (post_auth_handler k e ws http_ver out).ws.groupname = ws.groupname ∧
      ∀ msg ∈ (post_auth_handler k e ws http_ver out).sent,
        ∃ ireq : SecAuthInitMsg, msg = .init ireq ∧ ireq.group_name = none) ∧
    (¬ (∃ d, ws.config.default_select_group = some d ∧ strcmp_eq g d = true) →
      (post_auth_handler k e ws http_ver out).ws.groupname =
        snprintf_buf k.MAX_GROUPNAME_SIZE (cstr g) ∧
      ∀ msg ∈ (post_auth_handler k e ws http_ver out).sent,
        ∃ ireq : SecAuthInitMsg, msg = .init ireq ∧
          ireq.group_name = some (snprintf_buf k.MAX_GROUPNAME_SIZE (cstr g))) ∧
    (∀ u, parse_reply e ws.req.body ws.req.body_length USERNAME_FIELD none = .ok u →
      (ws.config.auth_types &&& k.AUTH_TYPE_CERTIFICATE) = 0 →
      e.connect_ok = true → e.send_ok = true →
      (post_auth_handler k e ws http_ver out).sent ≠ []) := by
  have hmain := post_auth_handler_group k e ws http_ver out g hstate hsid hpass hg
  refine ⟨fun hd => ?_, fun hd => ?_, fun u hu hcert hconn hsend => ?_⟩
  · obtain ⟨d, h1, h2⟩ := hd
    have hs : (store_groupname k ws (.ok g)).groupname = ws.groupname := by
      unfold store_groupname
      dsimp only
      rw [h1]
      dsimp only
      rw [if_pos h2]
    have hi : init_group_name k ws (.ok g) = none := by
      unfold init_group_name
      dsimp only
      rw [h1]
      dsimp only
      rw [if_pos h2]
    rw [hs, hi] at hmain
    exact hmain
  · have hs : (store_groupname k ws (.ok g)).groupname =
        snprintf_buf k.MAX_GROUPNAME_SIZE (cstr g) ∧
        init_group_name k ws (.ok g) = some (snprintf_buf k.MAX_GROUPNAME_SIZE (cstr g)) := by
      unfold store_groupname init_group_name
      dsimp only
      cases h1 : ws.config.default_select_group with
      | none => exact ⟨rfl, rfl⟩
      | some d =>
        dsimp only
        have h2 : ¬ strcmp_eq g d = true := fun h => hd ⟨d, h1, h⟩
        rw [if_neg h2, if_neg h2]
        exact ⟨rfl, rfl⟩
    rw [hs.1, hs.2] at hmain
    exact hmain
  · unfold post_auth_handler
    have hnot : ¬ (ws.sid_set ≠ 0 ∧ ws.auth_state = .S_AUTH_INACTIVE) := fun h => h.1 hsid
    dsimp only
    rw [if_neg hnot, hstate]
    dsimp only
    unfold post_auth_inactive
    rw [if_pos hpass, hg]
    dsimp only
    rw [hu]
    dsimp only
    unfold post_auth_cert
    have hc : ¬ ((store_groupname k ws (.ok g)).config.auth_types &&&
        k.AUTH_TYPE_CERTIFICATE) ≠ 0 := by
      rw [(store_groupname_frame k ws _).1]
      exact fun h => h hcert
    dsimp only
    rw [if_neg hc]
    unfold post_auth_send_init
    rw [if_neg (by rw [hconn]; simp), if_neg (by rw [hsend]; simp)]
    have hsent : ∀ ws1 sent, (post_auth_reply k e ws1 http_ver out sent).sent = sent := by
      intro ws1 sent
      unfold post_auth_reply
      dsimp only
      repeat' split
      all_goals rfl
    rw [hsent]
    simp


set_option maxRecDepth 100000 in
/-- C23 on a server whose default group is `Select group`, for a session that holds the group
`staff`: the body `group%5flist=admins&username=alice` stores `admins` and sends it, the body
`group%5flist=Select%20group&username=alice` leaves `staff` and sends no group. -/
theorem group_selection_witness :
    ((session_default_group "group%5flist=admins&username=alice").auth_state =
        .S_AUTH_INACTIVE ∧
      (session_default_group "group%5flist=admins&username=alice").sid_set = 0 ∧
      ((session_default_group "group%5flist=admins&username=alice").config.auth_types &&&
        consts_ref.AUTH_TYPE_USERNAME_PASS) ≠ 0 ∧
      parse_reply (env_ok (.msg reply_msg_example))
        (session_default_group "group%5flist=admins&username=alice").req.body
        (session_default_group "group%5flist=admins&username=alice").req.body_length
        GROUPNAME_FIELD (some GROUPNAME_FIELD_XML) = .ok (lit "admins")) ∧
    ((post_auth_handler consts_ref (env_ok (.msg reply_msg_example))
        (session_default_group "group%5flist=admins&username=alice") 1 []).ws.groupname =
        lit "admins" ∧
      (post_auth_handler consts_ref (env_ok (.msg reply_msg_example))
        (session_default_group "group%5flist=admins&username=alice") 1 []).sent =
        [.init { user_name := some (lit "alice"), group_name := some (lit "admins"),
                 ip := lit "192.0.2.7" }]) ∧
    ((post_auth_handler consts_ref (env_ok (.msg reply_msg_example))
        (session_default_group "group%5flist=Select%20group&username=alice") 1
        []).ws.groupname = lit "staff" ∧
      (post_auth_handler consts_ref (env_ok (.msg reply_msg_example))
        (session_default_group "group%5flist=Select%20group&username=alice") 1 []).sent =
        [.init { user_name := some (lit "alice"), group_name := none,
                 ip := lit "192.0.2.7" }]) := by
  have hg : parse_reply (env_ok (.msg reply_msg_example))
      (session_default_group "group%5flist=admins&username=alice").req.body
      (session_default_group "group%5flist=admins&username=alice").req.body_length
      GROUPNAME_FIELD (some GROUPNAME_FIELD_XML) = .ok (lit "admins") := by decide
  have h := group_selection consts_ref (env_ok (.msg reply_msg_example))
    (session_default_group "group%5flist=admins&username=alice") 1 [] (lit "admins")
    rfl rfl (by decide) hg
  have h2 := (h.2.1 (by
    rintro ⟨d, hd, heq⟩
    have hd2 : d = lit "Select group" := (Option.some.inj hd).symm
    rw [hd2] at heq
    exact absurd heq (by decide))).1
  exact ⟨⟨rfl, rfl, by decide, hg⟩, ⟨h2, by decide⟩, by decide, by decide⟩


/-! ## C25: the counts of routes, DNS and NBNS servers -/

/-- Without a default route the route loop does not leave through `break`. -/
theorem copy_routes_plain (e : Env) (rs : List (List Byte)) (i : Nat)
    (a : List (Option (List Byte))) (s : List StrayWrite)
    (h : ∀ r ∈ rs, is_default_entry (talloc_strdup e r) = false) :
    (copy_routes e rs i a s).2.1 = false := by
  induction rs generalizing i a s with
  | nil => rfl
  | cons r rs ih =>
    unfold copy_routes
    rw [if_neg (by rw [h r (List.mem_cons_self _ _)]; simp)]
    exact ih _ _ _ (fun x hx => h x (List.mem_cons_of_mem _ hx))

/-- Without a default route the route loop writes inside the array when the entries fit it. -/
theorem copy_routes_inside (e : Env) (rs : List (List Byte)) (i : Nat)
    (a : List (Option (List Byte))) (s : List StrayWrite)
    (h : ∀ r ∈ rs, is_default_entry (talloc_strdup e r) = false)
    (hfit : i + rs.length ≤ a.length) :
    (copy_routes e rs i a s).1.length = a.length ∧ (copy_routes e rs i a s).2.2 = s := by
  induction rs generalizing i a with
  | nil => exact ⟨rfl, rfl⟩
  | cons r rs ih =>
    unfold copy_routes
    rw [List.length_cons] at hfit
    rw [if_neg (by rw [h r (List.mem_cons_self _ _)]; simp),
      array_stray_inside _ _ _ _ (by omega), List.append_nil]
    have := ih (i + 1) (array_set a i (talloc_strdup e r))
      (fun x hx => h x (List.mem_cons_of_mem _ hx)) (by rw [array_set_length]; omega)
    rw [array_set_length] at this
    exact this

/-- The route loop over two runs of entries, the first without a default route. -/
theorem copy_routes_append (e : Env) (rs1 rs2 : List (List Byte)) (i : Nat)
    (a : List (Option (List Byte))) (s : List StrayWrite)
    (h : ∀ r ∈ rs1, is_default_entry (talloc_strdup e r) = false) :
    copy_routes e (rs1 ++ rs2) i a s =
      copy_routes e rs2 (i + rs1.length) (copy_routes e rs1 i a s).1
        (copy_routes e rs1 i a s).2.2 := by
  induction rs1 generalizing i a s with
  | nil => rfl
  | cons r rs ih =>
    rw [List.cons_append, copy_routes, copy_routes,
      if_neg (by rw [h r (List.mem_cons_self _ _)]; simp),
      if_neg (by rw [h r (List.mem_cons_self _ _)]; simp),
      ih _ _ _ (fun x hx => h x (List.mem_cons_of_mem _ hx)), List.length_cons,
      show i + 1 + rs.length = i + (rs.length + 1) from by omega]

/-- The loops over `dns` and `nbns` over two runs of entries. -/
theorem copy_strings_append (e : Env) (id : ArrayId) (rs1 rs2 : List (List Byte)) (i : Nat)
    (a : List (Option (List Byte))) (s : List StrayWrite) :
    copy_strings e id (rs1 ++ rs2) i a s =
      copy_strings e id rs2 (i + rs1.length) (copy_strings e id rs1 i a s).1
        (copy_strings e id rs1 i a s).2 := by
  induction rs1 generalizing i a s with
  | nil => rfl
  | cons r rs ih =>
    rw [List.cons_append, copy_strings, copy_strings, ih, List.length_cons,
      show i + 1 + rs.length = i + (rs.length + 1) from by omega]

/-- The route loop over one entry more than the array holds, none a default route: the last
entry is written past the end. -/
theorem copy_routes_one_past (e : Env) (rs : List (List Byte)) (x : List Byte)
    (a : List (Option (List Byte))) (s : List StrayWrite) (hlen : rs.length = a.length)
    (h : ∀ r ∈ rs, is_default_entry (talloc_strdup e r) = false)
    (hx : is_default_entry (talloc_strdup e x) = false) :
    (copy_routes e (rs ++ [x]) 0 a s).1.length = a.length ∧
    (copy_routes e (rs ++ [x]) 0 a s).2.1 = false ∧
    (copy_routes e (rs ++ [x]) 0 a s).2.2 =
      s ++ [{ array := .routes, index := a.length, value := talloc_strdup e x }] := by
  have hin := copy_routes_inside e rs 0 a s h (by omega)
  rw [copy_routes_append e rs [x] 0 a s h, hin.2, Nat.zero_add, hlen]
  unfold copy_routes
  rw [if_neg (by rw [hx]; simp)]
  unfold copy_routes array_stray
  rw [if_neg (by rw [hin.1]; exact Nat.lt_irrefl _), array_set_length, hin.1]
  exact ⟨rfl, rfl, rfl⟩

/-- The loops over `dns` and `nbns` over one entry more than the array holds: the last entry is
written past the end. -/
theorem copy_strings_one_past (e : Env) (id : ArrayId) (rs : List (List Byte)) (x : List Byte)
    (a : List (Option (List Byte))) (s : List StrayWrite) (hlen : rs.length = a.length) :
    (copy_strings e id (rs ++ [x]) 0 a s).1.length = a.length ∧
    (copy_strings e id (rs ++ [x]) 0 a s).2 =
      s ++ [{ array := id, index := a.length, value := talloc_strdup e x }] := by
  have hin := copy_strings_inside e id rs 0 a s (by omega)
  rw [copy_strings_append e id rs [x] 0 a s, hin.2, Nat.zero_add, hlen]
  unfold copy_strings
  unfold copy_strings array_stray
  rw [if_neg (by rw [hin.1]; exact Nat.lt_irrefl _), array_set_length, hin.1]
  exact ⟨rfl, rfl⟩

/-- The sizes `recv_cookie_auth_reply` stores are the counts of the reply, whatever they are:
`dns_size` and `nbns_size` always, `routes_size` when no entry is a default route. -/
theorem recv_cookie_auth_reply_sizes (k : Consts) (e : Env) (ws : Session) (m : AuthReplyMsg)
    (fd : Int) (vname user : List Byte)
    (hrecv : e.cookie_reply = .msg m fd) (hok : m.reply = .OK) (hfd : fd ≠ -1)
    (hv : m.vname = some vname) (hu : m.user_name = some user) :
    (recv_cookie_auth_reply k e ws).2.dns_size = m.dns.length ∧
    (recv_cookie_auth_reply k e ws).2.nbns_size = m.nbns.length ∧
    ((∀ r ∈ m.routes, is_default_entry (talloc_strdup e r) = false) →
      (recv_cookie_auth_reply k e ws).2.routes_size = m.routes.length) := by
  have harr := recv_cookie_auth_reply_arrays k e ws m fd vname user hrecv hok hfd hv hu
  refine ⟨?_, ?_, fun h => ?_⟩
  · rw [recv_cookie_auth_reply_ok k e ws m fd vname user hrecv hok hfd hv hu]
    rfl
  · rw [recv_cookie_auth_reply_ok k e ws m fd vname user hrecv hok hfd hv hu]
    rfl
  · rw [harr.2.1, copy_routes_plain e m.routes 0 ws.routes ws.stray_writes h]
    simp

theorem talloc_strdup_env_cookie (m : AuthReplyMsg) (fd : Int) (r : List Byte) :
    talloc_strdup (env_cookie m fd) r = some (cstr r) := rfl

/-- C25 at a reply with one entry more than the arrays hold, whatever their capacity `cap`:
for arrays of `cap` elements and `cap + 1` routes, DNS servers and NBNS servers (no route being
a default route), `recv_cookie_auth_reply` succeeds, leaves `routes_size`, `dns_size` and
`nbns_size` at `cap + 1`, above the capacity, and has written the index `cap` of each array,
the first one past its end. -/
theorem cookie_reply_exceeds_capacity (cap : Nat) :
    ((session_arrays_example cap).routes.length = cap ∧
      (session_arrays_example cap).dns.length = cap ∧
      (session_arrays_example cap).nbns.length = cap) ∧
    (recv_cookie_auth_reply consts_ref (env_cookie (reply_counts_example (cap + 1)) 5)
      (session_arrays_example cap)).1 = 0 ∧
    (recv_cookie_auth_reply consts_ref (env_cookie (reply_counts_example (cap + 1)) 5)
      (session_arrays_example cap)).2.routes_size = cap + 1 ∧
    (recv_cookie_auth_reply consts_ref (env_cookie (reply_counts_example (cap + 1)) 5)
      (session_arrays_example cap)).2.dns_size = cap + 1 ∧
    (recv_cookie_auth_reply consts_ref (env_cookie (reply_counts_example (cap + 1)) 5)
      (session_arrays_example cap)).2.nbns_size = cap + 1 ∧
    (recv_cookie_auth_reply consts_ref (env_cookie (reply_counts_example (cap + 1)) 5)
      (session_arrays_example cap)).2.routes.length = cap ∧
    (recv_cookie_auth_reply consts_ref (env_cookie (reply_counts_example (cap + 1)) 5)
      (session_arrays_example cap)).2.dns.length = cap ∧
    (recv_cookie_auth_reply consts_ref (env_cookie (reply_counts_example (cap + 1)) 5)
      (session_arrays_example cap)).2.nbns.length = cap ∧
    (recv_cookie_auth_reply consts_ref (env_cookie (reply_counts_example (cap + 1)) 5)
      (session_arrays_example cap)).2.stray_writes =
      [{ array := .routes, index := cap, value := some (lit "10.0.0.0/8") },
       { array := .dns, index := cap, value := some (lit "192.0.2.53") },
       { array := .nbns, index := cap, value := some (lit "192.0.2.54") }] := by
  have hcap : ∀ x : Option (List Byte), (List.replicate cap x).length = cap :=
    fun x => List.length_replicate _ _
  have hnd : ∀ r ∈ (reply_counts_example (cap + 1)).routes,
      is_default_entry (talloc_strdup (env_cookie (reply_counts_example (cap + 1)) 5) r) =
        false := by
    intro r hr
    rw [List.eq_of_mem_replicate hr, talloc_strdup_env_cookie]
    decide
  have hnd1 : ∀ r ∈ List.replicate cap (lit "10.0.0.0/8"),
      is_default_entry (talloc_strdup (env_cookie (reply_counts_example (cap + 1)) 5) r) =
        false := by
    intro r hr
    rw [List.eq_of_mem_replicate hr, talloc_strdup_env_cookie]
    decide
  have hsz := recv_cookie_auth_reply_sizes consts_ref
    (env_cookie (reply_counts_example (cap + 1)) 5) (session_arrays_example cap)
    (reply_counts_example (cap + 1)) 5 (lit "vpns0") (lit "alice") rfl rfl (by decide) rfl rfl
  have harr := recv_cookie_auth_reply_arrays consts_ref
    (env_cookie (reply_counts_example (cap + 1)) 5) (session_arrays_example cap)
    (reply_counts_example (cap + 1)) 5 (lit "vpns0") (lit "alice") rfl rfl (by decide) rfl rfl
  have hlen : ∀ x : List Byte, (List.replicate (cap + 1) x).length = cap + 1 :=
    fun x => List.length_replicate _ _
  have hsplit : ∀ x : List Byte, List.replicate (cap + 1) x = List.replicate cap x ++ [x] :=
    fun x => List.replicate_succ'  _ _
  have hr := copy_routes_one_past (env_cookie (reply_counts_example (cap + 1)) 5)
    (List.replicate cap (lit "10.0.0.0/8")) (lit "10.0.0.0/8") (List.replicate cap none) []
    (by rw [List.length_replicate, List.length_replicate]) hnd1
    (by rw [talloc_strdup_env_cookie]; decide)
  have hdns := fun s => copy_strings_one_past (env_cookie (reply_counts_example (cap + 1)) 5)
    .dns (List.replicate cap (lit "192.0.2.53")) (lit "192.0.2.53") (List.replicate cap none) s
    (by rw [List.length_replicate, List.length_replicate])
  have hnbns := fun s => copy_strings_one_past (env_cookie (reply_counts_example (cap + 1)) 5)
    .nbns (List.replicate cap (lit "192.0.2.54")) (lit "192.0.2.54") (List.replicate cap none) s
    (by rw [List.length_replicate, List.length_replicate])
  rw [← hsplit] at hr
  simp only [← hsplit] at hdns hnbns
  have hroutes : (reply_counts_example (cap + 1)).routes =
      List.replicate (cap + 1) (lit "10.0.0.0/8") := rfl
  have hdnsm : (reply_counts_example (cap + 1)).dns =
      List.replicate (cap + 1) (lit "192.0.2.53") := rfl
  have hnbnsm : (reply_counts_example (cap + 1)).nbns =
      List.replicate (cap + 1) (lit "192.0.2.54") := rfl
  have hws1 : (session_arrays_example cap).routes = List.replicate cap none := rfl
  have hws2 : (session_arrays_example cap).dns = List.replicate cap none := rfl
  have hws3 : (session_arrays_example cap).nbns = List.replicate cap none := rfl
  have hws4 : (session_arrays_example cap).stray_writes = [] := rfl
  rw [hroutes, hdnsm, hnbnsm, hws1, hws2, hws3, hws4] at harr
  refine ⟨⟨hcap _, hcap _, hcap _⟩, ?_, ?_, ?_, ?_, ?_, ?_, ?_, ?_⟩
  · rw [recv_cookie_auth_reply_ok consts_ref _ _ _ 5 (lit "vpns0") (lit "alice") rfl rfl
      (by decide) rfl rfl]
  · rw [hsz.2.2 hnd]
    exact hlen _
  · rw [hsz.1]
    exact hlen _
  · rw [hsz.2.1]
    exact hlen _
  · rw [harr.1, hr.1]
    exact hcap _
  · rw [harr.2.2.2.1, (hdns _).1]
    exact hcap _
  · rw [harr.2.2.2.2.1, (hnbns _).1]
    exact hcap _
  · rw [harr.2.2.2.2.2, (hnbns _).2, (hdns _).2, hr.2.2, hcap]
    rfl


/-! ## C24: the sid is read only when `sid_set` is set -/

theorem get_cert_names_sid (k : Consts) (e : Env) (ws : Session) (s : List Byte)
    (crt : PeerCert) :
    get_cert_names k e { ws with sid := s } crt =
      ((get_cert_names k e ws crt).1, { (get_cert_names k e ws crt).2 with sid := s }) := by
  unfold get_cert_names
  dsimp only
  by_cases h1 : cstr ws.cert_username ≠ [] ∨ ws.cert_groups.length > 0
  · rw [if_pos h1, if_pos h1]
  rw [if_neg h1, if_neg h1]
  by_cases h2 : crt.init_ret < 0
  · rw [if_pos h2, if_pos h2]
  rw [if_neg h2, if_neg h2]
  by_cases h3 : crt.import_ret < 0
  · rw [if_pos h3, if_pos h3]
  rw [if_neg h3, if_neg h3]
  cases ws.config.cert_user_oid <;> cases ws.config.cert_group_oid <;> dsimp only <;>
    repeat' first | split | dsimp only

theorem get_cert_info_sid (k : Consts) (e : Env) (ws : Session) (s : List Byte) :
    get_cert_info k e { ws with sid := s } =
      ((get_cert_info k e ws).1, { (get_cert_info k e ws).2 with sid := s }) := by
  unfold get_cert_info
  cases e.peers with
  | none => rfl
  | some crt =>
    dsimp only
    rw [get_cert_names_sid]
    dsimp only
    split <;> rfl

theorem append_cert_groups_sid (e : Env) (ws : Session) (s : List Byte)
    (gs : List (List Byte)) (str : List Byte) :
    append_cert_groups e { ws with sid := s } gs str = append_cert_groups e ws gs str := by
  induction gs generalizing str with
  | nil => rfl
  | cons g gs ih =>
    unfold append_cert_groups
    have hd : cert_group_dup { ws with sid := s } g = cert_group_dup ws g := rfl
    rw [hd]
    split
    · exact ih str
    · split
      · rfl
      · exact ih _

theorem append_config_groups_sid (e : Env) (ws : Session) (s : List Byte) (n i : Nat)
    (str : List Byte) :
    append_config_groups e { ws with sid := s } n i str = append_config_groups e ws n i str := by
  induction n generalizing i str with
  | zero => rfl
  | succ n ih =>
    unfold append_config_groups
    have hi : append_group_idx e { ws with sid := s } str i = append_group_idx e ws str i := rfl
    dsimp only
    rw [hi]
    split
    · exact ih _ str
    · split
      · rfl
      · exact ih _ _

theorem append_groups_sid (k : Consts) (e : Env) (ws : Session) (s : List Byte)
    (str : List Byte) :
    append_groups k e { ws with sid := s } str = append_groups k e ws str := by
  unfold append_groups
  have h1 : ∀ st g, append_group_str e { ws with sid := s } st g = append_group_str e ws st g :=
    fun _ _ => rfl
  have h2 : cert_enabled k { ws with sid := s } = cert_enabled k ws := rfl
  simp only [h1, h2, append_cert_groups_sid, append_config_groups_sid]


theorem get_auth_handler2_str_sid (k : Consts) (e : Env) (ws : Session) (s : List Byte)
    (pmsg : Option (List Byte)) :
    get_auth_handler2_str k e { ws with sid := s } pmsg =
      ((get_auth_handler2_str k e ws pmsg).1,
        { (get_auth_handler2_str k e ws pmsg).2 with sid := s }) := by
  have hc : cert_enabled k { ws with sid := s } = cert_enabled k ws := rfl
  unfold get_auth_handler2_str
  dsimp only
  rw [hc, get_cert_info_sid]
  dsimp only
  by_cases h1 : ws.auth_state = .S_AUTH_REQ
  · rw [if_pos h1, if_pos h1]
    repeat' first | split | dsimp only
  rw [if_neg h1, if_neg h1]
  cases str_append_str e [] login_msg_user_start with
  | none => rfl
  | some str =>
    dsimp only
    cases hce : cert_enabled k ws with
    | false =>
      simp only [Bool.false_eq_true, false_and, ↓reduceIte, append_groups_sid]
      cases append_groups k e ws str with
      | none => rfl
      | some str1 =>
        dsimp only
        cases str_append_str e str1 login_msg_user_end <;> rfl
    | true =>
      simp only [true_and, ↓reduceIte, append_groups_sid]
      by_cases h2 : (get_cert_info k e ws).1 < 0
      · rw [if_pos h2, if_pos h2]
      rw [if_neg h2, if_neg h2]
      cases append_groups k e (get_cert_info k e ws).2 str with
      | none => rfl
      | some str1 =>
        dsimp only
        cases str_append_str e str1 login_msg_user_end <;> rfl


/-- With `sid_set = 0` the function `get_auth_handler2` does not read the sid: its return value
and its output are those for any other content of `sid`. -/
theorem get_auth_handler2_sid (k : Consts) (e : Env) (ws : Session) (s : List Byte)
    (http_ver : Nat) (pmsg : Option (List Byte)) (out : Tls) (h0 : ws.sid_set = 0) :
    get_auth_handler2 k e { ws with sid := s } http_ver pmsg out =
      ((get_auth_handler2 k e ws http_ver pmsg out).1,
        { (get_auth_handler2 k e ws http_ver pmsg out).2.1 with sid := s },
        (get_auth_handler2 k e ws http_ver pmsg out).2.2) := by
  unfold get_auth_handler2
  rw [get_auth_handler2_str_sid]
  generalize get_auth_handler2_str k e ws pmsg = x
  rcases x with ⟨_ | str, w⟩
  · dsimp only
    simp only [h0, ne_eq, not_true_eq_false, ↓reduceIte]
    repeat' first | split | dsimp only
    all_goals simp only [h0]
  · dsimp only
    simp only [h0, ne_eq, not_true_eq_false, ↓reduceIte]
    repeat' first | split | dsimp only
    all_goals simp only [h0]


theorem post_auth_reply_sent (k : Consts) (e : Env) (ws : Session) (http_ver : Nat)
    (out : Tls) (sent : List SecmodMsg) :
    (post_auth_reply k e ws http_ver out sent).sent = sent := by
  unfold post_auth_reply
  dsimp only
  repeat' split
  all_goals rfl

theorem post_auth_send_init_sent (k : Consts) (e : Env) (ws : Session) (http_ver : Nat)
    (out : Tls) (ireq : SecAuthInitMsg) :
    (post_auth_send_init k e ws http_ver out ireq).sent =
      if e.connect_ok = true ∧ e.send_ok = true then [.init ireq] else [] := by
  unfold post_auth_send_init
  cases e.connect_ok <;> cases e.send_ok <;> simp [post_auth_reply_sent, auth_fail]

theorem post_auth_cert_sent_sid (k : Consts) (e : Env) (ws : Session) (s : List Byte)
    (http_ver : Nat) (out : Tls) (ireq : SecAuthInitMsg) :
    (post_auth_cert k e { ws with sid := s } http_ver out ireq).sent =
      (post_auth_cert k e ws http_ver out ireq).sent := by
  unfold post_auth_cert
  dsimp only
  rw [get_cert_info_sid]
  dsimp only
  repeat' split
  all_goals first | rfl | simp only [post_auth_send_init_sent]

theorem store_groupname_sid (k : Consts) (ws : Session) (s : List Byte) (r : ParseResult) :
    store_groupname k { ws with sid := s } r = { store_groupname k ws r with sid := s } := by
  cases r with
  | ok g =>
    unfold store_groupname
    dsimp only
    cases ws.config.default_select_group with
    | none => rfl
    | some d =>
      dsimp only
      split <;> rfl
  | not_found => rfl
  | empty off => rfl
  | unescape_failed => rfl

theorem post_auth_inactive_sent_sid (k : Consts) (e : Env) (ws : Session) (s : List Byte)
    (http_ver : Nat) (out : Tls) :
    (post_auth_inactive k e { ws with sid := s } http_ver out).sent =
      (post_auth_inactive k e ws http_ver out).sent := by
  have hi : ∀ r, init_group_name k { ws with sid := s } r = init_group_name k ws r :=
    fun _ => rfl
  unfold post_auth_inactive
  dsimp only
  simp only [store_groupname_sid, hi]
  by_cases hp : (ws.config.auth_types &&& k.AUTH_TYPE_USERNAME_PASS) ≠ 0
  · rw [if_pos hp, if_pos hp]
    generalize parse_reply e ws.req.body ws.req.body_length GROUPNAME_FIELD
      (some GROUPNAME_FIELD_XML) = rg
    generalize parse_reply e ws.req.body ws.req.body_length USERNAME_FIELD none = ru
    cases rg <;> cases ru <;> first
      | rfl
      | exact post_auth_cert_sent_sid k e
          { store_groupname k ws _ with username := snprintf_buf k.MAX_USERNAME_SIZE _ }
          s http_ver out _
  · rw [if_neg hp, if_neg hp]
    exact post_auth_cert_sent_sid k e ws s http_ver out _


/-- The messages the branch for INIT and REQ sends: none, or one `SecAuthCont` whose sid is
`ws->sid` when `sid_set` is not 0 and absent otherwise. -/
theorem post_auth_cont_sent (k : Consts) (e : Env) (ws : Session) (http_ver : Nat)
    (out : Tls) :
    (post_auth_cont k e ws http_ver out).sent = [] ∨
    ∃ p, parse_reply e ws.req.body ws.req.body_length PASSWORD_FIELD none = .ok p ∧
      (post_auth_cont k e ws http_ver out).sent =
        [.cont { password := cstr p, sid := if ws.sid_set ≠ 0 then some ws.sid else none }] := by
  unfold post_auth_cont
  by_cases hp : (ws.config.auth_types &&& k.AUTH_TYPE_USERNAME_PASS) ≠ 0
  · rw [if_pos hp]
    cases hr : parse_reply e ws.req.body ws.req.body_length PASSWORD_FIELD none with
    | ok p =>
      dsimp only
      by_cases hc : e.connect_ok = true
      · by_cases hs : e.send_ok = true
        · rw [if_neg (by rw [hc]; simp), if_neg (by rw [hs]; simp), post_auth_reply_sent]
          exact Or.inr ⟨p, rfl, rfl⟩
        · rw [if_neg (by rw [hc]; simp), if_pos hs]
          exact Or.inl rfl
      · rw [if_pos hc]
        exact Or.inl rfl
    | not_found => exact Or.inl rfl
    | empty off => exact Or.inl rfl
    | unescape_failed => exact Or.inl rfl
  · rw [if_neg hp]
    exact Or.inl rfl

/-- The messages the branch INACTIVE sends are `SecAuthInit` messages. -/
theorem post_auth_inactive_sent (k : Consts) (e : Env) (ws : Session) (http_ver : Nat)
    (out : Tls) :
    ∀ msg ∈ (post_auth_inactive k e ws http_ver out).sent, ∃ ireq, msg = .init ireq := by
  have hc : ∀ ws1 ireq, ∀ msg ∈ (post_auth_cert k e ws1 http_ver out ireq).sent,
      ∃ i, msg = SecmodMsg.init i := by
    intro ws1 ireq
    unfold post_auth_cert
    repeat' split
    all_goals first
      | exact fun _ h => by cases h
      | (rw [post_auth_send_init_sent]
         split
         · exact fun msg h => ⟨_, List.mem_singleton.1 h⟩
         · exact fun _ h => by cases h)
  unfold post_auth_inactive
  repeat' split
  all_goals first
    | exact fun _ h => by cases h
    | exact hc _ _

theorem post_auth_cont_sent_sid (k : Consts) (e : Env) (ws : Session) (s : List Byte)
    (http_ver : Nat) (out : Tls) (h0 : ws.sid_set = 0) :
    (post_auth_cont k e { ws with sid := s } http_ver out).sent =
      (post_auth_cont k e ws http_ver out).sent := by
  unfold post_auth_cont
  dsimp only
  simp only [h0, ne_eq, not_true_eq_false, ↓reduceIte, post_auth_reply_sent]
  repeat' first | split | dsimp only
  all_goals first | rfl | simp only [post_auth_reply_sent]

/-- With `sid_set = 0` the messages `post_auth_handler` sends are those for any other content
of `sid`. -/
theorem post_auth_handler_sent_sid (k : Consts) (e : Env) (ws : Session) (s : List Byte)
    (http_ver : Nat) (out : Tls) (h0 : ws.sid_set = 0) :
    (post_auth_handler k e { ws with sid := s } http_ver out).sent =
      (post_auth_handler k e ws http_ver out).sent := by
  have hnot : ¬ (ws.sid_set ≠ 0 ∧ ws.auth_state = .S_AUTH_INACTIVE) := fun h => h.1 h0
  unfold post_auth_handler
  dsimp only
  rw [if_neg hnot, if_neg hnot]
  split <;> rename_i h <;> conv_rhs => rw [h]
  · exact post_auth_inactive_sent_sid k e ws s http_ver out
  · exact post_auth_cont_sent_sid k e ws s http_ver out h0
  · exact post_auth_cont_sent_sid k e ws s http_ver out h0
  · rfl

/-- The sid of every `SecAuthCont` message `post_auth_handler` sends. -/
theorem post_auth_handler_cont_sid (k : Consts) (e : Env) (ws : Session) (http_ver : Nat)
    (out : Tls) (areq : SecAuthContMsg)
    (h : SecmodMsg.cont areq ∈ (post_auth_handler k e ws http_ver out).sent) :
    areq.sid = if ws.sid_set ≠ 0 then some ws.sid else none := by
  have hcont : ∀ ws1 : Session, ws1.sid = ws.sid → ws1.sid_set = ws.sid_set →
      SecmodMsg.cont areq ∈ (post_auth_cont k e ws1 http_ver out).sent →
      areq.sid = if ws.sid_set ≠ 0 then some ws.sid else none := by
    intro ws1 h1 h2 hm
    rcases post_auth_cont_sent k e ws1 http_ver out with h3 | ⟨p, _, h3⟩
    · rw [h3] at hm
      cases hm
    · rw [h3, List.mem_singleton] at hm
      rw [SecmodMsg.cont.inj hm, h1, h2]
  have hinact : ∀ ws1 : Session,
      SecmodMsg.cont areq ∈ (post_auth_inactive k e ws1 http_ver out).sent → False := by
    intro ws1 hm
    obtain ⟨i, hi⟩ := post_auth_inactive_sent k e ws1 http_ver out _ hm
    cases hi
  unfold post_auth_handler at h
  dsimp only at h
  split at h
  · exact absurd h (hinact _)
  · refine hcont _ ?_ ?_ h <;> split <;> rfl
  · refine hcont _ ?_ ?_ h <;> split <;> rfl
  · cases h


theorem not_context_head (a x : List Byte) (b : Byte) (h : a.head? = some b) (hb : b ≠ 83) :
    is_context_cookie (a ++ x) = false := by
  cases a with
  | nil => cases h
  | cons c cs =>
    simp only [List.head?_cons, Option.some.injEq] at h
    subst h
    have : lit "Set-Cookie: webvpncontext=" = 83 :: lit "et-Cookie: webvpncontext=" := by decide
    unfold is_context_cookie
    rw [this, List.cons_append, List.isPrefixOf]
    simp [Ne.symm hb]

set_option maxRecDepth 100000 in
/-- With `sid_set = 0` no piece of the output of a successful `get_auth_handler2` is the header
line `Set-Cookie: webvpncontext=`. -/
theorem get_auth_handler2_no_context (k : Consts) (e : Env) (ws : Session) (http_ver : Nat)
    (pmsg : Option (List Byte)) (out : Tls) (h0 : ws.sid_set = 0)
    (hret : (get_auth_handler2 k e ws http_ver pmsg out).1 = 0) :
    ∀ chunk ∈ (get_auth_handler2 k e ws http_ver pmsg out).2.2.drop out.length,
      is_context_cookie chunk = false := by
  obtain ⟨str, h1, h2⟩ := get_auth_handler2_ok k e ws http_ver pmsg out hret
  obtain ⟨hreq, hnreq⟩ := get_auth_handler2_str_eq k e ws _ pmsg str h1
  have hstr : is_context_cookie str = false := by
    by_cases hs : ws.auth_state = .S_AUTH_REQ
    · rw [(hreq hs).2, List.append_assoc]
      exact not_context_head _ _ 60 (by decide) (by decide)
    · rw [(hnreq hs).2]
      unfold sent_user_document
      rw [List.append_assoc]
      exact not_context_head _ _ 60 (by decide) (by decide)
  rw [h2, if_neg (by rw [h0]; simp), List.append_nil, List.append_assoc, List.drop_left]
  intro chunk hc
  simp only [List.cons_append, List.nil_append, List.mem_cons, List.mem_singleton,
    List.not_mem_nil, or_false] at hc
  rcases hc with h | h | h | h | h | h | h
  · rw [h, List.append_assoc]
    exact not_context_head _ _ 72 (by decide) (by decide)
  · rw [h]
    decide
  · rw [h]
    decide
  · rw [h, List.append_assoc]
    exact not_context_head _ _ 67 (by decide) (by decide)
  · rw [h]
    decide
  · rw [h]
    decide
  · rw [h]
    exact hstr


/-- C24: the sid is read only when `sid_set` is not 0. For two sessions that differ only in the
content of `sid`, with `sid_set = 0`: `get_auth_handler2` returns the same value and leaves the
same output, which on success holds no line `Set-Cookie: webvpncontext=`; `post_auth_handler`
sends the same messages, and a `SecAuthCont` among them has no sid. With `sid_set` not 0: the
output of a successful `get_auth_handler2` holds the line
`Set-Cookie: webvpncontext=<base64(sid)>; Max-Age=<MAX_AUTH_SECS>; Secure` (the number printed
with `%u`), every `SecAuthCont` sent carries `ws->sid`, and one is sent when the state is not
COOKIE, password authentication is enabled, the password parses and the security module can be
reached. -/
theorem sid_read_only_when_set (k : Consts) (e : Env) (ws : Session) (s : List Byte)
    (http_ver : Nat) (pmsg : Option (List Byte)) (out : Tls) :
    (ws.sid_set = 0 →
      (get_auth_handler2 k e { ws with sid := s } http_ver pmsg out).1 =
        (get_auth_handler2 k e ws http_ver pmsg out).1 ∧
      (get_auth_handler2 k e { ws with sid := s } http_ver pmsg out).2.2 =
        (get_auth_handler2 k e ws http_ver pmsg out).2.2 ∧
      ((get_auth_handler2 k e ws http_ver pmsg out).1 = 0 →
        ∀ chunk ∈ (get_auth_handler2 k e ws http_ver pmsg out).2.2.drop out.length,
          is_context_cookie chunk = false) ∧
      (post_auth_handler k e { ws with sid := s } http_ver out).sent =
        (post_auth_handler k e ws http_ver out).sent ∧
      ∀ areq, SecmodMsg.cont areq ∈ (post_auth_handler k e ws http_ver out).sent →
        areq.sid = none) ∧
    (ws.sid_set ≠ 0 →
      ((get_auth_handler2 k e ws http_ver pmsg out).1 = 0 →
        (lit "Set-Cookie: webvpncontext=" ++ cstr (e.base64_encode ws.sid) ++
          lit "; Max-Age=" ++ fmt_u k.MAX_AUTH_SECS ++ lit "; Secure\r\n") ∈
          (get_auth_handler2 k e ws http_ver pmsg out).2.2) ∧
      (∀ areq, SecmodMsg.cont areq ∈ (post_auth_handler k e ws http_ver out).sent →
        areq.sid = some ws.sid) ∧
      (∀ p, ws.auth_state ≠ .S_AUTH_COOKIE →
        (ws.config.auth_types &&& k.AUTH_TYPE_USERNAME_PASS) ≠ 0 →
        parse_reply e ws.req.body ws.req.body_length PASSWORD_FIELD none = .ok p →
        e.connect_ok = true → e.send_ok = true →
        (post_auth_handler k e ws http_ver out).sent =
          [.cont { password := cstr p, sid := some ws.sid }])) := by
  constructor
  · intro h0
    have hg := get_auth_handler2_sid k e ws s http_ver pmsg out h0
    refine ⟨by rw [hg], by rw [hg],
      get_auth_handler2_no_context k e ws http_ver pmsg out h0,
      post_auth_handler_sent_sid k e ws s http_ver out h0, fun areq h => ?_⟩
    have := post_auth_handler_cont_sid k e ws http_ver out areq h
    rw [if_neg (by rw [h0]; simp)] at this
    exact this
  · intro h1
    refine ⟨fun hret => ?_, fun areq h => ?_, fun p hstate hpass hparse hconn hsend => ?_⟩
    · obtain ⟨str, _, h2⟩ := get_auth_handler2_ok k e ws http_ver pmsg out hret
      rw [h2, if_pos h1]
      simp
    · have := post_auth_handler_cont_sid k e ws http_ver out areq h
      rw [if_pos h1] at this
      exact this
    · have hcont : ∀ ws1 : Session, ws1.sid = ws.sid → ws1.sid_set = ws.sid_set →
          ws1.config = ws.config → ws1.req = ws.req →
          (post_auth_cont k e ws1 http_ver out).sent =
            [.cont { password := cstr p, sid := some ws.sid }] := by
        intro ws1 e1 e2 e3 e4
        unfold post_auth_cont
        rw [e3, e4, if_pos hpass, hparse]
        dsimp only
        rw [if_neg (by rw [hconn]; simp), if_neg (by rw [hsend]; simp), post_auth_reply_sent,
          e1, e2, if_pos h1]
      unfold post_auth_handler
      dsimp only
      split
      · rename_i hs
        split at hs
        · cases hs
        · rename_i hn
          exact absurd ⟨h1, hs⟩ hn
      · refine hcont _ ?_ ?_ ?_ ?_ <;> split <;> rfl
      · refine hcont _ ?_ ?_ ?_ ?_ <;> split <;> rfl
      · rename_i hs
        split at hs
        · cases hs
        · exact absurd hs hstate


set_option maxRecDepth 100000 in
/-- C24 on a session in state REQ that holds the sid `1, ..., 12`: the challenge carries the
cookie `webvpncontext=AQIDBAUGBwgJCgsM` and the POST of `password=123456` sends the sid; and on
a fresh session, whose `sid_set` is 0, the bytes `9, 9` in `sid` change nothing. -/
theorem sid_read_only_when_set_witness :
    (session_sid_example.sid_set ≠ 0 ∧
      (get_auth_handler2 consts_ref (env_ok (.msg reply_msg_example)) session_sid_example 1
        none []).1 = 0) ∧
    lit "Set-Cookie: webvpncontext=AQIDBAUGBwgJCgsM; Max-Age=360; Secure\r\n" ∈
      (get_auth_handler2 consts_ref (env_ok (.msg reply_msg_example)) session_sid_example 1
        none []).2.2 ∧
    (post_auth_handler consts_ref (env_ok (.msg reply_msg_example)) session_sid_example 1
      []).sent =
      [.cont { password := lit "123456",
               sid := some [1, 2, 3, 4, 5, 6, 7, 8, 9, 10, 11, 12] }] ∧
    ((session_with_body "password=123456").sid_set = 0 ∧
      (get_auth_handler2 consts_ref (env_ok (.msg reply_msg_example))
        { session_with_body "password=123456" with sid := [9, 9] } 1 none []).2.2 =
      (get_auth_handler2 consts_ref (env_ok (.msg reply_msg_example))
        (session_with_body "password=123456") 1 none []).2.2) := by
  have h := sid_read_only_when_set consts_ref (env_ok (.msg reply_msg_example))
    session_sid_example [] 1 none []
  have h2 := sid_read_only_when_set consts_ref (env_ok (.msg reply_msg_example))
    (session_with_body "password=123456") [9, 9] 1 none []
  have hret : (get_auth_handler2 consts_ref (env_ok (.msg reply_msg_example))
      session_sid_example 1 none []).1 = 0 := by decide
  exact ⟨⟨by decide, hret⟩, (h.2 (by decide)).1 hret,
    (h.2 (by decide)).2.2 (lit "123456") (by decide) (by decide) (by decide) rfl rfl,
    rfl, (h2.1 rfl).2.1⟩

end WorkerAuth
